import Mathlib

/-!
Mantle: kube ⇄ shorthand converters

A shallow embedding of the converters of `pkg/apps` and `pkg/core` and the
properties of the selector/template reconciler and of the version dispatchers.

Conventions of the embedding:
* a Go `map[string]string` is an `Option` of an association list with unique
  keys; `none` is the nil map, `some` a non-nil map (possibly empty);
* a Go slice is a `List` (the nil and the empty slice both have length 0 and
  are only ever inspected through `len` and `range`);
* a Go `(T, error)` result is an `Except Error T`;
* a Go pointer that may be nil is an `Option`;
* collaborators that live outside the repository (the label-selector
  expression compiler, the pod-template converters) are function parameters.
-/

set_option linter.dupNamespace false

namespace Mantle

/-! ## Go values -/

/-- Entries of a non-nil Go `map[string]string`: unique keys, order irrelevant. -/
abbrev StrMap := AList (fun _ : String => String)

/-- A Go `map[string]string`; `none` is the nil map. -/
abbrev GoMap := Option StrMap

/-- Reading a key of a Go map (`m[k]` with the comma-ok form); a nil map has no keys. -/
def GoMap.get (m : GoMap) (k : String) : Option String :=
  match m with
  | none => none
  | some a => a.lookup k

/-- Go `len(m)` for a map. -/
def GoMap.len (m : GoMap) : Nat :=
  match m with
  | none => 0
  | some a => a.entries.length

/-- The spec's LabelSet equality: the same key→value pairs, irrespective of
order and of the nil/empty representation. -/
def labelSetEq (a b : GoMap) : Prop := ∀ k, a.get k = b.get k

/-- Go `reflect.DeepEqual` on two `map[string]string` values: both nil or both
non-nil, equal lengths, and every key of the first is in the second with an
equal value. -/
def deepEqual : GoMap → GoMap → Bool
  | none, none => true
  | some a, some b =>
      a.entries.length == b.entries.length &&
        a.entries.all (fun e => b.lookup e.1 == some e.2)
  | _, _ => false

/-- A value handed to `serrors.InvalidValueErrorf`. -/
inductive GoVal where
  | str (s : String)
  | int (i : Int)
  deriving DecidableEq, Repr

/-- Errors returned by the converters. -/
inductive Error where
  /-- An error built by `fmt.Errorf`, with its rendered message. -/
  | errorf (msg : String)
  /-- An error built by `serrors.InvalidValueErrorf(value, msg)`. -/
  | invalidValue (value : GoVal) (msg : String)
  /-- An error built by `serrors.ContextualizeErrorf(err, ctx)`. -/
  | context (inner : Error) (ctx : String)
  /-- An error built by `serrors.InvalidInstanceErrorf(obj, msg)`. -/
  | invalidInstance (msg : String)
  /-- An error built by `serrors.TypeErrorf(obj, msg)`. -/
  | typeError (msg : String)
  /-- An error built by `serrors.InvalidValueContextErrorf(err, obj, msg)`. -/
  | invalidValueContext (inner : Error) (msg : String)
  /-- An error produced by a collaborator outside the repository. -/
  | external (msg : String)
  deriving DecidableEq, Repr

/-! ## Label selectors (`pkg/apps/apps.go`) -/

/-- The kube `metav1.LabelSelectorRequirement`. -/
structure LabelSelectorRequirement where
  Key : String
  Operator : String
  Values : List String
  deriving DecidableEq

/-- The kube `metav1.LabelSelector`. -/
structure LabelSelector where
  MatchLabels : GoMap
  MatchExpressions : List LabelSelectorRequirement
  deriving DecidableEq

/-- The shorthand selector `RSSelector` of `apps.go`. -/
structure RSSelector where
  Shorthand : String := ""
  Labels : GoMap := none
  deriving DecidableEq

/-- The function `fromRSLabelSelector` of `apps.go`; `unparse` is the external
`expressions.UnparseLabelSelector`. The result is the returned selector pointer
and the template-labels override (nil when there is none). -/
def fromRSLabelSelector (unparse : LabelSelector → Except Error String)
    (kubeSelector : Option LabelSelector) (kubeTemplateLabels : GoMap) :
    Except Error (Option RSSelector × GoMap) :=
  match kubeSelector with
  | none => .ok (some { Labels := kubeTemplateLabels }, none)
  | some sel =>
    if sel.MatchExpressions.length = 0 then
      if deepEqual sel.MatchLabels kubeTemplateLabels then
        .ok (some { Labels := sel.MatchLabels }, none)
      else
        .ok (some { Labels := sel.MatchLabels }, kubeTemplateLabels)
    else
      match unparse sel with
      | .error err => .error err
      | .ok selectorString => .ok (some { Shorthand := selectorString }, kubeTemplateLabels)

/-! ## Namespaces (`pkg/core/namespace`) -/

/-- The shorthand `NamespacePhase`, a Go `int`. -/
abbrev NamespacePhase := Int

/-- The constant `NamespaceActive` (`iota` = 0). -/
def NamespaceActive : NamespacePhase := 0

/-- The constant `NamespaceTerminating` (`iota` = 1). -/
def NamespaceTerminating : NamespacePhase := 1

/-- The shorthand `FinalizerName`, a Go `int`. -/
abbrev FinalizerName := Int

/-- The constant `FinalizerKubernetes` (`iota` = 0). -/
def FinalizerKubernetes : FinalizerName := 0

/-- The shorthand `Namespace` of `namespace.go`. -/
structure Namespace where
  Version : String := ""
  Cluster : String := ""
  Name : String := ""
  Namespace : String := ""
  Labels : GoMap := none
  Annotations : GoMap := none
  Finalizers : List FinalizerName := []
  Phase : NamespacePhase := 0
  deriving DecidableEq

/-- The kube `v1.NamespaceSpec`; a `v1.FinalizerName` is a string. -/
structure NamespaceSpec where
  Finalizers : List String := []
  deriving DecidableEq

/-- The kube `v1.NamespaceStatus`; a `v1.NamespacePhase` is a string. -/
structure NamespaceStatus where
  Phase : String := ""
  deriving DecidableEq

/-- The kube `v1.Namespace`, with the fields the converters read or write. -/
structure KubeNamespace where
  Kind : String := ""
  APIVersion : String := ""
  Name : String := ""
  Namespace : String := ""
  ClusterName : String := ""
  Labels : GoMap := none
  Annotations : GoMap := none
  Spec : NamespaceSpec := {}
  Status : NamespaceStatus := {}
  deriving DecidableEq

/-- The kube constant `v1.FinalizerKubernetes`. -/
def kubeFinalizerKubernetes : String := "kubernetes"

/-- The kube constant `v1.NamespaceActive`. -/
def kubeNamespaceActive : String := "Active"

/-- The kube constant `v1.NamespaceTerminating`. -/
def kubeNamespaceTerminating : String := "Terminating"

/-- The loop of `fromKubeNamespaceSpecV1` over the kube finalizers, in order. -/
def fromKubeFinalizersV1 : List String → Except Error (List FinalizerName)
  | [] => .ok []
  | kubeFinalizer :: rest =>
    if kubeFinalizer = kubeFinalizerKubernetes then
      match fromKubeFinalizersV1 rest with
      | .error err => .error err
      | .ok kokiFinalizers => .ok (FinalizerKubernetes :: kokiFinalizers)
    else
      .error (.invalidValue (.str kubeFinalizer) "unrecognized finalizer")

/-- The function `fromKubeNamespaceSpecV1` of `namespace/from_kube.go`. -/
def fromKubeNamespaceSpecV1 (kubeSpec : NamespaceSpec) : Except Error (List FinalizerName) :=
  fromKubeFinalizersV1 kubeSpec.Finalizers

/-- The function `fromKubeNamespaceStatusV1` of `namespace/from_kube.go`. -/
def fromKubeNamespaceStatusV1 (kubeStatus : NamespaceStatus) : Except Error NamespacePhase :=
  if kubeStatus.Phase = kubeNamespaceActive then .ok NamespaceActive
  else if kubeStatus.Phase = kubeNamespaceTerminating then .ok NamespaceTerminating
  else .error (.invalidValue (.str kubeStatus.Phase) "invalid phase")

/-- The function `fromKubeNamespaceV1` of `namespace/from_kube.go`. -/
def fromKubeNamespaceV1 (kubeNamespace : KubeNamespace) : Except Error Namespace :=
  match fromKubeNamespaceSpecV1 kubeNamespace.Spec with
  | .error err => .error err
  | .ok finalizers =>
    match fromKubeNamespaceStatusV1 kubeNamespace.Status with
    | .error err => .error err
    | .ok phase =>
      .ok { Name := kubeNamespace.Name
            Namespace := kubeNamespace.Namespace
            Version := kubeNamespace.APIVersion
            Cluster := kubeNamespace.ClusterName
            Labels := kubeNamespace.Labels
            Annotations := kubeNamespace.Annotations
            Finalizers := finalizers
            Phase := phase }

/-- Go `strings.ToLower`, as far as the converters depend on it: the ASCII
capitals are lower-cased. (Go also lower-cases capitals outside ASCII; none of
them becomes `v` or `1`, so both agree on which strings lower-case to `"v1"`
and to `""`.) -/
def toLower (s : String) : String := String.mk (s.data.map Char.toLower)

/-- The function `toKubeFinalizerV1` of `namespace/to_kube.go`. -/
def toKubeFinalizerV1 (kokiFinalizer : FinalizerName) : Except Error String :=
  if kokiFinalizer = FinalizerKubernetes then .ok kubeFinalizerKubernetes
  else .error (.invalidValue (.int kokiFinalizer) "unrecognized value")

/-- The loop of `toKubeNamespaceSpecV1` over the shorthand finalizers, in order. -/
def toKubeFinalizersV1 : List FinalizerName → Except Error (List String)
  | [] => .ok []
  | kokiFinalizer :: rest =>
    match toKubeFinalizerV1 kokiFinalizer with
    | .error err => .error err
    | .ok kubeFinalizer =>
      match toKubeFinalizersV1 rest with
      | .error err => .error err
      | .ok kubeFinalizers => .ok (kubeFinalizer :: kubeFinalizers)

/-- The method `toKubeNamespaceSpecV1` of `namespace/to_kube.go`. -/
def Namespace.toKubeNamespaceSpecV1 (ns : Mantle.Namespace) : Except Error NamespaceSpec :=
  match toKubeFinalizersV1 ns.Finalizers with
  | .error err => .error err
  | .ok kubeFinalizers => .ok { Finalizers := kubeFinalizers }

/-- The method `toKubeNamespaceStatusV1` of `namespace/to_kube.go`. Its first
test, `&ns.Phase == nil`, compares the address of a field with nil and is
never true. -/
def Namespace.toKubeNamespaceStatusV1 (ns : Mantle.Namespace) : Except Error NamespaceStatus :=
  if ns.Phase = NamespaceActive then .ok { Phase := kubeNamespaceActive }
  else if ns.Phase = NamespaceTerminating then .ok { Phase := kubeNamespaceTerminating }
  else .error (.invalidValue (.int ns.Phase) "Invalid namespace phase")

/-- The method `toKubeV1` of `namespace/to_kube.go`. -/
def Namespace.toKubeV1 (ns : Mantle.Namespace) : Except Error KubeNamespace :=
  match ns.toKubeNamespaceSpecV1 with
  | .error err => .error (.context err "Namespace spec")
  | .ok spec =>
    match ns.toKubeNamespaceStatusV1 with
    | .error err => .error (.context err "Namespace status")
    | .ok status =>
      .ok { Name := ns.Name
            Namespace := ns.Namespace
            APIVersion := if ns.Version.length = 0 then "v1" else ns.Version
            Kind := "Namespace"
            ClusterName := ns.Cluster
            Labels := ns.Labels
            Annotations := ns.Annotations
            Spec := spec
            Status := status }

/-- The method `ToKube` of `namespace/to_kube.go`; the object it returns is a
`*v1.Namespace`. -/
def Namespace.ToKube (ns : Mantle.Namespace) : Except Error KubeNamespace :=
  if toLower ns.Version = "v1" then ns.toKubeV1
  else if toLower ns.Version = "" then ns.toKubeV1
  else .error (.errorf ("unsupported api version for Namespace: " ++ ns.Version))

/-! ## Secrets (`pkg/core/secret`) -/

/-- A Go `map[string][]byte`; `none` is the nil map. -/
abbrev ByteMap := Option (AList (fun _ : String => List (Fin 256)))

/-- The kube `v1.Secret`, with the fields the converters read or write; a
`v1.SecretType` is a string. -/
structure KubeSecret where
  Kind : String := ""
  APIVersion : String := ""
  Name : String := ""
  Namespace : String := ""
  ClusterName : String := ""
  Labels : GoMap := none
  Annotations : GoMap := none
  Data : ByteMap := none
  StringData : GoMap := none
  /-- The field `Type` (a reserved word here). -/
  Type_ : String := ""
  deriving DecidableEq

/-- The shorthand `Secret`; its declaration is not among the sources, the
fields are those `fromKubeSecretV1` fills in. `SecretType` is a string type. -/
structure Secret where
  Name : String := ""
  Namespace : String := ""
  Version : String := ""
  Cluster : String := ""
  Labels : GoMap := none
  Annotations : GoMap := none
  Data : ByteMap := none
  StringData : GoMap := none
  SecretType : String := ""
  deriving DecidableEq

/-- The seven shorthand `SecretType` constants used by `convertSecretType` and
`revertSecretType`; their declarations are not among the sources, so their
values are parameters. -/
structure SecretTypes where
  SecretTypeOpaque : String
  SecretTypeServiceAccountToken : String
  SecretTypeDockercfg : String
  SecretTypeDockerConfigJson : String
  SecretTypeBasicAuth : String
  SecretTypeSSHAuth : String
  SecretTypeTLS : String

/-- The kube constant `v1.SecretTypeOpaque`. -/
def kubeSecretTypeOpaque : String := "Opaque"

/-- The kube constant `v1.SecretTypeServiceAccountToken`. -/
def kubeSecretTypeServiceAccountToken : String := "kubernetes.io/service-account-token"

/-- The kube constant `v1.SecretTypeDockercfg`. -/
def kubeSecretTypeDockercfg : String := "kubernetes.io/dockercfg"

/-- The kube constant `v1.SecretTypeDockerConfigJson`. -/
def kubeSecretTypeDockerConfigJson : String := "kubernetes.io/dockerconfigjson"

/-- The kube constant `v1.SecretTypeBasicAuth`. -/
def kubeSecretTypeBasicAuth : String := "kubernetes.io/basic-auth"

/-- The kube constant `v1.SecretTypeSSHAuth`. -/
def kubeSecretTypeSSHAuth : String := "kubernetes.io/ssh-auth"

/-- The kube constant `v1.SecretTypeTLS`. -/
def kubeSecretTypeTLS : String := "kubernetes.io/tls"

/-- The function `convertSecretType` of `secret/from_kube.go`. -/
def convertSecretType (K : SecretTypes) (secret : String) : Except Error String :=
  if secret = "" then .ok ""
  else if secret = kubeSecretTypeOpaque then .ok K.SecretTypeOpaque
  else if secret = kubeSecretTypeServiceAccountToken then .ok K.SecretTypeServiceAccountToken
  else if secret = kubeSecretTypeDockercfg then .ok K.SecretTypeDockercfg
  else if secret = kubeSecretTypeDockerConfigJson then .ok K.SecretTypeDockerConfigJson
  else if secret = kubeSecretTypeBasicAuth then .ok K.SecretTypeBasicAuth
  else if secret = kubeSecretTypeSSHAuth then .ok K.SecretTypeSSHAuth
  else if secret = kubeSecretTypeTLS then .ok K.SecretTypeTLS
  else .error (.invalidValue (.str secret) "unrecognized Secret type")

/-- The function `fromKubeSecretV1` of `secret/from_kube.go`. -/
def fromKubeSecretV1 (K : SecretTypes) (kubeSecret : KubeSecret) : Except Error Secret :=
  match convertSecretType K kubeSecret.Type_ with
  | .error err => .error err
  | .ok sType =>
    .ok { Name := kubeSecret.Name
          Namespace := kubeSecret.Namespace
          Version := kubeSecret.APIVersion
          Cluster := kubeSecret.ClusterName
          Labels := kubeSecret.Labels
          Annotations := kubeSecret.Annotations
          Data := kubeSecret.Data
          StringData := kubeSecret.StringData
          SecretType := sType }

/-- The function `revertSecretType` of `secret/to_kube.go`. -/
def revertSecretType (K : SecretTypes) (secret : String) : Except Error String :=
  if secret = "" then .ok ""
  else if secret = K.SecretTypeOpaque then .ok kubeSecretTypeOpaque
  else if secret = K.SecretTypeServiceAccountToken then .ok kubeSecretTypeServiceAccountToken
  else if secret = K.SecretTypeDockercfg then .ok kubeSecretTypeDockercfg
  else if secret = K.SecretTypeDockerConfigJson then .ok kubeSecretTypeDockerConfigJson
  else if secret = K.SecretTypeBasicAuth then .ok kubeSecretTypeBasicAuth
  else if secret = K.SecretTypeSSHAuth then .ok kubeSecretTypeSSHAuth
  else if secret = K.SecretTypeTLS then .ok kubeSecretTypeTLS
  else .error (.invalidValue (.str secret) "unrecognized Secret type")

/-- The method `toKubeV1` of `secret/to_kube.go`. -/
def Secret.toKubeV1 (K : SecretTypes) (s : Secret) : Except Error KubeSecret :=
  match revertSecretType K s.SecretType with
  | .error err => .error err
  | .ok kubeType =>
    .ok { Name := s.Name
          Namespace := s.Namespace
          APIVersion := s.Version
          ClusterName := s.Cluster
          Kind := "Secret"
          Labels := s.Labels
          Annotations := s.Annotations
          Data := s.Data
          StringData := s.StringData
          Type_ := kubeType }

/-- The method `ToKube` of `secret/to_kube.go`; the object it returns is a
`*v1.Secret`. The error message is formatted with `cm.Version`, and `cm` is
declared nowhere in the sources: its version text is the parameter
`cmVersion`. -/
def Secret.ToKube (K : SecretTypes) (cmVersion : String) (s : Secret) :
    Except Error KubeSecret :=
  if toLower s.Version = "v1" then Secret.toKubeV1 K s
  else if toLower s.Version = "" then Secret.toKubeV1 K s
  else .error (.errorf ("unsupported api version for secret: " ++ cmVersion))

/-- The seven kube secret types of the conversion table, in the order of the
cases of `convertSecretType`. -/
def kubeSecretTypeValues : List String :=
  [kubeSecretTypeOpaque, kubeSecretTypeServiceAccountToken, kubeSecretTypeDockercfg,
    kubeSecretTypeDockerConfigJson, kubeSecretTypeBasicAuth, kubeSecretTypeSSHAuth,
    kubeSecretTypeTLS]

/-- The seven shorthand secret types, in the order of the cases of
`revertSecretType`. -/
def SecretTypes.values (K : SecretTypes) : List String :=
  [K.SecretTypeOpaque, K.SecretTypeServiceAccountToken, K.SecretTypeDockercfg,
    K.SecretTypeDockerConfigJson, K.SecretTypeBasicAuth, K.SecretTypeSSHAuth,
    K.SecretTypeTLS]

/-- The shorthand secret-type constants are seven different names, none of them
the empty (unset) type. -/
def SecretTypes.Valid (K : SecretTypes) : Prop :=
  K.values.Nodup ∧ "" ∉ K.values

/-! ## Deployments (`pkg/apps/deployment`) -/

/-- The kube `intstr.IntOrString`. -/
inductive IntOrString where
  | int (n : Int)
  | str (s : String)
  deriving DecidableEq

/-- The kube `v1.PodTemplateSpec`: the labels of its metadata, and the rest of
the template, which this layer never looks into, as an uninterpreted payload. -/
structure PodTemplateSpec where
  Labels : GoMap := none
  Rest : String := ""
  deriving DecidableEq

/-- The shorthand `PodTemplateMeta`: its labels, and its other fields as an
uninterpreted payload. -/
structure PodTemplateMeta where
  Labels : GoMap := none
  Rest : String := ""
  deriving DecidableEq

/-- The kube `RollingUpdateDeployment`. -/
structure RollingUpdateDeployment where
  MaxUnavailable : Option IntOrString := none
  MaxSurge : Option IntOrString := none
  deriving DecidableEq

/-- The kube `DeploymentStrategy`. -/
structure DeploymentStrategy where
  Type_ : String := ""
  RollingUpdate : Option RollingUpdateDeployment := none
  deriving DecidableEq

/-- The kube constant `RecreateDeploymentStrategyType`. -/
def RecreateDeploymentStrategyType : String := "Recreate"

/-- The kube constant `RollingUpdateDeploymentStrategyType`. -/
def RollingUpdateDeploymentStrategyType : String := "RollingUpdate"

/-- The kube `DeploymentCondition`; times are uninterpreted integers. -/
structure KubeDeploymentCondition where
  Type_ : String := ""
  Status : String := ""
  LastUpdateTime : Int := 0
  LastTransitionTime : Int := 0
  Reason : String := ""
  Message : String := ""
  deriving DecidableEq

/-- The kube `DeploymentStatus`. -/
structure KubeDeploymentStatus where
  ObservedGeneration : Int := 0
  Replicas : Int := 0
  UpdatedReplicas : Int := 0
  ReadyReplicas : Int := 0
  AvailableReplicas : Int := 0
  UnavailableReplicas : Int := 0
  Conditions : List KubeDeploymentCondition := []
  CollisionCount : Option Int := none
  deriving DecidableEq

/-- The kube `DeploymentSpec`. -/
structure KubeDeploymentSpec where
  Replicas : Option Int := none
  Selector : Option LabelSelector := none
  Template : PodTemplateSpec := {}
  Strategy : DeploymentStrategy := {}
  MinReadySeconds : Int := 0
  RevisionHistoryLimit : Option Int := none
  Paused : Bool := false
  ProgressDeadlineSeconds : Option Int := none
  deriving DecidableEq

/-- A kube `Deployment`. The three versioned Go types (`apps/v1`,
`apps/v1beta1`, `apps/v1beta2`) share this layout for every field the
converters read; which Go type a value has is recorded by `KubeObject`. -/
structure KubeDeployment where
  Kind : String := ""
  APIVersion : String := ""
  Name : String := ""
  Namespace : String := ""
  ClusterName : String := ""
  Labels : GoMap := none
  Annotations : GoMap := none
  Spec : KubeDeploymentSpec := {}
  Status : KubeDeploymentStatus := {}
  deriving DecidableEq

/-- The shorthand `DeploymentCondition`; its type and status are string types. -/
structure DeploymentCondition where
  Type_ : String := ""
  Status : String := ""
  LastUpdateTime : Int := 0
  LastTransitionTime : Int := 0
  Reason : String := ""
  Message : String := ""
  deriving DecidableEq

/-- The shorthand `DeploymentReplicasStatus`. -/
structure DeploymentReplicasStatus where
  Total : Int := 0
  Updated : Int := 0
  Ready : Int := 0
  Available : Int := 0
  Unavailable : Int := 0
  deriving DecidableEq

/-- The shorthand `DeploymentStatus`. -/
structure DeploymentStatus where
  ObservedGeneration : Int := 0
  Replicas : DeploymentReplicasStatus := {}
  Conditions : List DeploymentCondition := []
  CollisionCount : Option Int := none
  deriving DecidableEq

/-- The shorthand `Deployment`; its declaration is not among the sources, the
fields are those the converters read and write. The pod template is an
uninterpreted payload. -/
structure Deployment where
  Version : String := ""
  Cluster : String := ""
  Name : String := ""
  Namespace : String := ""
  Labels : GoMap := none
  Annotations : GoMap := none
  Replicas : Option Int := none
  Recreate : Bool := false
  MaxUnavailable : Option IntOrString := none
  MaxSurge : Option IntOrString := none
  MinReadySeconds : Int := 0
  RevisionHistoryLimit : Option Int := none
  Paused : Bool := false
  ProgressDeadlineSeconds : Option Int := none
  Selector : Option RSSelector := none
  TemplateMetadata : Option PodTemplateMeta := none
  PodTemplate : String := ""
  DeploymentStatus : DeploymentStatus := {}
  deriving DecidableEq

/-- The shorthand `DeploymentWrapper`. -/
structure DeploymentWrapper where
  Deployment : Deployment := {}
  deriving DecidableEq

/-- The three shorthand `DeploymentConditionType` constants; their declarations
are not among the sources, so their values are parameters. -/
structure ConditionTypes where
  DeploymentAvailable : String
  DeploymentProgressing : String
  DeploymentReplicaFailure : String

/-- The kube constant `DeploymentAvailable`. -/
def kubeDeploymentAvailable : String := "Available"

/-- The kube constant `DeploymentProgressing`. -/
def kubeDeploymentProgressing : String := "Progressing"

/-- The kube constant `DeploymentReplicaFailure`. -/
def kubeDeploymentReplicaFailure : String := "ReplicaFailure"

/-- What the input path of the Deployment converter takes from outside
`from_kube.go`: the expression compiler, the pod-template converter, the
condition-status table, the shorthand constants, and the two per-version
converters whose bodies the sources leave empty. -/
structure FromKubeEnv where
  /-- The external `expressions.UnparseLabelSelector`. -/
  unparse : LabelSelector → Except Error String
  /-- The external `convertTemplate`: template metadata and pod template. -/
  convertTemplate : PodTemplateSpec → Except Error (Option PodTemplateMeta × String)
  /-- The external `convertConditionStatus`. -/
  convertConditionStatus : String → Except Error String
  /-- The shorthand condition-type constants. -/
  conditionTypes : ConditionTypes
  /-- The converter `fromKubeDeploymentV1`, whose body is empty in the sources. -/
  fromKubeDeploymentV1 : KubeDeployment → Except Error DeploymentWrapper
  /-- The converter `fromKubeDeploymentV1Beta1`, whose body is empty in the sources. -/
  fromKubeDeploymentV1Beta1 : KubeDeployment → Except Error DeploymentWrapper

/-- The function `fromDeploymentConditionTypeV1Beta2` of `deployment/from_kube.go`. -/
def fromDeploymentConditionTypeV1Beta2 (K : ConditionTypes) (kubeType : String) :
    Except Error String :=
  if kubeType = kubeDeploymentAvailable then .ok K.DeploymentAvailable
  else if kubeType = kubeDeploymentProgressing then .ok K.DeploymentProgressing
  else if kubeType = kubeDeploymentReplicaFailure then .ok K.DeploymentReplicaFailure
  else .error (.invalidValue (.str kubeType) "unrecognized deployment condition type")

/-- The loop of `fromDeploymentConditionsV1Beta2` from index `i` on. -/
def fromDeploymentConditionsFrom (env : FromKubeEnv) (i : Nat) :
    List KubeDeploymentCondition → Except Error (List DeploymentCondition)
  | [] => .ok []
  | condition :: rest =>
    match env.convertConditionStatus condition.Status with
    | .error err => .error (.context err ("deployment conditions[" ++ toString i ++ "]"))
    | .ok status =>
      match fromDeploymentConditionTypeV1Beta2 env.conditionTypes condition.Type_ with
      | .error err => .error (.context err ("deployment conditions[" ++ toString i ++ "]"))
      | .ok conditionType =>
        match fromDeploymentConditionsFrom env (i + 1) rest with
        | .error err => .error err
        | .ok kokiConditions =>
          .ok ({ Type_ := conditionType
                 Status := status
                 LastUpdateTime := condition.LastUpdateTime
                 LastTransitionTime := condition.LastTransitionTime
                 Reason := condition.Reason
                 Message := condition.Message } :: kokiConditions)

/-- The function `fromDeploymentConditionsV1Beta2` of `deployment/from_kube.go`. -/
def fromDeploymentConditionsV1Beta2 (env : FromKubeEnv)
    (kubeConditions : List KubeDeploymentCondition) : Except Error (List DeploymentCondition) :=
  if kubeConditions.length = 0 then .ok []
  else fromDeploymentConditionsFrom env 0 kubeConditions

/-- The function `fromDeploymentStatusV1Beta2` of `deployment/from_kube.go`. -/
def fromDeploymentStatusV1Beta2 (env : FromKubeEnv) (kubeStatus : KubeDeploymentStatus) :
    Except Error DeploymentStatus :=
  match fromDeploymentConditionsV1Beta2 env kubeStatus.Conditions with
  | .error err => .error err
  | .ok conditions =>
    .ok { ObservedGeneration := kubeStatus.ObservedGeneration
          Replicas :=
            { Total := kubeStatus.Replicas
              Updated := kubeStatus.UpdatedReplicas
              Ready := kubeStatus.ReadyReplicas
              Available := kubeStatus.AvailableReplicas
              Unavailable := kubeStatus.UnavailableReplicas }
          Conditions := conditions
          CollisionCount := kubeStatus.CollisionCount }

/-- The function `fromDeploymentStrategyV1Beta2` of `deployment/from_kube.go`. -/
def fromDeploymentStrategyV1Beta2 (kubeStrategy : DeploymentStrategy) :
    Bool × Option IntOrString × Option IntOrString :=
  if kubeStrategy.Type_ = RecreateDeploymentStrategyType then (true, none, none)
  else
    match kubeStrategy.RollingUpdate with
    | some rollingUpdate => (false, rollingUpdate.MaxUnavailable, rollingUpdate.MaxSurge)
    | none => (false, none, none)

/-- Modelled from the spec: `applyTemplateLabelsOverride`, called by both
Deployment paths, is missing from the sources. Spec §4.2: the effective
template labels are the override if present; with no override the template's
own pre-existing labels are preserved unchanged. -/
def applyTemplateLabelsOverride (labelsOverride : GoMap) (tmeta : Option PodTemplateMeta) :
    Option PodTemplateMeta :=
  match labelsOverride with
  | none => tmeta
  | some _ =>
    match tmeta with
    | none => some { Labels := labelsOverride }
    | some m => some { m with Labels := labelsOverride }

/-- Modelled from the spec: `revertRSSelector`, called by the Deployment output
path, is missing from the sources. Spec §4.2 `toKube`: an `Expression(text)`
selector is parsed back by the external compiler (failure propagates) into the
match-expressions; an `Explicit(labels)` selector becomes the match-labels; the
effective template labels are the override if present, otherwise the
selector's own label view. A selector is an `Expression` when its `Shorthand`
is non-empty; with no selector nothing is derived. -/
def revertRSSelector (parse : String → Except Error (List LabelSelectorRequirement))
    (_name : String) (selector : Option RSSelector) (templateLabels : GoMap) :
    Except Error (Option LabelSelector × GoMap) :=
  match selector with
  | none => .ok (none, templateLabels)
  | some s =>
    if s.Shorthand ≠ "" then
      match parse s.Shorthand with
      | .error err => .error err
      | .ok exprs => .ok (some { MatchLabels := none, MatchExpressions := exprs }, templateLabels)
    else
      .ok (some { MatchLabels := s.Labels, MatchExpressions := [] },
        match templateLabels with
        | some _ => templateLabels
        | none => s.Labels)

/-- The function `fromKubeDeploymentV1Beta2` of `deployment/from_kube.go`. The
helpers it calls under the names `convertRSLabelSelector`,
`convertDeploymentStrategy` and `convertDeploymentStatus` are the repository's
`fromRSLabelSelector`, `fromDeploymentStrategyV1Beta2` and
`fromDeploymentStatusV1Beta2`. -/
def fromKubeDeploymentV1Beta2 (env : FromKubeEnv) (kubeDeployment : KubeDeployment) :
    Except Error DeploymentWrapper :=
  let kubeSpec := kubeDeployment.Spec
  match fromRSLabelSelector env.unparse kubeSpec.Selector kubeSpec.Template.Labels with
  | .error err => .error err
  | .ok (selector, templateLabelsOverride) =>
    let kokiSelector : Option RSSelector :=
      match selector with
      | some s => if s.Labels ≠ none ∨ s.Shorthand ≠ "" then some s else none
      | none => none
    match env.convertTemplate kubeSpec.Template with
    | .error err => .error (.context err "pod template")
    | .ok (tmeta, template) =>
      let strategy := fromDeploymentStrategyV1Beta2 kubeSpec.Strategy
      match fromDeploymentStatusV1Beta2 env kubeDeployment.Status with
      | .error err => .error err
      | .ok status =>
        .ok { Deployment :=
              { Name := kubeDeployment.Name
                Namespace := kubeDeployment.Namespace
                Version := kubeDeployment.APIVersion
                Cluster := kubeDeployment.ClusterName
                Labels := kubeDeployment.Labels
                Annotations := kubeDeployment.Annotations
                Replicas := kubeSpec.Replicas
                Selector := kokiSelector
                TemplateMetadata := applyTemplateLabelsOverride templateLabelsOverride tmeta
                PodTemplate := template
                Recreate := strategy.1
                MaxUnavailable := strategy.2.1
                MaxSurge := strategy.2.2
                MinReadySeconds := kubeSpec.MinReadySeconds
                RevisionHistoryLimit := kubeSpec.RevisionHistoryLimit
                Paused := kubeSpec.Paused
                ProgressDeadlineSeconds := kubeSpec.ProgressDeadlineSeconds
                DeploymentStatus := status } }

/-! ## Version dispatch -/

/-- A value passed as `interface{}` to a dispatcher, tagged with its concrete
Go type. A pointer variant carries the object pointed to (the dispatchers read
the object's fields right away, so the pointer is taken to be non-nil). `other`
is a value of any other type, with the text `reflect.TypeOf` prints for it. -/
inductive KubeObject where
  /-- A `v1.Deployment` of `k8s.io/api/apps/v1`. -/
  | appsV1Deployment (d : KubeDeployment)
  /-- A `*v1.Deployment`. -/
  | appsV1DeploymentPtr (d : KubeDeployment)
  /-- A `v1beta1.Deployment`. -/
  | appsV1Beta1Deployment (d : KubeDeployment)
  /-- A `*v1beta1.Deployment`. -/
  | appsV1Beta1DeploymentPtr (d : KubeDeployment)
  /-- A `v1beta2.Deployment`. -/
  | appsV1Beta2Deployment (d : KubeDeployment)
  /-- A `*v1beta2.Deployment`. -/
  | appsV1Beta2DeploymentPtr (d : KubeDeployment)
  /-- A `v1.Namespace` of `k8s.io/api/core/v1`. -/
  | coreV1Namespace (n : KubeNamespace)
  /-- A `*v1.Namespace`. -/
  | coreV1NamespacePtr (n : KubeNamespace)
  /-- A `v1.Secret` of `k8s.io/api/core/v1`. -/
  | coreV1Secret (s : KubeSecret)
  /-- A `*v1.Secret`. -/
  | coreV1SecretPtr (s : KubeSecret)
  /-- A `*v1beta1.Deployment` of `k8s.io/api/extensions/v1beta1`. -/
  | extsV1Beta1DeploymentPtr (d : KubeDeployment)
  /-- A value of another type. -/
  | other (typeName : String)

/-- The text of `reflect.TypeOf(x)` under the `%s` verb. -/
def typeString : KubeObject → String
  | .appsV1Deployment _ => "v1.Deployment"
  | .appsV1DeploymentPtr _ => "*v1.Deployment"
  | .appsV1Beta1Deployment _ => "v1beta1.Deployment"
  | .appsV1Beta1DeploymentPtr _ => "*v1beta1.Deployment"
  | .appsV1Beta2Deployment _ => "v1beta2.Deployment"
  | .appsV1Beta2DeploymentPtr _ => "*v1beta2.Deployment"
  | .coreV1Namespace _ => "v1.Namespace"
  | .coreV1NamespacePtr _ => "*v1.Namespace"
  | .coreV1Secret _ => "v1.Secret"
  | .coreV1SecretPtr _ => "*v1.Secret"
  | .extsV1Beta1DeploymentPtr _ => "*v1beta1.Deployment"
  | .other typeName => typeName

/-- The function `NewDeploymentFromKubeDeployment` of `deployment/from_kube.go`. -/
def NewDeploymentFromKubeDeployment (env : FromKubeEnv) (d : KubeObject) :
    Except Error DeploymentWrapper :=
  match d with
  | .appsV1Deployment obj =>
    if obj.APIVersion ≠ "v1" then .error (.errorf ("mis-matched versions.  Deployment type: " ++ typeString d ++
      ", APIVersion: " ++ obj.APIVersion))
    else env.fromKubeDeploymentV1 obj
  | .appsV1DeploymentPtr obj =>
    if obj.APIVersion ≠ "v1" then .error (.errorf ("mis-matched versions.  Deployment type: " ++ typeString d ++
      ", APIVersion: " ++ obj.APIVersion))
    else env.fromKubeDeploymentV1 obj
  | .appsV1Beta1Deployment obj =>
    if obj.APIVersion ≠ "v1beta1" then .error (.errorf ("mis-matched versions.  Deployment type: " ++ typeString d ++
      ", APIVersion: " ++ obj.APIVersion))
    else env.fromKubeDeploymentV1Beta1 obj
  | .appsV1Beta1DeploymentPtr obj =>
    if obj.APIVersion ≠ "v1beta1" then .error (.errorf ("mis-matched versions.  Deployment type: " ++ typeString d ++
      ", APIVersion: " ++ obj.APIVersion))
    else env.fromKubeDeploymentV1Beta1 obj
  | .appsV1Beta2Deployment obj =>
    if obj.APIVersion ≠ "v1beta2" then .error (.errorf ("mis-matched versions.  Deployment type: " ++ typeString d ++
      ", APIVersion: " ++ obj.APIVersion))
    else fromKubeDeploymentV1Beta2 env obj
  | .appsV1Beta2DeploymentPtr obj =>
    if obj.APIVersion ≠ "v1beta2" then .error (.errorf ("mis-matched versions.  Deployment type: " ++ typeString d ++
      ", APIVersion: " ++ obj.APIVersion))
    else fromKubeDeploymentV1Beta2 env obj
  | _ => .error (.errorf ("unknown Deployment version: " ++ typeString d))

/-- The function `NewNamespaceFromKubeNamespace` of `namespace/from_kube.go`. -/
def NewNamespaceFromKubeNamespace (ns : KubeObject) : Except Error Namespace :=
  match ns with
  | .coreV1Namespace obj =>
    if obj.APIVersion ≠ "v1" then .error (.errorf ("mis-matched versions.  Namespace type: " ++ typeString ns ++
      ", APIVersion: " ++ obj.APIVersion))
    else fromKubeNamespaceV1 obj
  | .coreV1NamespacePtr obj =>
    if obj.APIVersion ≠ "v1" then .error (.errorf ("mis-matched versions.  Namespace type: " ++ typeString ns ++
      ", APIVersion: " ++ obj.APIVersion))
    else fromKubeNamespaceV1 obj
  | _ => .error (.errorf ("unknown Namespace version: " ++ typeString ns))

/-- The function `NewSecretFromKubeSecret` of `secret/from_kube.go`. -/
def NewSecretFromKubeSecret (K : SecretTypes) (s : KubeObject) : Except Error Secret :=
  match s with
  | .coreV1Secret obj => fromKubeSecretV1 K obj
  | .coreV1SecretPtr obj => fromKubeSecretV1 K obj
  | _ => .error (.errorf ("unknown Secret version: " ++ typeString s))

/-- The labels of a template metadata; nil metadata has none. -/
def templateLabelsOf (templateMetadata : Option PodTemplateMeta) : GoMap :=
  match templateMetadata with
  | some m => m.Labels
  | none => none

/-- The selector/template part of the Deployment output path
(`Convert_Koki_Deployment_to_Kube_apps_v1beta2_Deployment`): the template
labels are read off the template metadata when there is one, `revertRSSelector` gives the kube
selector and the labels to install, `applyTemplateLabelsOverride` installs
them. -/
def revertSelectorAndTemplate (parse : String → Except Error (List LabelSelectorRequirement))
    (name : String) (selector : Option RSSelector) (templateMetadata : Option PodTemplateMeta) :
    Except Error (Option LabelSelector × Option PodTemplateMeta) :=
  let kokiTemplateLabels : GoMap := templateLabelsOf templateMetadata
  match revertRSSelector parse name selector kokiTemplateLabels with
  | .error err => .error err
  | .ok (kubeSelector, templateLabelsOverride) =>
    .ok (kubeSelector, applyTemplateLabelsOverride templateLabelsOverride templateMetadata)

/-! ## Deployments: the output path (`deployment/to_kube.go`) -/

/-- What the output path of the Deployment converter takes from outside
`to_kube.go`: the expression parser, the pod-template converter, the
condition-status table, the shorthand constants, the serializer and the
deserializer. -/
structure ToKubeEnv where
  /-- The external expression parser used by `revertRSSelector`. -/
  parse : String → Except Error (List LabelSelectorRequirement)
  /-- The external `revertTemplate`; `none` is a nil template. -/
  revertTemplate : Option PodTemplateMeta → String → Except Error (Option PodTemplateSpec)
  /-- The external `revertConditionStatus`. -/
  revertConditionStatus : String → Except Error String
  /-- The shorthand condition-type constants. -/
  conditionTypes : ConditionTypes
  /-- The external `yaml.Marshal`. -/
  marshal : KubeDeployment → Except Error (List (Fin 256))
  /-- The external `parser.ParseSingleKubeNativeFromBytes`. -/
  parseKube : List (Fin 256) → Except Error KubeObject

/-- The function `revertDeploymentConditionType` of `deployment/to_kube.go`. -/
def revertDeploymentConditionType (K : ConditionTypes) (kokiType : String) :
    Except Error String :=
  if kokiType = K.DeploymentAvailable then .ok kubeDeploymentAvailable
  else if kokiType = K.DeploymentProgressing then .ok kubeDeploymentProgressing
  else if kokiType = K.DeploymentReplicaFailure then .ok kubeDeploymentReplicaFailure
  else .error (.invalidValue (.str kokiType) "unrecognized deployment condition type")

/-- The loop of `revertDeploymentConditions` from index `i` on. -/
def revertDeploymentConditionsFrom (env : ToKubeEnv) (i : Nat) :
    List DeploymentCondition → Except Error (List KubeDeploymentCondition)
  | [] => .ok []
  | condition :: rest =>
    match env.revertConditionStatus condition.Status with
    | .error err => .error (.context err ("deployment conditions[" ++ toString i ++ "]"))
    | .ok status =>
      match revertDeploymentConditionType env.conditionTypes condition.Type_ with
      | .error err => .error (.context err ("deployment conditions[" ++ toString i ++ "]"))
      | .ok conditionType =>
        match revertDeploymentConditionsFrom env (i + 1) rest with
        | .error err => .error err
        | .ok kubeConditions =>
          .ok ({ Type_ := conditionType
                 Status := status
                 LastUpdateTime := condition.LastUpdateTime
                 LastTransitionTime := condition.LastTransitionTime
                 Reason := condition.Reason
                 Message := condition.Message } :: kubeConditions)

/-- The function `revertDeploymentConditions` of `deployment/to_kube.go`. -/
def revertDeploymentConditions (env : ToKubeEnv) (kokiConditions : List DeploymentCondition) :
    Except Error (List KubeDeploymentCondition) :=
  if kokiConditions.length = 0 then .ok []
  else revertDeploymentConditionsFrom env 0 kokiConditions

/-- The function `revertDeploymentStatus` of `deployment/to_kube.go`. -/
def revertDeploymentStatus (env : ToKubeEnv) (kokiStatus : DeploymentStatus) :
    Except Error KubeDeploymentStatus :=
  match revertDeploymentConditions env kokiStatus.Conditions with
  | .error err => .error err
  | .ok conditions =>
    .ok { ObservedGeneration := kokiStatus.ObservedGeneration
          Replicas := kokiStatus.Replicas.Total
          UpdatedReplicas := kokiStatus.Replicas.Updated
          ReadyReplicas := kokiStatus.Replicas.Ready
          AvailableReplicas := kokiStatus.Replicas.Available
          UnavailableReplicas := kokiStatus.Replicas.Unavailable
          Conditions := conditions
          CollisionCount := kokiStatus.CollisionCount }

/-- The function `revertDeploymentStrategy` of `deployment/to_kube.go`. -/
def revertDeploymentStrategy (kokiDeployment : Deployment) : DeploymentStrategy :=
  if kokiDeployment.Recreate then { Type_ := RecreateDeploymentStrategyType }
  else
    { Type_ := RollingUpdateDeploymentStrategyType
      RollingUpdate :=
        if kokiDeployment.MaxUnavailable ≠ none ∨ kokiDeployment.MaxSurge ≠ none then
          some { MaxUnavailable := kokiDeployment.MaxUnavailable
                 MaxSurge := kokiDeployment.MaxSurge }
        else none }

/-- The function `Convert_Koki_Deployment_to_Kube_apps_v1beta2_Deployment` of
`deployment/to_kube.go`. The argument is a pointer and the function writes
`TemplateMetadata` through it, so the result is the pair of what the function
returns and of the value of the caller's wrapper after the call. -/
def Convert_Koki_Deployment_to_Kube_apps_v1beta2_Deployment (env : ToKubeEnv)
    (deployment : DeploymentWrapper) : Except Error KubeDeployment × DeploymentWrapper :=
  let kokiDeployment := deployment.Deployment
  match revertSelectorAndTemplate env.parse kokiDeployment.Name kokiDeployment.Selector
      kokiDeployment.TemplateMetadata with
  | .error err => (.error err, deployment)
  | .ok (kubeSelector, templateMetadata) =>
    let kokiDeployment : Deployment := { kokiDeployment with TemplateMetadata := templateMetadata }
    let deployment : DeploymentWrapper := { deployment with Deployment := kokiDeployment }
    match env.revertTemplate kokiDeployment.TemplateMetadata kokiDeployment.PodTemplate with
    | .error err => (.error (.context err "pod template"), deployment)
    | .ok none => (.error (.invalidInstance "missing pod template"), deployment)
    | .ok (some kubeTemplate) =>
      match revertDeploymentStatus env kokiDeployment.DeploymentStatus with
      | .error err => (.error err, deployment)
      | .ok status =>
        (.ok { Name := kokiDeployment.Name
               Namespace := kokiDeployment.Namespace
               APIVersion :=
                 if kokiDeployment.Version.length = 0 then "extensions/v1beta1"
                 else kokiDeployment.Version
               Kind := "Deployment"
               ClusterName := kokiDeployment.Cluster
               Labels := kokiDeployment.Labels
               Annotations := kokiDeployment.Annotations
               Spec :=
                 { Replicas := kokiDeployment.Replicas
                   Selector := kubeSelector
                   Template := kubeTemplate
                   Strategy := revertDeploymentStrategy kokiDeployment
                   MinReadySeconds := kokiDeployment.MinReadySeconds
                   RevisionHistoryLimit := kokiDeployment.RevisionHistoryLimit
                   Paused := kokiDeployment.Paused
                   ProgressDeadlineSeconds := kokiDeployment.ProgressDeadlineSeconds }
               Status := status }, deployment)

/-- The function `To_Kube` of `deployment/to_kube.go`: the value it returns. -/
def To_Kube (env : ToKubeEnv) (deployment : DeploymentWrapper) : Except Error KubeObject :=
  match (Convert_Koki_Deployment_to_Kube_apps_v1beta2_Deployment env deployment).1 with
  | .error err => .error err
  | .ok kubeDeployment =>
    match env.marshal kubeDeployment with
    | .error err =>
      .error (.invalidValueContext err "couldn't serialize 'generic' kube Deployment")
    | .ok b =>
      match env.parseKube b with
      | .error err => .error err
      | .ok versionedDeployment =>
        match versionedDeployment with
        | .appsV1Beta1DeploymentPtr _ => .ok versionedDeployment
        | .appsV1Beta2DeploymentPtr _ => .ok versionedDeployment
        | .extsV1Beta1DeploymentPtr _ => .ok versionedDeployment
        | _ =>
          .error (.typeError "deserialized the manifest, but not as a supported kube Deployment")

/-- The three kube condition types, in the order of the cases of
`fromDeploymentConditionTypeV1Beta2`. -/
def kubeConditionTypeValues : List String :=
  [kubeDeploymentAvailable, kubeDeploymentProgressing, kubeDeploymentReplicaFailure]

/-- The three shorthand condition types, in the order of the cases of
`revertDeploymentConditionType`. -/
def ConditionTypes.values (K : ConditionTypes) : List String :=
  [K.DeploymentAvailable, K.DeploymentProgressing, K.DeploymentReplicaFailure]

/-- The shorthand condition-type constants are three different names, none of
them the empty string. -/
def ConditionTypes.Valid (K : ConditionTypes) : Prop :=
  K.values.Nodup ∧ "" ∉ K.values

/-- A shorthand condition is the conversion of a kube condition: type and
status converted, the other four fields copied. -/
def ConvertsTo (env : FromKubeEnv) (k : KubeDeploymentCondition) (c : DeploymentCondition) :
    Prop :=
  env.convertConditionStatus k.Status = .ok c.Status ∧
    fromDeploymentConditionTypeV1Beta2 env.conditionTypes k.Type_ = .ok c.Type_ ∧
    c.LastUpdateTime = k.LastUpdateTime ∧ c.LastTransitionTime = k.LastTransitionTime ∧
    c.Reason = k.Reason ∧ c.Message = k.Message

/-- A kube condition is the reversion of a shorthand condition: type and status
reverted, the other four fields copied. -/
def RevertsTo (env : ToKubeEnv) (c : DeploymentCondition) (k : KubeDeploymentCondition) :
    Prop :=
  env.revertConditionStatus c.Status = .ok k.Status ∧
    revertDeploymentConditionType env.conditionTypes c.Type_ = .ok k.Type_ ∧
    k.LastUpdateTime = c.LastUpdateTime ∧ k.LastTransitionTime = c.LastTransitionTime ∧
    k.Reason = c.Reason ∧ k.Message = c.Message

/-- The guard of `fromKubeDeploymentV1Beta2` on the selector it was given: it
is stored only when its `Labels` are set or its `Shorthand` is non-empty. -/
def keptSelector (selector : Option RSSelector) : Option RSSelector :=
  match selector with
  | some s => if s.Labels ≠ none ∨ s.Shorthand ≠ "" then some s else none
  | none => none

/-- The condition under which a shorthand selector comes back unchanged from
the canonical object, next to the labels of the reverted pod template: it is
absent and the template has no labels, or it is in label form with labels set,
or it is in expression form with no labels and a text that the parser reads as
a non-empty list of expressions which the compiler renders as the same text. -/
def SelectorSurvives (envT : ToKubeEnv) (envF : FromKubeEnv) (selector : Option RSSelector)
    (templateLabels : GoMap) : Prop :=
  match selector with
  | none => templateLabels = none
  | some s =>
    if s.Shorthand = "" then s.Labels ≠ none
    else
      s.Labels = none ∧
        ∃ exprs, exprs ≠ [] ∧ envT.parse s.Shorthand = .ok exprs ∧
          envF.unparse { MatchLabels := none, MatchExpressions := exprs } = .ok s.Shorthand

/-! ## The properties the spec states of the reconciler -/

/-- The match-labels and match-expressions a kube selector stands for next to
the given template labels: an unspecified selector defaults to the template
labels. -/
def selectorContent (selector : Option LabelSelector) (templateLabels : GoMap) :
    GoMap × List LabelSelectorRequirement :=
  match selector with
  | none => (templateLabels, [])
  | some s => (s.MatchLabels, s.MatchExpressions)

/-- The round-trip law of spec §4.2 at one (selector, template labels) pair:
whenever `fromRSLabelSelector` succeeds, the reverse conversion of the
Deployment output path, run on the returned selector and on template metadata
carrying the returned override, succeeds with a kube selector of the same
match-labels and match-expressions content and with template labels equal (as
a LabelSet) to the original. -/
def RoundTripLaw (unparse : LabelSelector → Except Error String)
    (parse : String → Except Error (List LabelSelectorRequirement)) (name : String)
    (selector : Option LabelSelector) (templateLabels : GoMap) : Prop :=
  ∀ s ov, fromRSLabelSelector unparse selector templateLabels = .ok (s, ov) →
    ∀ tmeta, templateLabelsOf tmeta = ov →
      ∃ kubeSelector tmeta',
        revertSelectorAndTemplate parse name s tmeta = .ok (kubeSelector, tmeta') ∧
        labelSetEq (selectorContent kubeSelector (templateLabelsOf tmeta')).1
          (selectorContent selector templateLabels).1 ∧
        (selectorContent kubeSelector (templateLabelsOf tmeta')).2 =
          (selectorContent selector templateLabels).2 ∧
        labelSetEq (templateLabelsOf tmeta') templateLabels

/-- Exactly one form of a shorthand selector is populated: `Labels` set and
`Shorthand` empty, or `Shorthand` non-empty and `Labels` unset. -/
def ExactlyOneForm (s : RSSelector) : Prop :=
  (s.Labels ≠ none ∧ s.Shorthand = "") ∨ (s.Shorthand ≠ "" ∧ s.Labels = none)

/-! ## Sample values -/

/-- The label set `{a: 1}`. -/
def labelsA1 : StrMap := ⟨[⟨"a", "1"⟩], by simp⟩

/-- The label set `{a: 1, b: 2}`. -/
def labelsA1B2 : StrMap := ⟨[⟨"a", "1"⟩, ⟨"b", "2"⟩], by simp [List.nodupKeys_cons]⟩

/-- The label set `{a: 1, b: 2}` again, stored in the other order. -/
def labelsB2A1 : StrMap := ⟨[⟨"b", "2"⟩, ⟨"a", "1"⟩], by simp [List.nodupKeys_cons]⟩

/-- The label set `{env: prod, tier: web}`. -/
def labelsEnvTier : StrMap :=
  ⟨[⟨"env", "prod"⟩, ⟨"tier", "web"⟩], by simp [List.nodupKeys_cons]⟩

/-- The match-expression `{key: env, op: In, values: [prod]}`. -/
def exprEnvInProd : LabelSelectorRequirement :=
  { Key := "env", Operator := "In", Values := ["prod"] }

/-- A compiler that renders every selector as the text `env=prod`. -/
def sampleUnparse : LabelSelector → Except Error String := fun _ => .ok "env=prod"

/-- A compiler that rejects every selector. -/
def failingUnparse : LabelSelector → Except Error String :=
  fun _ => .error (.external "bad operator")

/-- A parser that reads every text as the single expression `env in (prod)`. -/
def sampleParse : String → Except Error (List LabelSelectorRequirement) :=
  fun _ => .ok [exprEnvInProd]

/-- Sample shorthand condition-type constants. -/
def sampleConditionTypes : ConditionTypes :=
  { DeploymentAvailable := "available"
    DeploymentProgressing := "progressing"
    DeploymentReplicaFailure := "replica-failure" }

/-- Sample shorthand secret-type constants. -/
def sampleSecretTypes : SecretTypes :=
  { SecretTypeOpaque := "opaque"
    SecretTypeServiceAccountToken := "kubernetes.io/service-account-token"
    SecretTypeDockercfg := "kubernetes.io/dockercfg"
    SecretTypeDockerConfigJson := "kubernetes.io/dockerconfigjson"
    SecretTypeBasicAuth := "kubernetes.io/basic-auth"
    SecretTypeSSHAuth := "kubernetes.io/ssh-auth"
    SecretTypeTLS := "kubernetes.io/tls" }

/-- A sample environment for the Deployment input path. -/
def sampleEnv (unparse : LabelSelector → Except Error String) : FromKubeEnv :=
  { unparse := unparse
    convertTemplate := fun t => .ok (some { Labels := t.Labels, Rest := t.Rest }, t.Rest)
    convertConditionStatus := fun s => .ok s
    conditionTypes := sampleConditionTypes
    fromKubeDeploymentV1 := fun _ => .ok {}
    fromKubeDeploymentV1Beta1 := fun _ => .ok {} }

/-- A sample environment for the Deployment output path: the template
metadata's labels become the template's labels, and the serializer and the
deserializer are stand-ins that return an `apps/v1beta2` object. -/
def sampleToKubeEnv : ToKubeEnv :=
  { parse := sampleParse
    revertTemplate := fun m t =>
      .ok (some { Labels := templateLabelsOf m, Rest := t })
    revertConditionStatus := fun s => .ok s
    conditionTypes := sampleConditionTypes
    marshal := fun _ => .ok []
    parseKube := fun _ => .ok (.appsV1Beta2DeploymentPtr {}) }

/-- A shorthand Deployment in the collapsed form: a label selector `{a: 1}` and
no template metadata. -/
def sampleDeployment : DeploymentWrapper :=
  { Deployment :=
      { Version := "v1beta2"
        Name := "web"
        Selector := some { Labels := some labelsA1 }
        TemplateMetadata := none
        PodTemplate := "pod" } }

/-- The sample Deployment with no declared version. -/
def sampleDeploymentNoVersion : DeploymentWrapper :=
  { Deployment := { sampleDeployment.Deployment with Version := "" } }

/-- The canonical object of the sample Deployment. -/
def sampleCanonical : KubeDeployment :=
  { Kind := "Deployment"
    APIVersion := "v1beta2"
    Name := "web"
    Spec :=
      { Selector := some { MatchLabels := some labelsA1, MatchExpressions := [] }
        Template := { Labels := some labelsA1, Rest := "pod" }
        Strategy := { Type_ := "RollingUpdate", RollingUpdate := none } } }

/-- The Namespace of `TestToKubeV1`. -/
def sampleNamespace : Namespace :=
  { Version := "v1"
    Name := "testNS"
    Namespace := "testNS"
    Cluster := "testCluster"
    Labels := some labelsA1B2
    Annotations := some labelsA1
    Finalizers := [FinalizerKubernetes]
    Phase := NamespaceTerminating }

/-- The kube Namespace of `TestFromKubeV1`. -/
def sampleKubeNamespace : KubeNamespace :=
  { APIVersion := "v1"
    Name := "testCM"
    Namespace := "testNS"
    ClusterName := "testCluster"
    Labels := some labelsA1B2
    Annotations := some labelsA1
    Spec := { Finalizers := [kubeFinalizerKubernetes] }
    Status := { Phase := kubeNamespaceActive } }

/-- The kube Secret of `TestFromKubeSecretV1` (without its byte data). -/
def sampleKubeSecret : KubeSecret :=
  { APIVersion := "v1"
    Name := "testS"
    Namespace := "testNS"
    ClusterName := "testCluster"
    Labels := some labelsA1B2
    Annotations := some labelsA1
    StringData := some labelsA1B2
    Type_ := kubeSecretTypeOpaque }

/-! ## Go map equality -/

theorem deepEqual_of_lookup_eq (a b : StrMap) (h : ∀ k, a.lookup k = b.lookup k) :
    deepEqual (some a) (some b) = true := by
  have hp : a.entries.Perm b.entries :=
    List.lookup_ext a.nodupKeys b.nodupKeys (fun x y => by
      have hx := h x
      simp only [AList.lookup] at hx
      rw [hx])
  have hall : ∀ e ∈ a.entries, b.lookup e.1 = some e.2 := by
    intro e he
    have hb : e ∈ b.entries := hp.subset he
    exact AList.mem_lookup_iff.2 hb
  simp only [deepEqual, hp.length_eq, beq_self_eq_true, Bool.true_and, List.all_eq_true]
  intro e he
  simp [hall e he]

theorem lookup_eq_of_deepEqual (a b : StrMap) (h : deepEqual (some a) (some b) = true) :
    ∀ k, a.lookup k = b.lookup k := by
  simp only [deepEqual, Bool.and_eq_true, beq_iff_eq, List.all_eq_true] at h
  obtain ⟨hlen, hall⟩ := h
  have hsub : a.entries ⊆ b.entries := by
    intro e he
    have := hall e he
    exact AList.mem_lookup_iff.1 this
  have hp : a.entries.Perm b.entries :=
    (List.subperm_of_subset a.nodupKeys.nodup hsub).perm_of_length_le (by omega)
  exact fun k => AList.perm_lookup hp

/-- `reflect.DeepEqual` on maps is LabelSet equality plus agreement on nil-ness. -/
theorem deepEqual_iff (a b : GoMap) :
    deepEqual a b = true ↔ labelSetEq a b ∧ a.isSome = b.isSome := by
  cases a with
  | none =>
    cases b with
    | none => simp [deepEqual, labelSetEq]
    | some b => simp [deepEqual]
  | some a =>
    cases b with
    | none => simp [deepEqual]
    | some b =>
      constructor
      · intro h
        exact ⟨fun k => lookup_eq_of_deepEqual a b h k, rfl⟩
      · intro h
        exact deepEqual_of_lookup_eq a b (fun k => h.1 k)

/-! ## The reverse conversion -/

theorem templateLabelsOf_apply (ov : GoMap) (tmeta : Option PodTemplateMeta) :
    templateLabelsOf (applyTemplateLabelsOverride ov tmeta) =
      (match ov with
        | some _ => ov
        | none => templateLabelsOf tmeta) := by
  cases ov <;> cases tmeta <;> rfl

theorem templateLabelsOf_apply_self (tmeta : Option PodTemplateMeta) :
    templateLabelsOf (applyTemplateLabelsOverride (templateLabelsOf tmeta) tmeta) =
      templateLabelsOf tmeta := by
  rw [templateLabelsOf_apply]
  cases templateLabelsOf tmeta <;> rfl

theorem templateLabelsOf_effective (labels : GoMap) (tmeta : Option PodTemplateMeta) :
    templateLabelsOf (applyTemplateLabelsOverride
        (match templateLabelsOf tmeta with
          | some _ => templateLabelsOf tmeta
          | none => labels) tmeta) =
      (match templateLabelsOf tmeta with
        | some _ => templateLabelsOf tmeta
        | none => labels) := by
  rw [templateLabelsOf_apply]
  cases h : templateLabelsOf tmeta with
  | some L => rfl
  | none => cases labels <;> simp [h]

theorem revert_explicit (parse : String → Except Error (List LabelSelectorRequirement))
    (name : String) (labels : GoMap) (tmeta : Option PodTemplateMeta) :
    revertSelectorAndTemplate parse name (some { Shorthand := "", Labels := labels }) tmeta =
      .ok (some { MatchLabels := labels, MatchExpressions := [] },
        applyTemplateLabelsOverride
          (match templateLabelsOf tmeta with
            | some _ => templateLabelsOf tmeta
            | none => labels) tmeta) := by
  simp [revertSelectorAndTemplate, revertRSSelector]

theorem revert_expression (parse : String → Except Error (List LabelSelectorRequirement))
    (name t : String) (exprs : List LabelSelectorRequirement) (tmeta : Option PodTemplateMeta)
    (ht : t ≠ "") (hp : parse t = .ok exprs) :
    revertSelectorAndTemplate parse name (some { Shorthand := t, Labels := none }) tmeta =
      .ok (some { MatchLabels := none, MatchExpressions := exprs },
        applyTemplateLabelsOverride (templateLabelsOf tmeta) tmeta) := by
  simp [revertSelectorAndTemplate, revertRSSelector, ht, hp]

/-! ## The selector/template reconciler -/

/-- C1: with an absent selector, `fromRSLabelSelector` succeeds for every
template-label map `L` (nil included) and returns the selector whose `Labels`
are `L` and whose `Shorthand` is empty, with no template-labels override. -/
theorem fromRSLabelSelector_absent (unparse : LabelSelector → Except Error String)
    (L : GoMap) :
    fromRSLabelSelector unparse none L = .ok (some { Shorthand := "", Labels := L }, none) :=
  rfl

/-- C2, the code at a failing input: nil match-labels and an empty non-nil
template-label map hold the same (zero) pairs, yet `reflect.DeepEqual` tells
them apart, the branch commented "Selector and template labels are identical"
is not taken, and the override returned is the template-label map, not nil. -/
theorem fromRSLabelSelector_collapse_nil_vs_empty :
    labelSetEq none (some ∅) ∧
      fromRSLabelSelector sampleUnparse (some { MatchLabels := none, MatchExpressions := [] })
          (some ∅) = .ok (some { Shorthand := "", Labels := none }, some ∅) ∧
      (some ∅ : GoMap) ≠ none := by
  exact ⟨fun k => by simp [GoMap.get], rfl, by simp⟩

/-- The collapse rule on the code: for a present selector with no
match-expressions whose match-labels hold the same pairs as the template
labels, in any order, `fromRSLabelSelector` returns the match-labels as
`Labels`, an empty `Shorthand` and no override exactly when the template labels
are nil or the match-labels are non-nil, that is, on every such input but nil
match-labels against an empty non-nil template-label map. -/
theorem fromRSLabelSelector_collapse (unparse : LabelSelector → Except Error String)
    (sel : LabelSelector) (L : GoMap) (hexp : sel.MatchExpressions = [])
    (heq : labelSetEq sel.MatchLabels L) :
    fromRSLabelSelector unparse (some sel) L =
        .ok (some { Shorthand := "", Labels := sel.MatchLabels }, none) ↔
      (L = none ∨ sel.MatchLabels ≠ none) := by
  cases hM : sel.MatchLabels with
  | none =>
    cases L with
    | none =>
      have hd : deepEqual none none = true := rfl
      simp [fromRSLabelSelector, hexp, hd, hM]
    | some b =>
      have hd : deepEqual none (some b) = false := rfl
      simp [fromRSLabelSelector, hexp, hd, hM]
  | some a =>
    cases L with
    | none =>
      have hd : deepEqual (some a) none = false := rfl
      simp [fromRSLabelSelector, hexp, hd, hM]
    | some b =>
      have hd : deepEqual (some a) (some b) = true :=
        (deepEqual_iff _ _).2 ⟨hM ▸ heq, rfl⟩
      simp [fromRSLabelSelector, hexp, hd, hM]

/-- The collapse rule at match-labels `{a: 1, b: 2}` and template labels stored
as `{b: 2, a: 1}`, and at empty non-nil match-labels with nil template
labels. -/
theorem fromRSLabelSelector_collapse_witness :
    fromRSLabelSelector sampleUnparse
        (some { MatchLabels := some labelsA1B2, MatchExpressions := [] }) (some labelsB2A1) =
      .ok (some { Shorthand := "", Labels := some labelsA1B2 }, none) ∧
    fromRSLabelSelector sampleUnparse
        (some { MatchLabels := some ∅, MatchExpressions := [] }) none =
      .ok (some { Shorthand := "", Labels := some ∅ }, none) :=
  ⟨(fromRSLabelSelector_collapse sampleUnparse
      { MatchLabels := some labelsA1B2, MatchExpressions := [] } (some labelsB2A1) rfl
      (fun _ => AList.perm_lookup (List.Perm.swap _ _ _))).2 (Or.inr (by simp)),
   (fromRSLabelSelector_collapse sampleUnparse
      { MatchLabels := some ∅, MatchExpressions := [] } none rfl
      (fun k => by simp [GoMap.get])).2 (Or.inl rfl)⟩

/-- C3: for a present selector with no match-expressions whose match-labels
differ from the template labels (some key reads differently in the two, or one
is nil and the other is not), `fromRSLabelSelector` returns the match-labels
as `Labels`, an empty `Shorthand`, and the template labels as the override. -/
theorem fromRSLabelSelector_diverge (unparse : LabelSelector → Except Error String)
    (sel : LabelSelector) (L : GoMap) (hexp : sel.MatchExpressions = [])
    (hne : ¬ labelSetEq sel.MatchLabels L ∨ sel.MatchLabels.isSome ≠ L.isSome) :
    fromRSLabelSelector unparse (some sel) L =
      .ok (some { Shorthand := "", Labels := sel.MatchLabels }, L) := by
  have hd : deepEqual sel.MatchLabels L = false := by
    cases h : deepEqual sel.MatchLabels L with
    | false => rfl
    | true =>
      have h2 := (deepEqual_iff _ _).1 h
      cases hne with
      | inl h1 => exact absurd h2.1 h1
      | inr h1 => exact absurd h2.2 h1
  simp [fromRSLabelSelector, hexp, hd]

/-- C3 at match-labels `{a: 1}` and template labels `{a: 1, b: 2}`: `Labels`
are `{a: 1}` and the override is `{a: 1, b: 2}`. -/
theorem fromRSLabelSelector_diverge_witness :
    ¬ labelSetEq (some labelsA1) (some labelsA1B2) ∧
      fromRSLabelSelector sampleUnparse
          (some { MatchLabels := some labelsA1, MatchExpressions := [] }) (some labelsA1B2) =
        .ok (some { Shorthand := "", Labels := some labelsA1 }, some labelsA1B2) :=
  have hne : ¬ labelSetEq (some labelsA1) (some labelsA1B2) :=
    fun h => absurd (h "b") (by decide)
  ⟨hne, fromRSLabelSelector_diverge sampleUnparse
    { MatchLabels := some labelsA1, MatchExpressions := [] } (some labelsA1B2) rfl
    (Or.inl hne)⟩

/-- C4: for a selector with at least one match-expression on which the
compiler succeeds with text `t`, and every template-label map `L` (nil or empty
included, equal to the match-labels or not), `fromRSLabelSelector` returns the
selector with `Shorthand` `t` and `Labels` unset, and the override is `L`. -/
theorem fromRSLabelSelector_expression (unparse : LabelSelector → Except Error String)
    (sel : LabelSelector) (L : GoMap) (t : String) (hexp : sel.MatchExpressions ≠ [])
    (hc : unparse sel = .ok t) :
    fromRSLabelSelector unparse (some sel) L =
      .ok (some { Shorthand := t, Labels := none }, L) := by
  simp [fromRSLabelSelector, hexp, hc]

/-- C4 at match-labels and template labels both `{env: prod, tier: web}` with
the expression `env In [prod]`: no collapse, the override is recorded. -/
theorem fromRSLabelSelector_expression_witness :
    fromRSLabelSelector sampleUnparse
        (some { MatchLabels := some labelsEnvTier, MatchExpressions := [exprEnvInProd] })
        (some labelsEnvTier) =
      .ok (some { Shorthand := "env=prod", Labels := none }, some labelsEnvTier) :=
  fromRSLabelSelector_expression sampleUnparse
    { MatchLabels := some labelsEnvTier, MatchExpressions := [exprEnvInProd] }
    (some labelsEnvTier) "env=prod" (by simp) rfl

/-- C5: when the compiler fails with `e` on a selector that has
match-expressions, `fromRSLabelSelector` returns exactly `e` (no selector, no
override), and `fromKubeDeploymentV1Beta2` on a Deployment carrying that
selector fails with the same `e`, unwrapped. -/
theorem compiler_failure_propagates (env : FromKubeEnv) (sel : LabelSelector) (L : GoMap)
    (e : Error) (d : KubeDeployment) (hexp : sel.MatchExpressions ≠ [])
    (hc : env.unparse sel = .error e) (hsel : d.Spec.Selector = some sel) :
    fromRSLabelSelector env.unparse (some sel) L = .error e ∧
      fromKubeDeploymentV1Beta2 env d = .error e := by
  constructor
  · simp [fromRSLabelSelector, hexp, hc]
  · simp [fromKubeDeploymentV1Beta2, fromRSLabelSelector, hsel, hexp, hc]

/-- C5 at a Deployment whose selector has the expression `env In [prod]`, with
a compiler that rejects it. -/
theorem compiler_failure_propagates_witness :
    fromRSLabelSelector failingUnparse
        (some { MatchLabels := none, MatchExpressions := [exprEnvInProd] })
        (some labelsEnvTier) = .error (.external "bad operator") ∧
      fromKubeDeploymentV1Beta2 (sampleEnv failingUnparse)
        { APIVersion := "v1beta2"
          Spec := { Selector := some { MatchLabels := none, MatchExpressions := [exprEnvInProd] } } }
        = .error (.external "bad operator") :=
  compiler_failure_propagates (sampleEnv failingUnparse)
    { MatchLabels := none, MatchExpressions := [exprEnvInProd] } (some labelsEnvTier)
    (.external "bad operator")
    { APIVersion := "v1beta2"
      Spec := { Selector := some { MatchLabels := none, MatchExpressions := [exprEnvInProd] } } }
    (by simp) rfl rfl

/-- C6, as stated, fails: for the selector `{matchLabels: {a: 1}}` with nil
template labels the override returned is nil, so the reverse conversion takes
the selector's labels for the template: the template labels come back as
`{a: 1}`, not empty. -/
theorem roundTrip_fails_nil_template_labels :
    ¬ RoundTripLaw sampleUnparse sampleParse "web"
        (some { MatchLabels := some labelsA1, MatchExpressions := [] }) none := by
  intro h
  obtain ⟨ks, tmeta', hrev, _, _, hl⟩ :=
    h (some { Shorthand := "", Labels := some labelsA1 }) none rfl none rfl
  have hrev' : revertSelectorAndTemplate sampleParse "web"
      (some { Shorthand := "", Labels := some labelsA1 }) none =
      .ok (some { MatchLabels := some labelsA1, MatchExpressions := [] },
        some { Labels := some labelsA1 }) := rfl
  rw [hrev'] at hrev
  injection hrev with hrev
  injection hrev with _ hm
  subst hm
  exact absurd (hl "a") (by decide)

/-- C6, amended: the round-trip law holds at every (selector, template labels)
pair, an absent selector standing for the template labels, provided that a
selector without match-expressions has no match-label pairs when the template
labels are nil, and that a selector with match-expressions has no match-label
pairs and is compiled to a non-empty text which the parser reads back as its
match-expressions. -/
theorem roundTrip_amended (unparse : LabelSelector → Except Error String)
    (parse : String → Except Error (List LabelSelectorRequirement)) (name : String)
    (selector : Option LabelSelector) (templateLabels : GoMap)
    (hlabels : ∀ x, selector = some x → x.MatchExpressions = [] → templateLabels = none →
      labelSetEq x.MatchLabels none)
    (hexprs : ∀ x, selector = some x → x.MatchExpressions ≠ [] →
      labelSetEq x.MatchLabels none ∧
        ∀ t, unparse x = .ok t → t ≠ "" ∧ parse t = .ok x.MatchExpressions) :
    RoundTripLaw unparse parse name selector templateLabels := by
  intro s ov hfrom tmeta hmeta
  cases selector with
  | none =>
    simp only [fromRSLabelSelector, Except.ok.injEq, Prod.mk.injEq] at hfrom
    obtain ⟨hs, hov⟩ := hfrom
    subst hs; subst hov
    refine ⟨_, _, revert_explicit parse name templateLabels tmeta, ?_, rfl, ?_⟩
    · exact fun _ => rfl
    · rw [templateLabelsOf_effective, hmeta]
      exact fun _ => rfl
  | some x =>
    by_cases hx : x.MatchExpressions = []
    · cases hd : deepEqual x.MatchLabels templateLabels with
      | true =>
        simp only [fromRSLabelSelector, hx, List.length_nil, if_true, hd, Except.ok.injEq,
          Prod.mk.injEq] at hfrom
        obtain ⟨hs, hov⟩ := hfrom
        subst hs; subst hov
        refine ⟨_, _, revert_explicit parse name x.MatchLabels tmeta, ?_, ?_, ?_⟩
        · exact fun _ => rfl
        · simp [selectorContent, hx]
        · rw [templateLabelsOf_effective, hmeta]
          exact ((deepEqual_iff _ _).1 hd).1
      | false =>
        simp only [fromRSLabelSelector, hx, List.length_nil, if_true, hd, Bool.false_eq_true,
          if_false, Except.ok.injEq, Prod.mk.injEq] at hfrom
        obtain ⟨hs, hov⟩ := hfrom
        subst hs; subst hov
        refine ⟨_, _, revert_explicit parse name x.MatchLabels tmeta, ?_, ?_, ?_⟩
        · exact fun _ => rfl
        · simp [selectorContent, hx]
        · rw [templateLabelsOf_effective, hmeta]
          cases hL : templateLabels with
          | none => exact hlabels x rfl hx hL
          | some L => exact fun _ => rfl
    · obtain ⟨hempty, hcomp⟩ := hexprs x rfl hx
      have hlen : x.MatchExpressions.length ≠ 0 := by
        intro h0
        exact hx (List.length_eq_zero.1 h0)
      cases hu : unparse x with
      | error e => simp [fromRSLabelSelector, hlen, hu] at hfrom
      | ok t =>
        obtain ⟨ht, hp⟩ := hcomp t hu
        simp only [fromRSLabelSelector, hlen, if_false, hu, Except.ok.injEq,
          Prod.mk.injEq] at hfrom
        obtain ⟨hs, hov⟩ := hfrom
        subst hs; subst hov
        refine ⟨_, _, revert_expression parse name t x.MatchExpressions tmeta ht hp, ?_, rfl, ?_⟩
        · exact fun k => (hempty k).symm
        · rw [templateLabelsOf_apply_self, hmeta]
          exact fun _ => rfl

/-- C6, amended, at the selector with the expression `env In [prod]` and
template labels `{env: prod, tier: web}`. -/
theorem roundTrip_amended_witness :
    RoundTripLaw sampleUnparse sampleParse "web"
      (some { MatchLabels := none, MatchExpressions := [exprEnvInProd] })
      (some labelsEnvTier) :=
  roundTrip_amended sampleUnparse sampleParse "web"
    (some { MatchLabels := none, MatchExpressions := [exprEnvInProd] }) (some labelsEnvTier)
    (fun _ _ _ hL => by simp at hL)
    (fun x hx _ => by
      simp only [Option.some.injEq] at hx
      subst hx
      refine ⟨fun _ => rfl, fun t ht => ?_⟩
      simp only [sampleUnparse, Except.ok.injEq] at ht
      subst ht
      exact ⟨by decide, rfl⟩)

/-- C7, as stated, fails: with an absent selector and nil template labels
`fromRSLabelSelector` succeeds with a selector that has neither form
populated. -/
theorem fromRSLabelSelector_neither_form :
    fromRSLabelSelector sampleUnparse none none =
        .ok (some { Shorthand := "", Labels := none }, none) ∧
      ¬ ExactlyOneForm { Shorthand := "", Labels := none } := by
  refine ⟨rfl, ?_⟩
  simp [ExactlyOneForm]

/-- C7, amended: on success `fromRSLabelSelector` returns a selector that never
has both forms populated, and that has exactly one form populated unless the
label map it carries is nil (selector absent and template labels nil, or no
match-expressions and nil match-labels) or the compiler returned the empty
text, in which cases it has neither. -/
theorem fromRSLabelSelector_forms (unparse : LabelSelector → Except Error String)
    (selector : Option LabelSelector) (templateLabels : GoMap)
    (r : Option RSSelector × GoMap)
    (h : fromRSLabelSelector unparse selector templateLabels = .ok r) :
    ∃ s, r.1 = some s ∧ ¬ (s.Labels ≠ none ∧ s.Shorthand ≠ "") ∧
      (ExactlyOneForm s ↔
        ¬ ((selector = none ∧ templateLabels = none) ∨
          (∃ x, selector = some x ∧ x.MatchExpressions = [] ∧ x.MatchLabels = none) ∨
          (∃ x, selector = some x ∧ x.MatchExpressions ≠ [] ∧ unparse x = .ok ""))) := by
  cases selector with
  | none =>
    simp only [fromRSLabelSelector, Except.ok.injEq] at h
    subst h
    exact ⟨_, rfl, by simp, by simp [ExactlyOneForm]⟩
  | some x =>
    by_cases hx : x.MatchExpressions = []
    · cases hd : deepEqual x.MatchLabels templateLabels with
      | true =>
        simp only [fromRSLabelSelector, hx, List.length_nil, if_true, hd,
          Except.ok.injEq] at h
        subst h
        exact ⟨_, rfl, by simp, by simp [ExactlyOneForm, hx]⟩
      | false =>
        simp only [fromRSLabelSelector, hx, List.length_nil, if_true, hd, Bool.false_eq_true,
          if_false, Except.ok.injEq] at h
        subst h
        exact ⟨_, rfl, by simp, by simp [ExactlyOneForm, hx]⟩
    · have hlen : x.MatchExpressions.length ≠ 0 := by
        intro h0
        exact hx (List.length_eq_zero.1 h0)
      cases hu : unparse x with
      | error e => simp [fromRSLabelSelector, hlen, hu] at h
      | ok t =>
        simp only [fromRSLabelSelector, hlen, if_false, hu, Except.ok.injEq] at h
        subst h
        exact ⟨_, rfl, by simp, by simp [ExactlyOneForm, hx, hu]⟩

/-- C7, amended, at an absent selector with template labels `{a: 1}`: the
returned selector has `Labels` set and `Shorthand` empty. -/
theorem fromRSLabelSelector_forms_witness :
    ∃ s, (some { Shorthand := "", Labels := some labelsA1 } : Option RSSelector) = some s ∧
      ¬ (s.Labels ≠ none ∧ s.Shorthand ≠ "") ∧
      (ExactlyOneForm s ↔
        ¬ (((none : Option LabelSelector) = none ∧ (some labelsA1 : GoMap) = none) ∨
          (∃ x, (none : Option LabelSelector) = some x ∧ x.MatchExpressions = [] ∧
            x.MatchLabels = none) ∨
          (∃ x, (none : Option LabelSelector) = some x ∧ x.MatchExpressions ≠ [] ∧
            sampleUnparse x = .ok ""))) :=
  fromRSLabelSelector_forms sampleUnparse none (some labelsA1)
    (some { Shorthand := "", Labels := some labelsA1 }, none) rfl

/-! ## The version dispatchers -/

/-- C8: for each of the Deployment types `v1`, `v1beta1` and `v1beta2`, passed
by value or by pointer, `NewDeploymentFromKubeDeployment` returns no manifest
and the mis-matched-versions error naming the observed type and the declared
`APIVersion` whenever that `APIVersion` is not exactly `"v1"`, `"v1beta1"`,
`"v1beta2"` respectively. -/
theorem NewDeploymentFromKubeDeployment_mismatch (env : FromKubeEnv) (d : KubeDeployment) :
    (d.APIVersion ≠ "v1" →
      NewDeploymentFromKubeDeployment env (.appsV1Deployment d) =
        .error (.errorf ("mis-matched versions.  Deployment type: " ++ "v1.Deployment" ++
          ", APIVersion: " ++ d.APIVersion)) ∧
      NewDeploymentFromKubeDeployment env (.appsV1DeploymentPtr d) =
        .error (.errorf ("mis-matched versions.  Deployment type: " ++ "*v1.Deployment" ++
          ", APIVersion: " ++ d.APIVersion))) ∧
    (d.APIVersion ≠ "v1beta1" →
      NewDeploymentFromKubeDeployment env (.appsV1Beta1Deployment d) =
        .error (.errorf ("mis-matched versions.  Deployment type: " ++ "v1beta1.Deployment" ++
          ", APIVersion: " ++ d.APIVersion)) ∧
      NewDeploymentFromKubeDeployment env (.appsV1Beta1DeploymentPtr d) =
        .error (.errorf ("mis-matched versions.  Deployment type: " ++ "*v1beta1.Deployment" ++
          ", APIVersion: " ++ d.APIVersion))) ∧
    (d.APIVersion ≠ "v1beta2" →
      NewDeploymentFromKubeDeployment env (.appsV1Beta2Deployment d) =
        .error (.errorf ("mis-matched versions.  Deployment type: " ++ "v1beta2.Deployment" ++
          ", APIVersion: " ++ d.APIVersion)) ∧
      NewDeploymentFromKubeDeployment env (.appsV1Beta2DeploymentPtr d) =
        .error (.errorf ("mis-matched versions.  Deployment type: " ++ "*v1beta2.Deployment" ++
          ", APIVersion: " ++ d.APIVersion))) := by
  refine ⟨fun h => ?_, fun h => ?_, fun h => ?_⟩ <;>
    simp [NewDeploymentFromKubeDeployment, typeString, h]

/-- C8 at a `v1beta2.Deployment` declaring `"v1"`: it is rejected, and the
message names `v1beta2.Deployment` and `v1`. -/
theorem NewDeploymentFromKubeDeployment_mismatch_witness :
    NewDeploymentFromKubeDeployment (sampleEnv sampleUnparse)
        (.appsV1Beta2Deployment { APIVersion := "v1" }) =
      .error (.errorf "mis-matched versions.  Deployment type: v1beta2.Deployment, APIVersion: v1") :=
  ((NewDeploymentFromKubeDeployment_mismatch (sampleEnv sampleUnparse)
    { APIVersion := "v1" }).2.2 (by decide)).1

/-- C9: for every input whose concrete type is none of the supported value or
pointer types of the resource, `NewDeploymentFromKubeDeployment`,
`NewNamespaceFromKubeNamespace` and `NewSecretFromKubeSecret` return no
manifest and the unknown-version error naming the observed type, whatever
version the input declares. -/
theorem dispatch_unknown_type (env : FromKubeEnv) (K : SecretTypes) (x : KubeObject) :
    ((∀ d, x ≠ .appsV1Deployment d ∧ x ≠ .appsV1DeploymentPtr d ∧
          x ≠ .appsV1Beta1Deployment d ∧ x ≠ .appsV1Beta1DeploymentPtr d ∧
          x ≠ .appsV1Beta2Deployment d ∧ x ≠ .appsV1Beta2DeploymentPtr d) →
      NewDeploymentFromKubeDeployment env x =
        .error (.errorf ("unknown Deployment version: " ++ typeString x))) ∧
    ((∀ n, x ≠ .coreV1Namespace n ∧ x ≠ .coreV1NamespacePtr n) →
      NewNamespaceFromKubeNamespace x =
        .error (.errorf ("unknown Namespace version: " ++ typeString x))) ∧
    ((∀ s, x ≠ .coreV1Secret s ∧ x ≠ .coreV1SecretPtr s) →
      NewSecretFromKubeSecret K x =
        .error (.errorf ("unknown Secret version: " ++ typeString x))) := by
  refine ⟨fun h => ?_, fun h => ?_, fun h => ?_⟩
  · cases x with
    | appsV1Deployment d => exact absurd rfl (h d).1
    | appsV1DeploymentPtr d => exact absurd rfl (h d).2.1
    | appsV1Beta1Deployment d => exact absurd rfl (h d).2.2.1
    | appsV1Beta1DeploymentPtr d => exact absurd rfl (h d).2.2.2.1
    | appsV1Beta2Deployment d => exact absurd rfl (h d).2.2.2.2.1
    | appsV1Beta2DeploymentPtr d => exact absurd rfl (h d).2.2.2.2.2
    | _ => rfl
  · cases x with
    | coreV1Namespace n => exact absurd rfl (h n).1
    | coreV1NamespacePtr n => exact absurd rfl (h n).2
    | _ => rfl
  · cases x with
    | coreV1Secret s => exact absurd rfl (h s).1
    | coreV1SecretPtr s => exact absurd rfl (h s).2
    | _ => rfl

/-- C9 at a `*v1.Secret` declaring `"v1"`, handed to the Deployment and the
Namespace dispatchers, and at a value of type `string` handed to the Secret
dispatcher. -/
theorem dispatch_unknown_type_witness :
    NewDeploymentFromKubeDeployment (sampleEnv sampleUnparse)
        (.coreV1SecretPtr { APIVersion := "v1" }) =
      .error (.errorf "unknown Deployment version: *v1.Secret") ∧
    NewNamespaceFromKubeNamespace (.coreV1SecretPtr { APIVersion := "v1" }) =
      .error (.errorf "unknown Namespace version: *v1.Secret") ∧
    NewSecretFromKubeSecret sampleSecretTypes (.other "string") =
      .error (.errorf "unknown Secret version: string") :=
  ⟨(dispatch_unknown_type (sampleEnv sampleUnparse) sampleSecretTypes
      (.coreV1SecretPtr { APIVersion := "v1" })).1 (fun _ => by simp),
   (dispatch_unknown_type (sampleEnv sampleUnparse) sampleSecretTypes
      (.coreV1SecretPtr { APIVersion := "v1" })).2.1 (fun _ => by simp),
   (dispatch_unknown_type (sampleEnv sampleUnparse) sampleSecretTypes
      (.other "string")).2.2 (fun _ => by simp)⟩

/-- C10, the code at a failing input: a `v1.Secret` declaring `"v2"`, by value
or by pointer, is converted without error into a Secret of `Version` `"v2"`,
where `NewNamespaceFromKubeNamespace` rejects a `v1.Namespace` declaring
`"v2"` with the mis-matched-versions error. -/
theorem NewSecretFromKubeSecret_skips_version_check (K : SecretTypes) :
    NewSecretFromKubeSecret K (.coreV1Secret { APIVersion := "v2" }) =
        .ok { Version := "v2" } ∧
      NewSecretFromKubeSecret K (.coreV1SecretPtr { APIVersion := "v2" }) =
        .ok { Version := "v2" } ∧
      NewNamespaceFromKubeNamespace (.coreV1Namespace { APIVersion := "v2" }) =
        .error (.errorf "mis-matched versions.  Namespace type: v1.Namespace, APIVersion: v2") :=
  ⟨rfl, rfl, rfl⟩

/-! ## Namespaces and Secrets: the output path -/

theorem length_eq_zero_iff_empty (s : String) : s.length = 0 ↔ s = "" := by
  constructor
  · intro h
    have hd : s.data = [] := List.length_eq_zero.1 h
    exact String.ext hd
  · intro h
    subst h
    rfl

theorem toKubeFinalizersV1_of_all (l : List FinalizerName)
    (h : ∀ f ∈ l, f = FinalizerKubernetes) :
    toKubeFinalizersV1 l = .ok (l.map (fun _ => kubeFinalizerKubernetes)) := by
  induction l with
  | nil => rfl
  | cons a l ih =>
    have ha : a = FinalizerKubernetes := h a (List.mem_cons_self _ _)
    have hl := ih (fun f hf => h f (List.mem_cons_of_mem _ hf))
    simp [toKubeFinalizersV1, toKubeFinalizerV1, ha, hl]

theorem toKubeFinalizersV1_ok (l : List FinalizerName) (r : List String)
    (h : toKubeFinalizersV1 l = .ok r) :
    (∀ f ∈ l, f = FinalizerKubernetes) ∧ r = l.map (fun _ => kubeFinalizerKubernetes) := by
  induction l generalizing r with
  | nil =>
    simp only [toKubeFinalizersV1, Except.ok.injEq] at h
    subst h
    simp
  | cons a l ih =>
    by_cases ha : a = FinalizerKubernetes
    · cases hl : toKubeFinalizersV1 l with
      | error e => simp [toKubeFinalizersV1, toKubeFinalizerV1, ha, hl] at h
      | ok r' =>
        simp only [toKubeFinalizersV1, toKubeFinalizerV1, ha, if_true, hl,
          Except.ok.injEq] at h
        subst h
        obtain ⟨hall, hr⟩ := ih r' hl
        subst hr
        refine ⟨?_, by simp⟩
        intro f hf
        cases List.mem_cons.1 hf with
        | inl h1 => rw [h1, ha]
        | inr h1 => exact hall f h1
    · simp [toKubeFinalizersV1, toKubeFinalizerV1, ha] at h

theorem fromKubeFinalizersV1_of_all (l : List String)
    (h : ∀ f ∈ l, f = kubeFinalizerKubernetes) :
    fromKubeFinalizersV1 l = .ok (l.map (fun _ => FinalizerKubernetes)) := by
  induction l with
  | nil => rfl
  | cons a l ih =>
    have ha : a = kubeFinalizerKubernetes := h a (List.mem_cons_self _ _)
    have hl := ih (fun f hf => h f (List.mem_cons_of_mem _ hf))
    simp [fromKubeFinalizersV1, ha, hl]

theorem fromKubeFinalizersV1_ok (l : List String) (r : List FinalizerName)
    (h : fromKubeFinalizersV1 l = .ok r) :
    (∀ f ∈ l, f = kubeFinalizerKubernetes) ∧ r = l.map (fun _ => FinalizerKubernetes) := by
  induction l generalizing r with
  | nil =>
    simp only [fromKubeFinalizersV1, Except.ok.injEq] at h
    subst h
    simp
  | cons a l ih =>
    by_cases ha : a = kubeFinalizerKubernetes
    · cases hl : fromKubeFinalizersV1 l with
      | error e => simp [fromKubeFinalizersV1, ha, hl] at h
      | ok r' =>
        simp only [fromKubeFinalizersV1, ha, if_true, hl, Except.ok.injEq] at h
        subst h
        obtain ⟨hall, hr⟩ := ih r' hl
        subst hr
        refine ⟨?_, by simp⟩
        intro f hf
        cases List.mem_cons.1 hf with
        | inl h1 => rw [h1, ha]
        | inr h1 => exact hall f h1
    · simp [fromKubeFinalizersV1, ha] at h

theorem forall₂_map_const {α β : Type} (a : α) (b : β) (l : List α) (h : ∀ x ∈ l, x = a) :
    List.Forall₂ (fun x y => x = a ∧ y = b) l (l.map (fun _ => b)) := by
  induction l with
  | nil => exact List.Forall₂.nil
  | cons x l ih =>
    exact List.Forall₂.cons ⟨h x (List.mem_cons_self _ _), rfl⟩
      (ih (fun y hy => h y (List.mem_cons_of_mem _ hy)))

/-- C11: `Namespace.ToKube` and `Secret.ToKube` alike return the
unsupported-api-version error, and no object, for every `Version` whose
lower-cased form is neither `"v1"` nor empty, and return exactly the result of
`toKubeV1` for every `Version` whose lower-cased form is `"v1"` or empty. -/
theorem ToKube_version_switch (K : SecretTypes) (cmVersion : String) (ns : Namespace)
    (s : Secret) :
    ((toLower ns.Version ≠ "v1" ∧ toLower ns.Version ≠ "") →
      ns.ToKube = .error (.errorf ("unsupported api version for Namespace: " ++ ns.Version))) ∧
    ((toLower ns.Version = "v1" ∨ toLower ns.Version = "") → ns.ToKube = ns.toKubeV1) ∧
    ((toLower s.Version ≠ "v1" ∧ toLower s.Version ≠ "") →
      Secret.ToKube K cmVersion s =
        .error (.errorf ("unsupported api version for secret: " ++ cmVersion))) ∧
    ((toLower s.Version = "v1" ∨ toLower s.Version = "") →
      Secret.ToKube K cmVersion s = Secret.toKubeV1 K s) := by
  refine ⟨fun h => ?_, fun h => ?_, fun h => ?_, fun h => ?_⟩
  · simp [Namespace.ToKube, h.1, h.2]
  · cases h with
    | inl h => simp [Namespace.ToKube, h]
    | inr h => simp [Namespace.ToKube, h]
  · simp [Secret.ToKube, h.1, h.2]
  · cases h with
    | inl h => simp [Secret.ToKube, h]
    | inr h => simp [Secret.ToKube, h]

/-- C11 at the versions of `TestToKube`: `"unknown"` is refused by both, and
`"V1"` and `""` are converted by `toKubeV1`. -/
theorem ToKube_version_switch_witness :
    Namespace.ToKube { Version := "unknown" } =
        .error (.errorf "unsupported api version for Namespace: unknown") ∧
      Namespace.ToKube { Version := "V1" } = Namespace.toKubeV1 { Version := "V1" } ∧
      Secret.ToKube sampleSecretTypes "unknown" { Version := "unknown" } =
        .error (.errorf "unsupported api version for secret: unknown") ∧
      Secret.ToKube sampleSecretTypes "" { Version := "" } =
        Secret.toKubeV1 sampleSecretTypes { Version := "" } :=
  ⟨(ToKube_version_switch sampleSecretTypes "unknown" { Version := "unknown" }
      { Version := "unknown" }).1 ⟨by decide, by decide⟩,
   (ToKube_version_switch sampleSecretTypes "unknown" { Version := "V1" }
      { Version := "unknown" }).2.1 (Or.inl (by decide)),
   (ToKube_version_switch sampleSecretTypes "unknown" { Version := "unknown" }
      { Version := "unknown" }).2.2.1 ⟨by decide, by decide⟩,
   (ToKube_version_switch sampleSecretTypes "" { Version := "V1" }
      { Version := "" }).2.2.2 (Or.inr (by decide))⟩

/-- C12: for every Namespace whose `Phase` is Active or Terminating and whose
finalizers are all `FinalizerKubernetes`, `toKubeV1` succeeds with the v1
Namespace that has the input's `Name`, `Namespace`, `Cluster` (as
`ClusterName`), `Labels` and `Annotations`, `Kind` `"Namespace"`, `APIVersion`
`"v1"` when `Version` is empty and `Version` otherwise, one kube finalizer per
input finalizer in order, and the corresponding kube phase. -/
theorem Namespace_toKubeV1_fields (ns : Namespace)
    (hphase : ns.Phase = NamespaceActive ∨ ns.Phase = NamespaceTerminating)
    (hfin : ∀ f ∈ ns.Finalizers, f = FinalizerKubernetes) :
    ns.toKubeV1 =
      .ok { Name := ns.Name
            Namespace := ns.Namespace
            ClusterName := ns.Cluster
            Labels := ns.Labels
            Annotations := ns.Annotations
            Kind := "Namespace"
            APIVersion := if ns.Version = "" then "v1" else ns.Version
            Spec := { Finalizers := ns.Finalizers.map (fun _ => kubeFinalizerKubernetes) }
            Status :=
              { Phase := if ns.Phase = NamespaceActive then kubeNamespaceActive
                         else kubeNamespaceTerminating } } := by
  have hspec : ns.toKubeNamespaceSpecV1 =
      .ok { Finalizers := ns.Finalizers.map (fun _ => kubeFinalizerKubernetes) } := by
    simp [Namespace.toKubeNamespaceSpecV1, toKubeFinalizersV1_of_all ns.Finalizers hfin]
  have hstatus : ns.toKubeNamespaceStatusV1 =
      .ok { Phase := if ns.Phase = NamespaceActive then kubeNamespaceActive
                     else kubeNamespaceTerminating } := by
    cases hphase with
    | inl h => simp [Namespace.toKubeNamespaceStatusV1, h]
    | inr h => simp [Namespace.toKubeNamespaceStatusV1, h, NamespaceActive, NamespaceTerminating]
  simp only [Namespace.toKubeV1, hspec, hstatus, length_eq_zero_iff_empty]

/-- C12 at the Namespace of `TestToKubeV1`. -/
theorem Namespace_toKubeV1_fields_witness :
    sampleNamespace.toKubeV1 =
      .ok { Name := "testNS"
            Namespace := "testNS"
            ClusterName := "testCluster"
            Labels := some labelsA1B2
            Annotations := some labelsA1
            Kind := "Namespace"
            APIVersion := "v1"
            Spec := { Finalizers := ["kubernetes"] }
            Status := { Phase := "Terminating" } } :=
  Namespace_toKubeV1_fields sampleNamespace (Or.inr rfl) (by decide)

/-- C13, the code at a failing input: a Secret with empty `Version` (and unset
`SecretType`) is converted by `ToKube` without error into a v1 Secret whose
`APIVersion` is empty, not `"v1"`; `Namespace.ToKube` on a Namespace with empty
`Version` declares `"v1"`. -/
theorem Secret_ToKube_empty_version (K : SecretTypes) (cmVersion : String) :
    Secret.ToKube K cmVersion { Version := "" } = .ok { APIVersion := "", Kind := "Secret" } ∧
      Namespace.ToKube { Version := "" } =
        .ok { APIVersion := "v1", Kind := "Namespace", Status := { Phase := "Active" } } :=
  ⟨rfl, rfl⟩

/-! ## Enum tables -/

theorem revertSecretType_table (K : SecretTypes) (hK : K.Valid) :
    revertSecretType K K.SecretTypeOpaque = .ok kubeSecretTypeOpaque ∧
    revertSecretType K K.SecretTypeServiceAccountToken = .ok kubeSecretTypeServiceAccountToken ∧
    revertSecretType K K.SecretTypeDockercfg = .ok kubeSecretTypeDockercfg ∧
    revertSecretType K K.SecretTypeDockerConfigJson = .ok kubeSecretTypeDockerConfigJson ∧
    revertSecretType K K.SecretTypeBasicAuth = .ok kubeSecretTypeBasicAuth ∧
    revertSecretType K K.SecretTypeSSHAuth = .ok kubeSecretTypeSSHAuth ∧
    revertSecretType K K.SecretTypeTLS = .ok kubeSecretTypeTLS := by
  obtain ⟨hnd, hne⟩ := hK
  simp only [SecretTypes.values, List.nodup_cons, List.mem_cons, List.mem_singleton,
    List.not_mem_nil, or_false, not_or, List.nodup_nil, and_true, not_false_eq_true] at hnd hne
  obtain ⟨⟨a1, a2, a3, a4, a5, a6⟩, ⟨b1, b2, b3, b4, b5⟩, ⟨c1, c2, c3, c4⟩, ⟨d1, d2, d3⟩,
    ⟨e1, e2⟩, f1⟩ := hnd
  obtain ⟨n1, n2, n3, n4, n5, n6, n7⟩ := hne
  refine ⟨?_, ?_, ?_, ?_, ?_, ?_, ?_⟩
  · simp [revertSecretType, Ne.symm n1]
  · simp [revertSecretType, Ne.symm n2, Ne.symm a1]
  · simp [revertSecretType, Ne.symm n3, Ne.symm a2, Ne.symm b1]
  · simp [revertSecretType, Ne.symm n4, Ne.symm a3, Ne.symm b2, Ne.symm c1]
  · simp [revertSecretType, Ne.symm n5, Ne.symm a4, Ne.symm b3, Ne.symm c2, Ne.symm d1]
  · simp [revertSecretType, Ne.symm n6, Ne.symm a5, Ne.symm b4, Ne.symm c3, Ne.symm d2,
      Ne.symm e1]
  · simp [revertSecretType, Ne.symm n7, Ne.symm a6, Ne.symm b5, Ne.symm c4, Ne.symm d3,
      Ne.symm e2, Ne.symm f1]

theorem convertSecretType_table (K : SecretTypes) :
    convertSecretType K kubeSecretTypeOpaque = .ok K.SecretTypeOpaque ∧
    convertSecretType K kubeSecretTypeServiceAccountToken = .ok K.SecretTypeServiceAccountToken ∧
    convertSecretType K kubeSecretTypeDockercfg = .ok K.SecretTypeDockercfg ∧
    convertSecretType K kubeSecretTypeDockerConfigJson = .ok K.SecretTypeDockerConfigJson ∧
    convertSecretType K kubeSecretTypeBasicAuth = .ok K.SecretTypeBasicAuth ∧
    convertSecretType K kubeSecretTypeSSHAuth = .ok K.SecretTypeSSHAuth ∧
    convertSecretType K kubeSecretTypeTLS = .ok K.SecretTypeTLS :=
  ⟨rfl, rfl, rfl, rfl, rfl, rfl, rfl⟩

theorem convertSecretType_ok_of_mem (K : SecretTypes) (x : String)
    (h : x = "" ∨ x ∈ kubeSecretTypeValues) : ∃ t, convertSecretType K x = .ok t := by
  unfold convertSecretType
  by_cases h0 : x = ""
  · exact ⟨_, if_pos h0⟩
  rw [if_neg h0]
  by_cases h1 : x = kubeSecretTypeOpaque
  · exact ⟨_, if_pos h1⟩
  rw [if_neg h1]
  by_cases h2 : x = kubeSecretTypeServiceAccountToken
  · exact ⟨_, if_pos h2⟩
  rw [if_neg h2]
  by_cases h3 : x = kubeSecretTypeDockercfg
  · exact ⟨_, if_pos h3⟩
  rw [if_neg h3]
  by_cases h4 : x = kubeSecretTypeDockerConfigJson
  · exact ⟨_, if_pos h4⟩
  rw [if_neg h4]
  by_cases h5 : x = kubeSecretTypeBasicAuth
  · exact ⟨_, if_pos h5⟩
  rw [if_neg h5]
  by_cases h6 : x = kubeSecretTypeSSHAuth
  · exact ⟨_, if_pos h6⟩
  rw [if_neg h6]
  by_cases h7 : x = kubeSecretTypeTLS
  · exact ⟨_, if_pos h7⟩
  rw [if_neg h7]
  exfalso
  cases h with
  | inl h => exact h0 h
  | inr h =>
    simp only [kubeSecretTypeValues, List.mem_cons, List.mem_singleton, List.not_mem_nil,
      or_false] at h
    rcases h with h | h | h | h | h | h | h <;> contradiction

theorem convertSecretType_ok_cases (K : SecretTypes) (x y : String)
    (h : convertSecretType K x = .ok y) :
    (x = "" ∧ y = "") ∨
      (x = kubeSecretTypeOpaque ∧ y = K.SecretTypeOpaque) ∨
      (x = kubeSecretTypeServiceAccountToken ∧ y = K.SecretTypeServiceAccountToken) ∨
      (x = kubeSecretTypeDockercfg ∧ y = K.SecretTypeDockercfg) ∨
      (x = kubeSecretTypeDockerConfigJson ∧ y = K.SecretTypeDockerConfigJson) ∨
      (x = kubeSecretTypeBasicAuth ∧ y = K.SecretTypeBasicAuth) ∨
      (x = kubeSecretTypeSSHAuth ∧ y = K.SecretTypeSSHAuth) ∨
      (x = kubeSecretTypeTLS ∧ y = K.SecretTypeTLS) := by
  unfold convertSecretType at h
  by_cases h0 : x = ""
  · rw [if_pos h0] at h
    injection h with h
    exact Or.inl ⟨h0, h.symm⟩
  rw [if_neg h0] at h
  by_cases h1 : x = kubeSecretTypeOpaque
  · rw [if_pos h1] at h
    injection h with h
    exact Or.inr (Or.inl ⟨h1, h.symm⟩)
  rw [if_neg h1] at h
  by_cases h2 : x = kubeSecretTypeServiceAccountToken
  · rw [if_pos h2] at h
    injection h with h
    exact Or.inr (Or.inr (Or.inl ⟨h2, h.symm⟩))
  rw [if_neg h2] at h
  by_cases h3 : x = kubeSecretTypeDockercfg
  · rw [if_pos h3] at h
    injection h with h
    exact Or.inr (Or.inr (Or.inr (Or.inl ⟨h3, h.symm⟩)))
  rw [if_neg h3] at h
  by_cases h4 : x = kubeSecretTypeDockerConfigJson
  · rw [if_pos h4] at h
    injection h with h
    exact Or.inr (Or.inr (Or.inr (Or.inr (Or.inl ⟨h4, h.symm⟩))))
  rw [if_neg h4] at h
  by_cases h5 : x = kubeSecretTypeBasicAuth
  · rw [if_pos h5] at h
    injection h with h
    exact Or.inr (Or.inr (Or.inr (Or.inr (Or.inr (Or.inl ⟨h5, h.symm⟩)))))
  rw [if_neg h5] at h
  by_cases h6 : x = kubeSecretTypeSSHAuth
  · rw [if_pos h6] at h
    injection h with h
    exact Or.inr (Or.inr (Or.inr (Or.inr (Or.inr (Or.inr (Or.inl ⟨h6, h.symm⟩))))))
  rw [if_neg h6] at h
  by_cases h7 : x = kubeSecretTypeTLS
  · rw [if_pos h7] at h
    injection h with h
    exact Or.inr (Or.inr (Or.inr (Or.inr (Or.inr (Or.inr (Or.inr (⟨h7, h.symm⟩)))))))
  rw [if_neg h7] at h
  injection h

theorem convertSecretType_error_of_not_mem (K : SecretTypes) (x : String) (h0 : x ≠ "")
    (h : x ∉ kubeSecretTypeValues) :
    convertSecretType K x = .error (.invalidValue (.str x) "unrecognized Secret type") := by
  simp only [kubeSecretTypeValues, List.mem_cons, List.mem_singleton, List.not_mem_nil,
    or_false, not_or] at h
  obtain ⟨h1, h2, h3, h4, h5, h6, h7⟩ := h
  simp only [convertSecretType, if_neg h0, if_neg h1, if_neg h2, if_neg h3, if_neg h4,
    if_neg h5, if_neg h6, if_neg h7]

theorem convertSecretType_error_iff (K : SecretTypes) (x : String) :
    (∃ e, convertSecretType K x = .error e) ↔ (x ≠ "" ∧ x ∉ kubeSecretTypeValues) := by
  constructor
  · rintro ⟨e, he⟩
    refine ⟨fun h0 => ?_, fun hm => ?_⟩
    · obtain ⟨t, ht⟩ := convertSecretType_ok_of_mem K x (Or.inl h0)
      rw [ht] at he
      cases he
    · obtain ⟨t, ht⟩ := convertSecretType_ok_of_mem K x (Or.inr hm)
      rw [ht] at he
      cases he
  · rintro ⟨h0, hm⟩
    exact ⟨_, convertSecretType_error_of_not_mem K x h0 hm⟩

theorem convertSecretType_error_shape (K : SecretTypes) (x : String) (e : Error)
    (h : convertSecretType K x = .error e) :
    e = .invalidValue (.str x) "unrecognized Secret type" := by
  have hm := (convertSecretType_error_iff K x).1 ⟨e, h⟩
  rw [convertSecretType_error_of_not_mem K x hm.1 hm.2] at h
  injection h with h
  exact h.symm

theorem revertSecretType_ok_of_mem (K : SecretTypes) (x : String)
    (h : x = "" ∨ x ∈ K.values) : ∃ t, revertSecretType K x = .ok t := by
  unfold revertSecretType
  by_cases h0 : x = ""
  · exact ⟨_, if_pos h0⟩
  rw [if_neg h0]
  by_cases h1 : x = K.SecretTypeOpaque
  · exact ⟨_, if_pos h1⟩
  rw [if_neg h1]
  by_cases h2 : x = K.SecretTypeServiceAccountToken
  · exact ⟨_, if_pos h2⟩
  rw [if_neg h2]
  by_cases h3 : x = K.SecretTypeDockercfg
  · exact ⟨_, if_pos h3⟩
  rw [if_neg h3]
  by_cases h4 : x = K.SecretTypeDockerConfigJson
  · exact ⟨_, if_pos h4⟩
  rw [if_neg h4]
  by_cases h5 : x = K.SecretTypeBasicAuth
  · exact ⟨_, if_pos h5⟩
  rw [if_neg h5]
  by_cases h6 : x = K.SecretTypeSSHAuth
  · exact ⟨_, if_pos h6⟩
  rw [if_neg h6]
  by_cases h7 : x = K.SecretTypeTLS
  · exact ⟨_, if_pos h7⟩
  rw [if_neg h7]
  exfalso
  cases h with
  | inl h => exact h0 h
  | inr h =>
    simp only [SecretTypes.values, List.mem_cons, List.mem_singleton, List.not_mem_nil,
      or_false] at h
    rcases h with h | h | h | h | h | h | h <;> contradiction

theorem revertSecretType_ok_cases (K : SecretTypes) (x y : String)
    (h : revertSecretType K x = .ok y) :
    (x = "" ∧ y = "") ∨
      (x = K.SecretTypeOpaque ∧ y = kubeSecretTypeOpaque) ∨
      (x = K.SecretTypeServiceAccountToken ∧ y = kubeSecretTypeServiceAccountToken) ∨
      (x = K.SecretTypeDockercfg ∧ y = kubeSecretTypeDockercfg) ∨
      (x = K.SecretTypeDockerConfigJson ∧ y = kubeSecretTypeDockerConfigJson) ∨
      (x = K.SecretTypeBasicAuth ∧ y = kubeSecretTypeBasicAuth) ∨
      (x = K.SecretTypeSSHAuth ∧ y = kubeSecretTypeSSHAuth) ∨
      (x = K.SecretTypeTLS ∧ y = kubeSecretTypeTLS) := by
  unfold revertSecretType at h
  by_cases h0 : x = ""
  · rw [if_pos h0] at h
    injection h with h
    exact Or.inl ⟨h0, h.symm⟩
  rw [if_neg h0] at h
  by_cases h1 : x = K.SecretTypeOpaque
  · rw [if_pos h1] at h
    injection h with h
    exact Or.inr (Or.inl ⟨h1, h.symm⟩)
  rw [if_neg h1] at h
  by_cases h2 : x = K.SecretTypeServiceAccountToken
  · rw [if_pos h2] at h
    injection h with h
    exact Or.inr (Or.inr (Or.inl ⟨h2, h.symm⟩))
  rw [if_neg h2] at h
  by_cases h3 : x = K.SecretTypeDockercfg
  · rw [if_pos h3] at h
    injection h with h
    exact Or.inr (Or.inr (Or.inr (Or.inl ⟨h3, h.symm⟩)))
  rw [if_neg h3] at h
  by_cases h4 : x = K.SecretTypeDockerConfigJson
  · rw [if_pos h4] at h
    injection h with h
    exact Or.inr (Or.inr (Or.inr (Or.inr (Or.inl ⟨h4, h.symm⟩))))
  rw [if_neg h4] at h
  by_cases h5 : x = K.SecretTypeBasicAuth
  · rw [if_pos h5] at h
    injection h with h
    exact Or.inr (Or.inr (Or.inr (Or.inr (Or.inr (Or.inl ⟨h5, h.symm⟩)))))
  rw [if_neg h5] at h
  by_cases h6 : x = K.SecretTypeSSHAuth
  · rw [if_pos h6] at h
    injection h with h
    exact Or.inr (Or.inr (Or.inr (Or.inr (Or.inr (Or.inr (Or.inl ⟨h6, h.symm⟩))))))
  rw [if_neg h6] at h
  by_cases h7 : x = K.SecretTypeTLS
  · rw [if_pos h7] at h
    injection h with h
    exact Or.inr (Or.inr (Or.inr (Or.inr (Or.inr (Or.inr (Or.inr (⟨h7, h.symm⟩)))))))
  rw [if_neg h7] at h
  injection h

theorem revertSecretType_error_of_not_mem (K : SecretTypes) (x : String) (h0 : x ≠ "")
    (h : x ∉ K.values) :
    revertSecretType K x = .error (.invalidValue (.str x) "unrecognized Secret type") := by
  simp only [SecretTypes.values, List.mem_cons, List.mem_singleton, List.not_mem_nil,
    or_false, not_or] at h
  obtain ⟨h1, h2, h3, h4, h5, h6, h7⟩ := h
  simp only [revertSecretType, if_neg h0, if_neg h1, if_neg h2, if_neg h3, if_neg h4,
    if_neg h5, if_neg h6, if_neg h7]

theorem revertSecretType_error_iff (K : SecretTypes) (x : String) :
    (∃ e, revertSecretType K x = .error e) ↔ (x ≠ "" ∧ x ∉ K.values) := by
  constructor
  · rintro ⟨e, he⟩
    refine ⟨fun h0 => ?_, fun hm => ?_⟩
    · obtain ⟨t, ht⟩ := revertSecretType_ok_of_mem K x (Or.inl h0)
      rw [ht] at he
      cases he
    · obtain ⟨t, ht⟩ := revertSecretType_ok_of_mem K x (Or.inr hm)
      rw [ht] at he
      cases he
  · rintro ⟨h0, hm⟩
    exact ⟨_, revertSecretType_error_of_not_mem K x h0 hm⟩

theorem revertSecretType_error_shape (K : SecretTypes) (x : String) (e : Error)
    (h : revertSecretType K x = .error e) :
    e = .invalidValue (.str x) "unrecognized Secret type" := by
  have hm := (revertSecretType_error_iff K x).1 ⟨e, h⟩
  rw [revertSecretType_error_of_not_mem K x hm.1 hm.2] at h
  injection h with h
  exact h.symm

/-! ## Namespaces and Secrets: the input path -/

/-- C14: for every v1 Namespace whose `APIVersion` is `"v1"`, whose finalizers
are all the kubernetes finalizer and whose phase is Active or Terminating,
`NewNamespaceFromKubeNamespace` succeeds with the same result by value and by
pointer: the Namespace with the input's `Name`, `Namespace`, `APIVersion` (as
`Version`), `ClusterName` (as `Cluster`), `Labels` and `Annotations`, one
shorthand finalizer per kube finalizer, and the corresponding phase. -/
theorem NewNamespace_value_pointer (n : KubeNamespace) (hv : n.APIVersion = "v1")
    (hfin : ∀ f ∈ n.Spec.Finalizers, f = kubeFinalizerKubernetes)
    (hphase : n.Status.Phase = kubeNamespaceActive ∨
      n.Status.Phase = kubeNamespaceTerminating) :
    NewNamespaceFromKubeNamespace (.coreV1Namespace n) =
        .ok { Name := n.Name
              Namespace := n.Namespace
              Version := n.APIVersion
              Cluster := n.ClusterName
              Labels := n.Labels
              Annotations := n.Annotations
              Finalizers := n.Spec.Finalizers.map (fun _ => FinalizerKubernetes)
              Phase := if n.Status.Phase = kubeNamespaceActive then NamespaceActive
                       else NamespaceTerminating } ∧
      NewNamespaceFromKubeNamespace (.coreV1NamespacePtr n) =
        NewNamespaceFromKubeNamespace (.coreV1Namespace n) := by
  have hspec := fromKubeFinalizersV1_of_all n.Spec.Finalizers hfin
  have hstatus : fromKubeNamespaceStatusV1 n.Status =
      .ok (if n.Status.Phase = kubeNamespaceActive then NamespaceActive
           else NamespaceTerminating) := by
    cases hphase with
    | inl h => simp [fromKubeNamespaceStatusV1, h]
    | inr h =>
      simp [fromKubeNamespaceStatusV1, h, kubeNamespaceActive, kubeNamespaceTerminating]
  refine ⟨?_, ?_⟩
  · simp [NewNamespaceFromKubeNamespace, hv, fromKubeNamespaceV1, fromKubeNamespaceSpecV1,
      hspec, hstatus]
  · simp [NewNamespaceFromKubeNamespace, hv]

/-- C14 at the kube Namespace of `TestFromKubeV1`. -/
theorem NewNamespace_value_pointer_witness :
    NewNamespaceFromKubeNamespace (.coreV1Namespace sampleKubeNamespace) =
        .ok { Name := "testCM"
              Namespace := "testNS"
              Version := "v1"
              Cluster := "testCluster"
              Labels := some labelsA1B2
              Annotations := some labelsA1
              Finalizers := [FinalizerKubernetes]
              Phase := NamespaceActive } ∧
      NewNamespaceFromKubeNamespace (.coreV1NamespacePtr sampleKubeNamespace) =
        NewNamespaceFromKubeNamespace (.coreV1Namespace sampleKubeNamespace) :=
  NewNamespace_value_pointer sampleKubeNamespace rfl (by decide) (Or.inl rfl)

/-- C15: for every v1 Secret whose `Type` is empty or one of the seven
recognised secret types, `convertSecretType` succeeds on the `Type` and
`NewSecretFromKubeSecret` succeeds with the same result by value and by
pointer: the Secret with the input's `Name`, `Namespace`, `APIVersion` (as
`Version`), `ClusterName` (as `Cluster`), `Labels`, `Annotations`, `Data` and
`StringData`, and the converted `Type` as `SecretType`. -/
theorem NewSecret_value_pointer (K : SecretTypes) (s : KubeSecret)
    (hty : s.Type_ = "" ∨ s.Type_ ∈ kubeSecretTypeValues) :
    ∃ t, convertSecretType K s.Type_ = .ok t ∧
      NewSecretFromKubeSecret K (.coreV1Secret s) =
        .ok { Name := s.Name
              Namespace := s.Namespace
              Version := s.APIVersion
              Cluster := s.ClusterName
              Labels := s.Labels
              Annotations := s.Annotations
              Data := s.Data
              StringData := s.StringData
              SecretType := t } ∧
      NewSecretFromKubeSecret K (.coreV1SecretPtr s) =
        NewSecretFromKubeSecret K (.coreV1Secret s) := by
  have hconv : ∃ t, convertSecretType K s.Type_ = .ok t :=
    convertSecretType_ok_of_mem K s.Type_ hty
  obtain ⟨t, ht⟩ := hconv
  exact ⟨t, ht, by simp [NewSecretFromKubeSecret, fromKubeSecretV1, ht], rfl⟩

/-- C15 at the kube Secret of `TestFromKubeSecretV1`, of type `Opaque`. -/
theorem NewSecret_value_pointer_witness :
    ∃ t, convertSecretType sampleSecretTypes sampleKubeSecret.Type_ = .ok t ∧
      NewSecretFromKubeSecret sampleSecretTypes (.coreV1Secret sampleKubeSecret) =
        .ok { Name := sampleKubeSecret.Name
              Namespace := sampleKubeSecret.Namespace
              Version := sampleKubeSecret.APIVersion
              Cluster := sampleKubeSecret.ClusterName
              Labels := sampleKubeSecret.Labels
              Annotations := sampleKubeSecret.Annotations
              Data := sampleKubeSecret.Data
              StringData := sampleKubeSecret.StringData
              SecretType := t } ∧
      NewSecretFromKubeSecret sampleSecretTypes (.coreV1SecretPtr sampleKubeSecret) =
        NewSecretFromKubeSecret sampleSecretTypes (.coreV1Secret sampleKubeSecret) :=
  NewSecret_value_pointer sampleSecretTypes sampleKubeSecret (Or.inr (by decide))

/-! ## Enum tables: the claims -/

/-- C16: with the seven shorthand secret-type constants distinct and non-empty,
each of the seven kube secret types converts to its like-named shorthand type
and that type reverts to the kube type, both without error; on every input
(the empty one included) on which `convertSecretType` succeeds
`revertSecretType` brings the result back to the input, and conversely. -/
theorem secretType_inverse (K : SecretTypes) (hK : K.Valid) :
    (convertSecretType K kubeSecretTypeOpaque = .ok K.SecretTypeOpaque ∧
      revertSecretType K K.SecretTypeOpaque = .ok kubeSecretTypeOpaque) ∧
    (convertSecretType K kubeSecretTypeServiceAccountToken =
        .ok K.SecretTypeServiceAccountToken ∧
      revertSecretType K K.SecretTypeServiceAccountToken =
        .ok kubeSecretTypeServiceAccountToken) ∧
    (convertSecretType K kubeSecretTypeDockercfg = .ok K.SecretTypeDockercfg ∧
      revertSecretType K K.SecretTypeDockercfg = .ok kubeSecretTypeDockercfg) ∧
    (convertSecretType K kubeSecretTypeDockerConfigJson = .ok K.SecretTypeDockerConfigJson ∧
      revertSecretType K K.SecretTypeDockerConfigJson = .ok kubeSecretTypeDockerConfigJson) ∧
    (convertSecretType K kubeSecretTypeBasicAuth = .ok K.SecretTypeBasicAuth ∧
      revertSecretType K K.SecretTypeBasicAuth = .ok kubeSecretTypeBasicAuth) ∧
    (convertSecretType K kubeSecretTypeSSHAuth = .ok K.SecretTypeSSHAuth ∧
      revertSecretType K K.SecretTypeSSHAuth = .ok kubeSecretTypeSSHAuth) ∧
    (convertSecretType K kubeSecretTypeTLS = .ok K.SecretTypeTLS ∧
      revertSecretType K K.SecretTypeTLS = .ok kubeSecretTypeTLS) ∧
    (∀ x y, convertSecretType K x = .ok y → revertSecretType K y = .ok x) ∧
    (∀ y x, revertSecretType K y = .ok x → convertSecretType K x = .ok y) ∧
    convertSecretType K "" = .ok "" ∧ revertSecretType K "" = .ok "" := by
  obtain ⟨r1, r2, r3, r4, r5, r6, r7⟩ := revertSecretType_table K hK
  obtain ⟨c1, c2, c3, c4, c5, c6, c7⟩ := convertSecretType_table K
  refine ⟨⟨c1, r1⟩, ⟨c2, r2⟩, ⟨c3, r3⟩, ⟨c4, r4⟩, ⟨c5, r5⟩, ⟨c6, r6⟩, ⟨c7, r7⟩, ?_, ?_,
    rfl, rfl⟩
  · intro x y h
    rcases convertSecretType_ok_cases K x y h with
      ⟨hx, hy⟩ | ⟨hx, hy⟩ | ⟨hx, hy⟩ | ⟨hx, hy⟩ | ⟨hx, hy⟩ | ⟨hx, hy⟩ | ⟨hx, hy⟩ | ⟨hx, hy⟩ <;>
      subst hx <;> subst hy
    · rfl
    · exact r1
    · exact r2
    · exact r3
    · exact r4
    · exact r5
    · exact r6
    · exact r7
  · intro y x h
    rcases revertSecretType_ok_cases K y x h with
      ⟨hx, hy⟩ | ⟨hx, hy⟩ | ⟨hx, hy⟩ | ⟨hx, hy⟩ | ⟨hx, hy⟩ | ⟨hx, hy⟩ | ⟨hx, hy⟩ | ⟨hx, hy⟩ <;>
      subst hx <;> subst hy
    · rfl
    · exact c1
    · exact c2
    · exact c3
    · exact c4
    · exact c5
    · exact c6
    · exact c7

/-- C16 at the sample constants: `Opaque` converts to `opaque` and back. -/
theorem secretType_inverse_witness :
    convertSecretType sampleSecretTypes "Opaque" = .ok "opaque" ∧
      revertSecretType sampleSecretTypes "opaque" = .ok "Opaque" :=
  (secretType_inverse sampleSecretTypes
    (by simp [SecretTypes.Valid, SecretTypes.values, sampleSecretTypes])).1

/-- C17: `convertSecretType` and `revertSecretType` each fail exactly on the
inputs that are non-empty and not among their seven table values; the error is
then the invalid-value error carrying the raw input; on the empty input each
returns the empty type without error. -/
theorem secretType_failure (K : SecretTypes) (x : String) :
    ((∃ e, convertSecretType K x = .error e) ↔ (x ≠ "" ∧ x ∉ kubeSecretTypeValues)) ∧
    (∀ e, convertSecretType K x = .error e →
      e = .invalidValue (.str x) "unrecognized Secret type") ∧
    ((∃ e, revertSecretType K x = .error e) ↔ (x ≠ "" ∧ x ∉ K.values)) ∧
    (∀ e, revertSecretType K x = .error e →
      e = .invalidValue (.str x) "unrecognized Secret type") ∧
    convertSecretType K "" = .ok "" ∧ revertSecretType K "" = .ok "" :=
  ⟨convertSecretType_error_iff K x, convertSecretType_error_shape K x,
    revertSecretType_error_iff K x, revertSecretType_error_shape K x, rfl, rfl⟩

/-- C17 at the input `bogus`, which is in neither table: both functions fail
with the invalid-value error carrying `bogus`. -/
theorem secretType_failure_witness :
    (∃ e, convertSecretType sampleSecretTypes "bogus" = .error e) ∧
      (∀ e, convertSecretType sampleSecretTypes "bogus" = .error e →
        e = .invalidValue (.str "bogus") "unrecognized Secret type") ∧
      (∃ e, revertSecretType sampleSecretTypes "bogus" = .error e) :=
  ⟨(secretType_failure sampleSecretTypes "bogus").1.2 ⟨by decide, by decide⟩,
   (secretType_failure sampleSecretTypes "bogus").2.1,
   (secretType_failure sampleSecretTypes "bogus").2.2.1.2 ⟨by decide, by decide⟩⟩

/-- C18, the code at a failing input: on a kube status whose phase is the empty
string `fromKubeNamespaceStatusV1` returns the invalid-value error (carrying
the empty phase), so a v1 Namespace declaring `"v1"` with an unset phase is
refused, by value and by pointer; `convertSecretType` on the empty secret type
returns the empty type without error. -/
theorem fromKubeNamespaceStatusV1_empty_phase (K : SecretTypes) :
    fromKubeNamespaceStatusV1 { Phase := "" } =
        .error (.invalidValue (.str "") "invalid phase") ∧
      NewNamespaceFromKubeNamespace (.coreV1Namespace { APIVersion := "v1" }) =
        .error (.invalidValue (.str "") "invalid phase") ∧
      NewNamespaceFromKubeNamespace (.coreV1NamespacePtr { APIVersion := "v1" }) =
        .error (.invalidValue (.str "") "invalid phase") ∧
      convertSecretType K "" = .ok "" :=
  ⟨rfl, rfl, rfl, rfl⟩

/-- C19: `fromKubeNamespaceStatusV1` and `toKubeNamespaceStatusV1` map Active to
`NamespaceActive` and Terminating to `NamespaceTerminating` and back, without
error; converting one way and then the other returns the original phase; the
two shorthand phases are different, as are the two kube phases; and
`toKubeNamespaceStatusV1` fails with the invalid-value error carrying the phase
for every other shorthand phase. -/
theorem namespacePhase_bijection :
    fromKubeNamespaceStatusV1 { Phase := kubeNamespaceActive } = .ok NamespaceActive ∧
    fromKubeNamespaceStatusV1 { Phase := kubeNamespaceTerminating } =
      .ok NamespaceTerminating ∧
    (∀ ns : Namespace, ns.Phase = NamespaceActive →
      ns.toKubeNamespaceStatusV1 = .ok { Phase := kubeNamespaceActive }) ∧
    (∀ ns : Namespace, ns.Phase = NamespaceTerminating →
      ns.toKubeNamespaceStatusV1 = .ok { Phase := kubeNamespaceTerminating }) ∧
    (∀ (st : NamespaceStatus) (ns : Namespace),
      fromKubeNamespaceStatusV1 st = .ok ns.Phase → ns.toKubeNamespaceStatusV1 = .ok st) ∧
    (∀ (ns : Namespace) (st : NamespaceStatus),
      ns.toKubeNamespaceStatusV1 = .ok st → fromKubeNamespaceStatusV1 st = .ok ns.Phase) ∧
    NamespaceActive ≠ NamespaceTerminating ∧
    kubeNamespaceActive ≠ kubeNamespaceTerminating ∧
    (∀ ns : Namespace, ns.Phase ≠ NamespaceActive → ns.Phase ≠ NamespaceTerminating →
      ns.toKubeNamespaceStatusV1 =
        .error (.invalidValue (.int ns.Phase) "Invalid namespace phase")) := by
  refine ⟨rfl, rfl, ?_, ?_, ?_, ?_, by decide, by decide, ?_⟩
  · intro ns h
    simp [Namespace.toKubeNamespaceStatusV1, h]
  · intro ns h
    simp [Namespace.toKubeNamespaceStatusV1, h, NamespaceActive, NamespaceTerminating]
  · intro st ns h
    cases st with
    | mk phase =>
      simp only [fromKubeNamespaceStatusV1] at h
      by_cases h1 : phase = kubeNamespaceActive
      · rw [if_pos h1] at h
        injection h with h
        simp [Namespace.toKubeNamespaceStatusV1, ← h, h1]
      · rw [if_neg h1] at h
        by_cases h2 : phase = kubeNamespaceTerminating
        · rw [if_pos h2] at h
          injection h with h
          simp [Namespace.toKubeNamespaceStatusV1, ← h, h2, NamespaceActive,
            NamespaceTerminating]
        · rw [if_neg h2] at h
          injection h
  · intro ns st h
    simp only [Namespace.toKubeNamespaceStatusV1] at h
    by_cases h1 : ns.Phase = NamespaceActive
    · rw [if_pos h1] at h
      injection h with h
      rw [← h, h1]
      rfl
    · rw [if_neg h1] at h
      by_cases h2 : ns.Phase = NamespaceTerminating
      · rw [if_pos h2] at h
        injection h with h
        rw [← h, h2]
        rfl
      · rw [if_neg h2] at h
        injection h
  · intro ns h1 h2
    simp [Namespace.toKubeNamespaceStatusV1, h1, h2]

/-- C19 at the shorthand phase 2, which is neither Active nor Terminating. -/
theorem namespacePhase_bijection_witness :
    Namespace.toKubeNamespaceStatusV1 { Phase := 2 } =
      .error (.invalidValue (.int 2) "Invalid namespace phase") :=
  namespacePhase_bijection.2.2.2.2.2.2.2.2 { Phase := 2 } (by decide) (by decide)

/-- C20: `fromKubeNamespaceSpecV1` succeeds exactly when every finalizer of the
kube spec is the kubernetes finalizer, `toKubeNamespaceSpecV1` exactly when
every shorthand finalizer is `FinalizerKubernetes`; on success the result has
the length of the input and its i-th element is the counterpart of the i-th
input element; an empty input gives an empty result without error. -/
theorem namespaceSpec_finalizers (spec : NamespaceSpec) (ns : Namespace) :
    ((∃ r, fromKubeNamespaceSpecV1 spec = .ok r) ↔
      ∀ f ∈ spec.Finalizers, f = kubeFinalizerKubernetes) ∧
    (∀ r, fromKubeNamespaceSpecV1 spec = .ok r →
      r.length = spec.Finalizers.length ∧
        List.Forall₂ (fun k f => k = kubeFinalizerKubernetes ∧ f = FinalizerKubernetes)
          spec.Finalizers r) ∧
    ((∃ k, ns.toKubeNamespaceSpecV1 = .ok k) ↔
      ∀ f ∈ ns.Finalizers, f = FinalizerKubernetes) ∧
    (∀ k, ns.toKubeNamespaceSpecV1 = .ok k →
      k.Finalizers.length = ns.Finalizers.length ∧
        List.Forall₂ (fun f k => f = FinalizerKubernetes ∧ k = kubeFinalizerKubernetes)
          ns.Finalizers k.Finalizers) ∧
    (spec.Finalizers = [] → fromKubeNamespaceSpecV1 spec = .ok []) ∧
    (ns.Finalizers = [] → ns.toKubeNamespaceSpecV1 = .ok { Finalizers := [] }) := by
  refine ⟨⟨?_, ?_⟩, ?_, ⟨?_, ?_⟩, ?_, ?_, ?_⟩
  · rintro ⟨r, hr⟩
    exact (fromKubeFinalizersV1_ok _ r hr).1
  · intro h
    exact ⟨_, fromKubeFinalizersV1_of_all _ h⟩
  · intro r hr
    obtain ⟨hall, hmap⟩ := fromKubeFinalizersV1_ok _ r hr
    subst hmap
    exact ⟨by simp, forall₂_map_const _ _ _ hall⟩
  · rintro ⟨k, hk⟩
    simp only [Namespace.toKubeNamespaceSpecV1] at hk
    cases hl : toKubeFinalizersV1 ns.Finalizers with
    | error e => rw [hl] at hk; injection hk
    | ok l => exact (toKubeFinalizersV1_ok _ l hl).1
  · intro h
    exact ⟨{ Finalizers := ns.Finalizers.map (fun _ => kubeFinalizerKubernetes) },
      by simp only [Namespace.toKubeNamespaceSpecV1, toKubeFinalizersV1_of_all _ h]⟩
  · intro k hk
    simp only [Namespace.toKubeNamespaceSpecV1] at hk
    cases hl : toKubeFinalizersV1 ns.Finalizers with
    | error e => rw [hl] at hk; injection hk
    | ok l =>
      rw [hl] at hk
      injection hk with hk
      subst hk
      obtain ⟨hall, hmap⟩ := toKubeFinalizersV1_ok _ l hl
      subst hmap
      exact ⟨by simp, forall₂_map_const _ _ _ hall⟩
  · intro h
    simp [fromKubeNamespaceSpecV1, h, fromKubeFinalizersV1]
  · intro h
    simp [Namespace.toKubeNamespaceSpecV1, h, toKubeFinalizersV1]

/-- C20 at a kube spec with the finalizers `kubernetes`, `foo`, which is
refused, and at a Namespace with two `FinalizerKubernetes`, which is
converted. -/
theorem namespaceSpec_finalizers_witness :
    (¬ ∃ r, fromKubeNamespaceSpecV1 { Finalizers := ["kubernetes", "foo"] } = .ok r) ∧
      ∃ k, Namespace.toKubeNamespaceSpecV1
        { Finalizers := [FinalizerKubernetes, FinalizerKubernetes] } = .ok k :=
  ⟨fun h => absurd
      ((namespaceSpec_finalizers { Finalizers := ["kubernetes", "foo"] } {}).1.1 h "foo"
        (by simp))
      (by decide),
   (namespaceSpec_finalizers {}
      { Finalizers := [FinalizerKubernetes, FinalizerKubernetes] }).2.2.1.2
      (by intro f hf; simp at hf; exact hf)⟩

/-! ## Deployment conditions -/

theorem revertDeploymentConditionType_table (K : ConditionTypes) (hK : K.Valid) :
    revertDeploymentConditionType K K.DeploymentAvailable = .ok kubeDeploymentAvailable ∧
    revertDeploymentConditionType K K.DeploymentProgressing = .ok kubeDeploymentProgressing ∧
    revertDeploymentConditionType K K.DeploymentReplicaFailure =
      .ok kubeDeploymentReplicaFailure := by
  obtain ⟨hnd, _⟩ := hK
  simp only [ConditionTypes.values, List.nodup_cons, List.mem_cons, List.mem_singleton,
    List.not_mem_nil, or_false, not_or, List.nodup_nil, and_true, not_false_eq_true] at hnd
  obtain ⟨⟨a1, a2⟩, b1⟩ := hnd
  refine ⟨?_, ?_, ?_⟩
  · simp only [revertDeploymentConditionType, if_true]
  · simp only [revertDeploymentConditionType, if_neg (Ne.symm a1), if_true]
  · simp only [revertDeploymentConditionType, if_neg (Ne.symm a2), if_neg (Ne.symm b1),
      if_true]

theorem fromDeploymentConditionType_ok_cases (K : ConditionTypes) (x y : String)
    (h : fromDeploymentConditionTypeV1Beta2 K x = .ok y) :
    (x = kubeDeploymentAvailable ∧ y = K.DeploymentAvailable) ∨
      (x = kubeDeploymentProgressing ∧ y = K.DeploymentProgressing) ∨
      (x = kubeDeploymentReplicaFailure ∧ y = K.DeploymentReplicaFailure) := by
  unfold fromDeploymentConditionTypeV1Beta2 at h
  by_cases h1 : x = kubeDeploymentAvailable
  · rw [if_pos h1] at h
    injection h with h
    exact Or.inl ⟨h1, h.symm⟩
  rw [if_neg h1] at h
  by_cases h2 : x = kubeDeploymentProgressing
  · rw [if_pos h2] at h
    injection h with h
    exact Or.inr (Or.inl ⟨h2, h.symm⟩)
  rw [if_neg h2] at h
  by_cases h3 : x = kubeDeploymentReplicaFailure
  · rw [if_pos h3] at h
    injection h with h
    exact Or.inr (Or.inr ⟨h3, h.symm⟩)
  rw [if_neg h3] at h
  injection h

theorem revertDeploymentConditionType_ok_cases (K : ConditionTypes) (x y : String)
    (h : revertDeploymentConditionType K x = .ok y) :
    (x = K.DeploymentAvailable ∧ y = kubeDeploymentAvailable) ∨
      (x = K.DeploymentProgressing ∧ y = kubeDeploymentProgressing) ∨
      (x = K.DeploymentReplicaFailure ∧ y = kubeDeploymentReplicaFailure) := by
  unfold revertDeploymentConditionType at h
  by_cases h1 : x = K.DeploymentAvailable
  · rw [if_pos h1] at h
    injection h with h
    exact Or.inl ⟨h1, h.symm⟩
  rw [if_neg h1] at h
  by_cases h2 : x = K.DeploymentProgressing
  · rw [if_pos h2] at h
    injection h with h
    exact Or.inr (Or.inl ⟨h2, h.symm⟩)
  rw [if_neg h2] at h
  by_cases h3 : x = K.DeploymentReplicaFailure
  · rw [if_pos h3] at h
    injection h with h
    exact Or.inr (Or.inr ⟨h3, h.symm⟩)
  rw [if_neg h3] at h
  injection h

theorem fromDeploymentConditionType_revert (K : ConditionTypes) (y x : String)
    (h : revertDeploymentConditionType K y = .ok x) :
    fromDeploymentConditionTypeV1Beta2 K x = .ok y := by
  rcases revertDeploymentConditionType_ok_cases K y x h with
    ⟨hy, hx⟩ | ⟨hy, hx⟩ | ⟨hy, hx⟩ <;> subst hy <;> subst hx <;> rfl

theorem fromDeploymentConditionType_error_of_not_mem (K : ConditionTypes) (x : String)
    (h : x ∉ kubeConditionTypeValues) :
    fromDeploymentConditionTypeV1Beta2 K x =
      .error (.invalidValue (.str x) "unrecognized deployment condition type") := by
  simp only [kubeConditionTypeValues, List.mem_cons, List.mem_singleton, List.not_mem_nil,
    or_false, not_or] at h
  obtain ⟨h1, h2, h3⟩ := h
  simp only [fromDeploymentConditionTypeV1Beta2, if_neg h1, if_neg h2, if_neg h3]

theorem revertDeploymentConditionType_error_of_not_mem (K : ConditionTypes) (x : String)
    (h : x ∉ K.values) :
    revertDeploymentConditionType K x =
      .error (.invalidValue (.str x) "unrecognized deployment condition type") := by
  simp only [ConditionTypes.values, List.mem_cons, List.mem_singleton, List.not_mem_nil,
    or_false, not_or] at h
  obtain ⟨h1, h2, h3⟩ := h
  simp only [revertDeploymentConditionType, if_neg h1, if_neg h2, if_neg h3]

theorem fromDeploymentConditionsFrom_ok (env : FromKubeEnv) (i : Nat) (l : List KubeDeploymentCondition) (r : List DeploymentCondition)
    (h : fromDeploymentConditionsFrom env i l = .ok r) : List.Forall₂ (ConvertsTo env) l r := by
  induction l generalizing i r with
  | nil =>
    simp only [fromDeploymentConditionsFrom, Except.ok.injEq] at h
    subst h
    exact List.Forall₂.nil
  | cons c rest ih =>
    simp only [fromDeploymentConditionsFrom] at h
    cases hs : env.convertConditionStatus c.Status with
    | error e => rw [hs] at h; injection h
    | ok status =>
      rw [hs] at h
      cases ht : fromDeploymentConditionTypeV1Beta2 env.conditionTypes c.Type_ with
      | error e => rw [ht] at h; injection h
      | ok conditionType =>
        rw [ht] at h
        cases hr : fromDeploymentConditionsFrom env (i + 1) rest with
        | error e => rw [hr] at h; injection h
        | ok tail =>
          rw [hr] at h
          injection h with h
          subst h
          exact List.Forall₂.cons ⟨hs, ht, rfl, rfl, rfl, rfl⟩ (ih (i + 1) tail hr)

theorem fromDeploymentConditionsFrom_error (env : FromKubeEnv) (i0 : Nat) (l : List KubeDeploymentCondition) (e : Error)
    (h : fromDeploymentConditionsFrom env i0 l = .error e) :
    ∃ i c leaf, l[i]? = some c ∧
      e = .context leaf ("deployment conditions[" ++ toString (i0 + i) ++ "]") ∧
      (env.convertConditionStatus c.Status = .error leaf ∨
        ((∃ s, env.convertConditionStatus c.Status = .ok s) ∧
          fromDeploymentConditionTypeV1Beta2 env.conditionTypes c.Type_ = .error leaf)) ∧
      ∀ j c', j < i → l[j]? = some c' →
        (∃ s, env.convertConditionStatus c'.Status = .ok s) ∧
          ∃ t, fromDeploymentConditionTypeV1Beta2 env.conditionTypes c'.Type_ = .ok t := by
  induction l generalizing i0 with
  | nil => simp [fromDeploymentConditionsFrom] at h
  | cons c rest ih =>
    simp only [fromDeploymentConditionsFrom] at h
    cases hs : env.convertConditionStatus c.Status with
    | error leaf =>
      rw [hs] at h
      injection h with h
      exact ⟨0, c, leaf, by simp, h.symm, Or.inl hs,
        fun j _ hj => absurd hj (Nat.not_lt_zero j)⟩
    | ok status =>
      rw [hs] at h
      cases ht : fromDeploymentConditionTypeV1Beta2 env.conditionTypes c.Type_ with
      | error leaf =>
        rw [ht] at h
        injection h with h
        exact ⟨0, c, leaf, by simp, h.symm, Or.inr ⟨⟨status, hs⟩, ht⟩,
          fun j _ hj => absurd hj (Nat.not_lt_zero j)⟩
      | ok conditionType =>
        rw [ht] at h
        cases hr : fromDeploymentConditionsFrom env (i0 + 1) rest with
        | ok tail => rw [hr] at h; injection h
        | error e' =>
          rw [hr] at h
          injection h with h
          subst h
          obtain ⟨i, c1, leaf, hget, he, hleaf, hmin⟩ := ih (i0 + 1) hr
          refine ⟨i + 1, c1, leaf, by simpa using hget, ?_, hleaf, ?_⟩
          · rw [he]
            have hidx : i0 + 1 + i = i0 + (i + 1) := by omega
            rw [hidx]
          · intro j c' hj hget'
            cases j with
            | zero =>
              simp only [List.getElem?_cons_zero, Option.some.injEq] at hget'
              subst hget'
              exact ⟨⟨status, hs⟩, ⟨conditionType, ht⟩⟩
            | succ j =>
              simp only [List.getElem?_cons_succ] at hget'
              exact hmin j c' (by omega) hget'

theorem revertDeploymentConditionsFrom_ok (env : ToKubeEnv) (i : Nat) (l : List DeploymentCondition) (r : List KubeDeploymentCondition)
    (h : revertDeploymentConditionsFrom env i l = .ok r) : List.Forall₂ (RevertsTo env) l r := by
  induction l generalizing i r with
  | nil =>
    simp only [revertDeploymentConditionsFrom, Except.ok.injEq] at h
    subst h
    exact List.Forall₂.nil
  | cons c rest ih =>
    simp only [revertDeploymentConditionsFrom] at h
    cases hs : env.revertConditionStatus c.Status with
    | error e => rw [hs] at h; injection h
    | ok status =>
      rw [hs] at h
      cases ht : revertDeploymentConditionType env.conditionTypes c.Type_ with
      | error e => rw [ht] at h; injection h
      | ok conditionType =>
        rw [ht] at h
        cases hr : revertDeploymentConditionsFrom env (i + 1) rest with
        | error e => rw [hr] at h; injection h
        | ok tail =>
          rw [hr] at h
          injection h with h
          subst h
          exact List.Forall₂.cons ⟨hs, ht, rfl, rfl, rfl, rfl⟩ (ih (i + 1) tail hr)

theorem revertDeploymentConditionsFrom_error (env : ToKubeEnv) (i0 : Nat) (l : List DeploymentCondition) (e : Error)
    (h : revertDeploymentConditionsFrom env i0 l = .error e) :
    ∃ i c leaf, l[i]? = some c ∧
      e = .context leaf ("deployment conditions[" ++ toString (i0 + i) ++ "]") ∧
      (env.revertConditionStatus c.Status = .error leaf ∨
        ((∃ s, env.revertConditionStatus c.Status = .ok s) ∧
          revertDeploymentConditionType env.conditionTypes c.Type_ = .error leaf)) ∧
      ∀ j c', j < i → l[j]? = some c' →
        (∃ s, env.revertConditionStatus c'.Status = .ok s) ∧
          ∃ t, revertDeploymentConditionType env.conditionTypes c'.Type_ = .ok t := by
  induction l generalizing i0 with
  | nil => simp [revertDeploymentConditionsFrom] at h
  | cons c rest ih =>
    simp only [revertDeploymentConditionsFrom] at h
    cases hs : env.revertConditionStatus c.Status with
    | error leaf =>
      rw [hs] at h
      injection h with h
      exact ⟨0, c, leaf, by simp, h.symm, Or.inl hs,
        fun j _ hj => absurd hj (Nat.not_lt_zero j)⟩
    | ok status =>
      rw [hs] at h
      cases ht : revertDeploymentConditionType env.conditionTypes c.Type_ with
      | error leaf =>
        rw [ht] at h
        injection h with h
        exact ⟨0, c, leaf, by simp, h.symm, Or.inr ⟨⟨status, hs⟩, ht⟩,
          fun j _ hj => absurd hj (Nat.not_lt_zero j)⟩
      | ok conditionType =>
        rw [ht] at h
        cases hr : revertDeploymentConditionsFrom env (i0 + 1) rest with
        | ok tail => rw [hr] at h; injection h
        | error e' =>
          rw [hr] at h
          injection h with h
          subst h
          obtain ⟨i, c1, leaf, hget, he, hleaf, hmin⟩ := ih (i0 + 1) hr
          refine ⟨i + 1, c1, leaf, by simpa using hget, ?_, hleaf, ?_⟩
          · rw [he]
            have hidx : i0 + 1 + i = i0 + (i + 1) := by omega
            rw [hidx]
          · intro j c' hj hget'
            cases j with
            | zero =>
              simp only [List.getElem?_cons_zero, Option.some.injEq] at hget'
              subst hget'
              exact ⟨⟨status, hs⟩, ⟨conditionType, ht⟩⟩
            | succ j =>
              simp only [List.getElem?_cons_succ] at hget'
              exact hmin j c' (by omega) hget'

/-- C21: with the three shorthand condition-type constants distinct and
non-empty, Available, Progressing and ReplicaFailure each convert to their
like-named counterpart and back without error, the two functions undo each
other wherever one of them succeeds, and each fails on every value outside its
three (the empty one included) with the "unrecognized deployment condition
type" invalid-value error carrying the raw value. -/
theorem conditionType_inverse (K : ConditionTypes) (hK : K.Valid) (x : String) :
    (fromDeploymentConditionTypeV1Beta2 K kubeDeploymentAvailable = .ok K.DeploymentAvailable ∧
      revertDeploymentConditionType K K.DeploymentAvailable = .ok kubeDeploymentAvailable) ∧
    (fromDeploymentConditionTypeV1Beta2 K kubeDeploymentProgressing =
        .ok K.DeploymentProgressing ∧
      revertDeploymentConditionType K K.DeploymentProgressing =
        .ok kubeDeploymentProgressing) ∧
    (fromDeploymentConditionTypeV1Beta2 K kubeDeploymentReplicaFailure =
        .ok K.DeploymentReplicaFailure ∧
      revertDeploymentConditionType K K.DeploymentReplicaFailure =
        .ok kubeDeploymentReplicaFailure) ∧
    (∀ y, fromDeploymentConditionTypeV1Beta2 K x = .ok y →
      revertDeploymentConditionType K y = .ok x) ∧
    (∀ y, revertDeploymentConditionType K x = .ok y →
      fromDeploymentConditionTypeV1Beta2 K y = .ok x) ∧
    (x ∉ kubeConditionTypeValues →
      fromDeploymentConditionTypeV1Beta2 K x =
        .error (.invalidValue (.str x) "unrecognized deployment condition type")) ∧
    (x ∉ K.values →
      revertDeploymentConditionType K x =
        .error (.invalidValue (.str x) "unrecognized deployment condition type")) ∧
    fromDeploymentConditionTypeV1Beta2 K "" =
      .error (.invalidValue (.str "") "unrecognized deployment condition type") ∧
    revertDeploymentConditionType K "" =
      .error (.invalidValue (.str "") "unrecognized deployment condition type") := by
  obtain ⟨r1, r2, r3⟩ := revertDeploymentConditionType_table K hK
  refine ⟨⟨rfl, r1⟩, ⟨rfl, r2⟩, ⟨rfl, r3⟩, ?_, ?_, ?_, ?_, rfl, ?_⟩
  · intro y h
    rcases fromDeploymentConditionType_ok_cases K x y h with
      ⟨hx, hy⟩ | ⟨hx, hy⟩ | ⟨hx, hy⟩ <;> subst hx <;> subst hy
    · exact r1
    · exact r2
    · exact r3
  · intro y h
    exact fromDeploymentConditionType_revert K x y h
  · exact fromDeploymentConditionType_error_of_not_mem K x
  · exact revertDeploymentConditionType_error_of_not_mem K x
  · exact revertDeploymentConditionType_error_of_not_mem K "" hK.2

/-- C21 at the sample constants and the value `Foo`, which is in neither
table. -/
theorem conditionType_inverse_witness :
    revertDeploymentConditionType sampleConditionTypes "progressing" = .ok "Progressing" ∧
      fromDeploymentConditionTypeV1Beta2 sampleConditionTypes "Foo" =
        .error (.invalidValue (.str "Foo") "unrecognized deployment condition type") ∧
      revertDeploymentConditionType sampleConditionTypes "Foo" =
        .error (.invalidValue (.str "Foo") "unrecognized deployment condition type") :=
  have hK : sampleConditionTypes.Valid := by
    simp [ConditionTypes.Valid, ConditionTypes.values, sampleConditionTypes]
  ⟨(conditionType_inverse sampleConditionTypes hK "Foo").2.1.2,
   (conditionType_inverse sampleConditionTypes hK "Foo").2.2.2.2.2.1 (by decide),
   (conditionType_inverse sampleConditionTypes hK "Foo").2.2.2.2.2.2.1 (by decide)⟩

/-- C22: whenever `fromDeploymentConditionsV1Beta2` (respectively
`revertDeploymentConditions`) succeeds, the output has the length of the input
and its i-th element is the conversion of the i-th input element, type and
status converted and the two times, the reason and the message copied; an empty
input gives an empty output without error. -/
theorem conditions_elementwise (envF : FromKubeEnv) (envT : ToKubeEnv)
    (ks : List KubeDeploymentCondition) (cs : List DeploymentCondition) :
    (∀ r, fromDeploymentConditionsV1Beta2 envF ks = .ok r →
      r.length = ks.length ∧ List.Forall₂ (ConvertsTo envF) ks r) ∧
    (∀ r, revertDeploymentConditions envT cs = .ok r →
      r.length = cs.length ∧ List.Forall₂ (RevertsTo envT) cs r) ∧
    fromDeploymentConditionsV1Beta2 envF [] = .ok [] ∧
    revertDeploymentConditions envT [] = .ok [] := by
  refine ⟨?_, ?_, rfl, rfl⟩
  · intro r h
    have hf : List.Forall₂ (ConvertsTo envF) ks r := by
      unfold fromDeploymentConditionsV1Beta2 at h
      by_cases h0 : ks.length = 0
      · rw [if_pos h0] at h
        injection h with h
        subst h
        rw [List.length_eq_zero.1 h0]
        exact List.Forall₂.nil
      · rw [if_neg h0] at h
        exact fromDeploymentConditionsFrom_ok envF 0 ks r h
    exact ⟨hf.length_eq.symm, hf⟩
  · intro r h
    have hf : List.Forall₂ (RevertsTo envT) cs r := by
      unfold revertDeploymentConditions at h
      by_cases h0 : cs.length = 0
      · rw [if_pos h0] at h
        injection h with h
        subst h
        rw [List.length_eq_zero.1 h0]
        exact List.Forall₂.nil
      · rw [if_neg h0] at h
        exact revertDeploymentConditionsFrom_ok envT 0 cs r h
    exact ⟨hf.length_eq.symm, hf⟩

/-- C22 at two kube conditions, Progressing then Available: the output keeps
the order. -/
theorem conditions_elementwise_witness :
    ([{ Type_ := "progressing", Status := "True", Reason := "r1" },
      { Type_ := "available", Status := "False", Message := "m2" }] :
        List DeploymentCondition).length = 2 ∧
      List.Forall₂ (ConvertsTo (sampleEnv sampleUnparse))
        [{ Type_ := "Progressing", Status := "True", Reason := "r1" },
          { Type_ := "Available", Status := "False", Message := "m2" }]
        [{ Type_ := "progressing", Status := "True", Reason := "r1" },
          { Type_ := "available", Status := "False", Message := "m2" }] :=
  (conditions_elementwise (sampleEnv sampleUnparse) sampleToKubeEnv
    [{ Type_ := "Progressing", Status := "True", Reason := "r1" },
      { Type_ := "Available", Status := "False", Message := "m2" }] []).1 _ rfl

/-- C23: whenever `fromDeploymentConditionsV1Beta2` or
`revertDeploymentConditions` fails, the error is the leaf error of the status
or type conversion of the condition at some index `i`, wrapped as it is with
the context `deployment conditions[i]`, and every condition before `i` has a
recognised status and type; no conditions are returned. -/
theorem conditions_error_context (envF : FromKubeEnv) (envT : ToKubeEnv)
    (ks : List KubeDeploymentCondition) (cs : List DeploymentCondition) (e : Error) :
    (fromDeploymentConditionsV1Beta2 envF ks = .error e →
      ∃ (i : Nat) (c : KubeDeploymentCondition) (leaf : Error), ks[i]? = some c ∧
        e = .context leaf ("deployment conditions[" ++ toString i ++ "]") ∧
        (envF.convertConditionStatus c.Status = .error leaf ∨
          ((∃ s, envF.convertConditionStatus c.Status = .ok s) ∧
            fromDeploymentConditionTypeV1Beta2 envF.conditionTypes c.Type_ = .error leaf)) ∧
        ∀ (j : Nat) (c' : KubeDeploymentCondition), j < i → ks[j]? = some c' →
          (∃ s, envF.convertConditionStatus c'.Status = .ok s) ∧
            ∃ t, fromDeploymentConditionTypeV1Beta2 envF.conditionTypes c'.Type_ = .ok t) ∧
    (revertDeploymentConditions envT cs = .error e →
      ∃ (i : Nat) (c : DeploymentCondition) (leaf : Error), cs[i]? = some c ∧
        e = .context leaf ("deployment conditions[" ++ toString i ++ "]") ∧
        (envT.revertConditionStatus c.Status = .error leaf ∨
          ((∃ s, envT.revertConditionStatus c.Status = .ok s) ∧
            revertDeploymentConditionType envT.conditionTypes c.Type_ = .error leaf)) ∧
        ∀ (j : Nat) (c' : DeploymentCondition), j < i → cs[j]? = some c' →
          (∃ s, envT.revertConditionStatus c'.Status = .ok s) ∧
            ∃ t, revertDeploymentConditionType envT.conditionTypes c'.Type_ = .ok t) := by
  constructor
  · intro h
    unfold fromDeploymentConditionsV1Beta2 at h
    by_cases h0 : ks.length = 0
    · rw [if_pos h0] at h
      injection h
    · rw [if_neg h0] at h
      simpa using fromDeploymentConditionsFrom_error envF 0 ks e h
  · intro h
    unfold revertDeploymentConditions at h
    by_cases h0 : cs.length = 0
    · rw [if_pos h0] at h
      injection h
    · rw [if_neg h0] at h
      simpa using revertDeploymentConditionsFrom_error envT 0 cs e h

/-- C23 at three kube conditions of which the third has the unrecognised type
`Foo`: the error is the leaf error for `Foo` under `deployment conditions[2]`. -/
theorem conditions_error_context_witness :
    fromDeploymentConditionsV1Beta2 (sampleEnv sampleUnparse)
        [{ Type_ := "Available", Status := "True" }, { Type_ := "Progressing", Status := "True" },
          { Type_ := "Foo", Status := "True" }] =
      .error (.context (.invalidValue (.str "Foo") "unrecognized deployment condition type")
        "deployment conditions[2]") ∧
    ∃ (i : Nat) (c : KubeDeploymentCondition) (leaf : Error),
      ([{ Type_ := "Available", Status := "True" }, { Type_ := "Progressing", Status := "True" },
          { Type_ := "Foo", Status := "True" }] : List KubeDeploymentCondition)[i]? = some c ∧
        Error.context (.invalidValue (.str "Foo") "unrecognized deployment condition type")
            "deployment conditions[2]" =
          .context leaf ("deployment conditions[" ++ toString i ++ "]") :=
  have h : fromDeploymentConditionsV1Beta2 (sampleEnv sampleUnparse)
      [{ Type_ := "Available", Status := "True" }, { Type_ := "Progressing", Status := "True" },
        { Type_ := "Foo", Status := "True" }] =
      .error (.context (.invalidValue (.str "Foo") "unrecognized deployment condition type")
        "deployment conditions[2]") := rfl
  ⟨h, by
    obtain ⟨i, c, leaf, h1, h2, _⟩ :=
      (conditions_error_context (sampleEnv sampleUnparse) sampleToKubeEnv _ [] _).1 h
    exact ⟨i, c, leaf, h1, h2⟩⟩

/-! ## Deployments: the output path -/

/-- C24, the code at a failing input: for a wrapper with the label selector
`{a: 1}` and no template metadata the conversion succeeds, and after the call
the caller's wrapper has template metadata with the labels `{a: 1}`, where it
had none before. -/
theorem Convert_mutates_TemplateMetadata :
    (∃ k, (Convert_Koki_Deployment_to_Kube_apps_v1beta2_Deployment sampleToKubeEnv
        sampleDeployment).1 = .ok k) ∧
      sampleDeployment.Deployment.TemplateMetadata = none ∧
      (Convert_Koki_Deployment_to_Kube_apps_v1beta2_Deployment sampleToKubeEnv
        sampleDeployment).2.Deployment.TemplateMetadata = some { Labels := some labelsA1 } ∧
      (Convert_Koki_Deployment_to_Kube_apps_v1beta2_Deployment sampleToKubeEnv
        sampleDeployment).2 ≠ sampleDeployment :=
  ⟨⟨_, rfl⟩, rfl, rfl, fun h => by
    have h2 : (some { Labels := some labelsA1 } : Option PodTemplateMeta) = none :=
      congrArg (fun w => w.Deployment.TemplateMetadata) h
    cases h2⟩

/-- C25: when the selector reverts without error, a pod-template reversion that
returns no template and no error makes
`Convert_Koki_Deployment_to_Kube_apps_v1beta2_Deployment` return no object and
the "missing pod template" error, and a pod-template reversion that fails makes
it return that failure wrapped with the context "pod template". -/
theorem Convert_template_errors (env : ToKubeEnv) (d : DeploymentWrapper)
    (kubeSelector : Option LabelSelector) (labelsOverride : GoMap)
    (hsel : revertRSSelector env.parse d.Deployment.Name d.Deployment.Selector
      (templateLabelsOf d.Deployment.TemplateMetadata) = .ok (kubeSelector, labelsOverride)) :
    (env.revertTemplate (applyTemplateLabelsOverride labelsOverride d.Deployment.TemplateMetadata)
        d.Deployment.PodTemplate = .ok none →
      (Convert_Koki_Deployment_to_Kube_apps_v1beta2_Deployment env d).1 =
        .error (.invalidInstance "missing pod template")) ∧
    (∀ e, env.revertTemplate
        (applyTemplateLabelsOverride labelsOverride d.Deployment.TemplateMetadata)
        d.Deployment.PodTemplate = .error e →
      (Convert_Koki_Deployment_to_Kube_apps_v1beta2_Deployment env d).1 =
        .error (.context e "pod template")) := by
  constructor
  · intro h
    simp only [Convert_Koki_Deployment_to_Kube_apps_v1beta2_Deployment,
      revertSelectorAndTemplate, hsel, h]
  · intro e h
    simp only [Convert_Koki_Deployment_to_Kube_apps_v1beta2_Deployment,
      revertSelectorAndTemplate, hsel, h]

/-- C25 at the sample Deployment with a template converter that returns no
template, and with one that fails. -/
theorem Convert_template_errors_witness :
    (Convert_Koki_Deployment_to_Kube_apps_v1beta2_Deployment
        { sampleToKubeEnv with revertTemplate := fun _ _ => .ok none } sampleDeployment).1 =
      .error (.invalidInstance "missing pod template") ∧
    (Convert_Koki_Deployment_to_Kube_apps_v1beta2_Deployment
        { sampleToKubeEnv with revertTemplate := fun _ _ => .error (.external "bad pod") }
        sampleDeployment).1 = .error (.context (.external "bad pod") "pod template") :=
  ⟨(Convert_template_errors { sampleToKubeEnv with revertTemplate := fun _ _ => .ok none }
      sampleDeployment (some { MatchLabels := some labelsA1, MatchExpressions := [] })
      (some labelsA1) rfl).1 rfl,
   (Convert_template_errors
      { sampleToKubeEnv with revertTemplate := fun _ _ => .error (.external "bad pod") }
      sampleDeployment (some { MatchLabels := some labelsA1, MatchExpressions := [] })
      (some labelsA1) rfl).2 _ rfl⟩

/-- C29: for every shorthand Deployment in the discriminated strategy form
(`Recreate` false, or both `MaxUnavailable` and `MaxSurge` absent),
`fromDeploymentStrategyV1Beta2` applied to the result of
`revertDeploymentStrategy` gives back `Recreate`, `MaxUnavailable` and
`MaxSurge`; and when `Recreate` is true the reverted strategy is of type
Recreate with no rolling-update configuration. -/
theorem strategy_round_trip (d : Deployment) :
    ((d.Recreate = false ∨ (d.MaxUnavailable = none ∧ d.MaxSurge = none)) →
      fromDeploymentStrategyV1Beta2 (revertDeploymentStrategy d) =
        (d.Recreate, d.MaxUnavailable, d.MaxSurge)) ∧
    (d.Recreate = true →
      revertDeploymentStrategy d =
        { Type_ := RecreateDeploymentStrategyType, RollingUpdate := none }) := by
  constructor
  · intro h
    cases hr : d.Recreate with
    | true =>
      cases h with
      | inl h => rw [hr] at h; cases h
      | inr h =>
        simp [revertDeploymentStrategy, fromDeploymentStrategyV1Beta2, hr, h.1, h.2]
    | false =>
      cases hu : d.MaxUnavailable <;> cases hs : d.MaxSurge <;>
        simp [revertDeploymentStrategy, fromDeploymentStrategyV1Beta2, hr, hu, hs,
          RecreateDeploymentStrategyType, RollingUpdateDeploymentStrategyType]
  · intro h
    simp [revertDeploymentStrategy, h]

/-- C29 at a rolling update with `MaxSurge` 25% and no `MaxUnavailable`. -/
theorem strategy_round_trip_witness :
    fromDeploymentStrategyV1Beta2
        (revertDeploymentStrategy { Recreate := false, MaxSurge := some (.str "25%") }) =
      (false, none, some (.str "25%")) :=
  (strategy_round_trip { Recreate := false, MaxSurge := some (.str "25%") }).1 (Or.inl rfl)

/-- C30: `To_Kube` succeeds with `v` exactly when the canonical conversion, the
serialization and the deserialization succeed and the deserialized object `v`
is a pointer to an `apps/v1beta1`, `apps/v1beta2` or `extensions/v1beta1`
Deployment; an error of the canonical conversion or of the deserialization is
returned unchanged; a deserialized object of any other type gives the type
error and no object. -/
theorem To_Kube_outcomes (env : ToKubeEnv) (d : DeploymentWrapper) :
    (∀ v, To_Kube env d = .ok v ↔
      ∃ k b, (Convert_Koki_Deployment_to_Kube_apps_v1beta2_Deployment env d).1 = .ok k ∧
        env.marshal k = .ok b ∧ env.parseKube b = .ok v ∧
        ∃ x, v = .appsV1Beta1DeploymentPtr x ∨ v = .appsV1Beta2DeploymentPtr x ∨
          v = .extsV1Beta1DeploymentPtr x) ∧
    (∀ e, (Convert_Koki_Deployment_to_Kube_apps_v1beta2_Deployment env d).1 = .error e →
      To_Kube env d = .error e) ∧
    (∀ k b e, (Convert_Koki_Deployment_to_Kube_apps_v1beta2_Deployment env d).1 = .ok k →
      env.marshal k = .ok b → env.parseKube b = .error e → To_Kube env d = .error e) ∧
    (∀ k b v, (Convert_Koki_Deployment_to_Kube_apps_v1beta2_Deployment env d).1 = .ok k →
      env.marshal k = .ok b → env.parseKube b = .ok v →
      (∀ x, v ≠ .appsV1Beta1DeploymentPtr x ∧ v ≠ .appsV1Beta2DeploymentPtr x ∧
        v ≠ .extsV1Beta1DeploymentPtr x) →
      To_Kube env d =
        .error (.typeError "deserialized the manifest, but not as a supported kube Deployment")) := by
  refine ⟨?_, ?_, ?_, ?_⟩
  · intro v
    constructor
    · intro h
      unfold To_Kube at h
      cases hc : (Convert_Koki_Deployment_to_Kube_apps_v1beta2_Deployment env d).1 with
      | error e => rw [hc] at h; injection h
      | ok k =>
        rw [hc] at h
        cases hm : env.marshal k with
        | error e => simp only [hm] at h; injection h
        | ok b =>
          simp only [hm] at h
          cases hp : env.parseKube b with
          | error e => simp only [hp] at h; injection h
          | ok w =>
            simp only [hp] at h
            cases w with
            | appsV1Beta1DeploymentPtr x =>
              injection h with h
              subst h
              exact ⟨k, b, rfl, hm, hp, x, Or.inl rfl⟩
            | appsV1Beta2DeploymentPtr x =>
              injection h with h
              subst h
              exact ⟨k, b, rfl, hm, hp, x, Or.inr (Or.inl rfl)⟩
            | extsV1Beta1DeploymentPtr x =>
              injection h with h
              subst h
              exact ⟨k, b, rfl, hm, hp, x, Or.inr (Or.inr rfl)⟩
            | _ => injection h
    · rintro ⟨k, b, hc, hm, hp, x, hx⟩
      unfold To_Kube
      rw [hc]
      simp only [hm, hp]
      rcases hx with hx | hx | hx <;> subst hx <;> rfl
  · intro e hc
    unfold To_Kube
    rw [hc]
  · intro k b e hc hm hp
    unfold To_Kube
    rw [hc]
    simp only [hm, hp]
  · intro k b v hc hm hp hv
    unfold To_Kube
    rw [hc]
    simp only [hm, hp]
    cases v with
    | appsV1Beta1DeploymentPtr x => exact absurd rfl (hv x).1
    | appsV1Beta2DeploymentPtr x => exact absurd rfl (hv x).2.1
    | extsV1Beta1DeploymentPtr x => exact absurd rfl (hv x).2.2
    | _ => rfl

/-- C30 at the sample Deployment: with a deserializer that returns an
`apps/v1beta2` Deployment `To_Kube` returns that object, and with one that
returns a `*v1.Deployment` it returns the type error. -/
theorem To_Kube_outcomes_witness :
    To_Kube sampleToKubeEnv sampleDeployment = .ok (.appsV1Beta2DeploymentPtr {}) ∧
      To_Kube { sampleToKubeEnv with parseKube := fun _ => .ok (.appsV1DeploymentPtr {}) }
          sampleDeployment =
        .error (.typeError "deserialized the manifest, but not as a supported kube Deployment") :=
  ⟨((To_Kube_outcomes sampleToKubeEnv sampleDeployment).1 _).2
      ⟨_, [], rfl, rfl, rfl, {}, Or.inr (Or.inl rfl)⟩,
   (To_Kube_outcomes { sampleToKubeEnv with parseKube := fun _ => .ok (.appsV1DeploymentPtr {}) }
      sampleDeployment).2.2.2 _ [] _ rfl rfl rfl (fun _ => by simp)⟩

/-! ## Round trips -/

theorem map_const_map_const (l : List FinalizerName)
    (h : ∀ f ∈ l, f = FinalizerKubernetes) :
    (l.map (fun _ => kubeFinalizerKubernetes)).map (fun _ => FinalizerKubernetes) = l := by
  induction l with
  | nil => rfl
  | cons a l ih =>
    simp only [List.map_cons]
    rw [ih (fun f hf => h f (List.mem_cons_of_mem _ hf)), h a (List.mem_cons_self _ _)]

theorem Namespace_toKubeV1_ok (ns : Namespace) (k : KubeNamespace)
    (h : ns.toKubeV1 = .ok k) :
    (ns.Phase = NamespaceActive ∨ ns.Phase = NamespaceTerminating) ∧
      (∀ f ∈ ns.Finalizers, f = FinalizerKubernetes) ∧
      k = { Name := ns.Name
            Namespace := ns.Namespace
            APIVersion := if ns.Version.length = 0 then "v1" else ns.Version
            Kind := "Namespace"
            ClusterName := ns.Cluster
            Labels := ns.Labels
            Annotations := ns.Annotations
            Spec := { Finalizers := ns.Finalizers.map (fun _ => kubeFinalizerKubernetes) }
            Status :=
              { Phase := if ns.Phase = NamespaceActive then kubeNamespaceActive
                         else kubeNamespaceTerminating } } := by
  simp only [Namespace.toKubeV1, Namespace.toKubeNamespaceSpecV1] at h
  cases hf : toKubeFinalizersV1 ns.Finalizers with
  | error e => rw [hf] at h; injection h
  | ok fs =>
    rw [hf] at h
    obtain ⟨hall, hmap⟩ := toKubeFinalizersV1_ok _ fs hf
    subst hmap
    simp only [Namespace.toKubeNamespaceStatusV1] at h
    by_cases h1 : ns.Phase = NamespaceActive
    · rw [if_pos h1] at h
      injection h with h
      exact ⟨Or.inl h1, hall, by rw [← h, if_pos h1]⟩
    · rw [if_neg h1] at h
      by_cases h2 : ns.Phase = NamespaceTerminating
      · rw [if_pos h2] at h
        injection h with h
        exact ⟨Or.inr h2, hall, by rw [← h, if_neg h1]⟩
      · rw [if_neg h2] at h
        injection h

theorem convertSecretType_revert (K : SecretTypes) (y x : String)
    (h : revertSecretType K y = .ok x) : convertSecretType K x = .ok y := by
  rcases revertSecretType_ok_cases K y x h with
    ⟨hy, hx⟩ | ⟨hy, hx⟩ | ⟨hy, hx⟩ | ⟨hy, hx⟩ | ⟨hy, hx⟩ | ⟨hy, hx⟩ | ⟨hy, hx⟩ | ⟨hy, hx⟩ <;>
    subst hy <;> subst hx <;> rfl

/-- C27: for every Namespace whose `Version` is exactly `"v1"` or empty and on
which `ToKube` succeeds, `NewNamespaceFromKubeNamespace` applied to the
`*v1.Namespace` that `ToKube` returned succeeds with a Namespace whose
`Version` is `"v1"` and whose other fields (`Name`, `Namespace`, `Cluster`,
`Labels`, `Annotations`, `Finalizers`, `Phase`) are those of the input. -/
theorem namespace_round_trip (ns : Namespace) (k : KubeNamespace)
    (hv : ns.Version = "v1" ∨ ns.Version = "") (h : ns.ToKube = .ok k) :
    NewNamespaceFromKubeNamespace (.coreV1NamespacePtr k) =
      .ok { Version := "v1"
            Cluster := ns.Cluster
            Name := ns.Name
            Namespace := ns.Namespace
            Labels := ns.Labels
            Annotations := ns.Annotations
            Finalizers := ns.Finalizers
            Phase := ns.Phase } := by
  have hk : ns.toKubeV1 = .ok k := by
    unfold Namespace.ToKube at h
    cases hv with
    | inl hv =>
      have hl : toLower ns.Version = "v1" := by rw [hv]; decide
      rw [if_pos hl] at h
      exact h
    | inr hv =>
      have hl1 : toLower ns.Version ≠ "v1" := by rw [hv]; decide
      have hl2 : toLower ns.Version = "" := by rw [hv]; decide
      rw [if_neg hl1, if_pos hl2] at h
      exact h
  obtain ⟨hphase, hall, hkeq⟩ := Namespace_toKubeV1_ok ns k hk
  have hapi : (if ns.Version.length = 0 then "v1" else ns.Version) = "v1" := by
    cases hv with
    | inl hv => rw [hv]; rfl
    | inr hv => rw [hv]; rfl
  rw [hapi] at hkeq
  subst hkeq
  have hfin := fromKubeFinalizersV1_of_all
    (ns.Finalizers.map (fun _ => kubeFinalizerKubernetes)) (by
      intro f hf
      simp only [List.mem_map] at hf
      obtain ⟨_, _, hf⟩ := hf
      exact hf.symm)
  rw [map_const_map_const ns.Finalizers hall] at hfin
  cases hphase with
  | inl hp =>
    simp [-List.map_const', NewNamespaceFromKubeNamespace, fromKubeNamespaceV1,
      fromKubeNamespaceSpecV1, hfin, fromKubeNamespaceStatusV1, hp]
  | inr hp =>
    simp [-List.map_const', NewNamespaceFromKubeNamespace, fromKubeNamespaceV1,
      fromKubeNamespaceSpecV1, hfin, fromKubeNamespaceStatusV1, hp, NamespaceActive,
      NamespaceTerminating, kubeNamespaceActive, kubeNamespaceTerminating]

/-- C27 at the Namespace of `TestToKubeV1`. -/
theorem namespace_round_trip_witness :
    NewNamespaceFromKubeNamespace (.coreV1NamespacePtr
        { Name := "testNS"
          Namespace := "testNS"
          ClusterName := "testCluster"
          Labels := some labelsA1B2
          Annotations := some labelsA1
          Kind := "Namespace"
          APIVersion := "v1"
          Spec := { Finalizers := ["kubernetes"] }
          Status := { Phase := "Terminating" } }) = .ok sampleNamespace :=
  namespace_round_trip sampleNamespace _ (Or.inl rfl) rfl

/-- C28: for every Secret on which `ToKube` succeeds,
`NewSecretFromKubeSecret` applied to the `*v1.Secret` that `ToKube` returned
succeeds and returns the Secret it started from, equal in every field. -/
theorem secret_round_trip (K : SecretTypes) (cmVersion : String) (s : Secret) (k : KubeSecret)
    (h : Secret.ToKube K cmVersion s = .ok k) :
    NewSecretFromKubeSecret K (.coreV1SecretPtr k) = .ok s := by
  have hk : Secret.toKubeV1 K s = .ok k := by
    unfold Secret.ToKube at h
    by_cases h1 : toLower s.Version = "v1"
    · rw [if_pos h1] at h
      exact h
    · rw [if_neg h1] at h
      by_cases h2 : toLower s.Version = ""
      · rw [if_pos h2] at h
        exact h
      · rw [if_neg h2] at h
        injection h
  simp only [Secret.toKubeV1] at hk
  cases hr : revertSecretType K s.SecretType with
  | error e => rw [hr] at hk; injection hk
  | ok t =>
    rw [hr] at hk
    injection hk with hk
    subst hk
    simp only [NewSecretFromKubeSecret, fromKubeSecretV1, convertSecretType_revert K _ _ hr]

/-- C28 at a Secret of type `opaque` with version `"V1"`. -/
theorem secret_round_trip_witness :
    NewSecretFromKubeSecret sampleSecretTypes (.coreV1SecretPtr
        { Name := "testS"
          APIVersion := "V1"
          Kind := "Secret"
          StringData := some labelsA1B2
          Type_ := "Opaque" }) =
      .ok { Name := "testS", Version := "V1", StringData := some labelsA1B2,
            SecretType := "opaque" } :=
  secret_round_trip sampleSecretTypes ""
    { Name := "testS", Version := "V1", StringData := some labelsA1B2, SecretType := "opaque" }
    _ rfl

/-! ## Canonicalization and back -/

theorem fromConditionsFrom_of_revert (envT : ToKubeEnv) (envF : FromKubeEnv)
    (hK : envF.conditionTypes = envT.conditionTypes)
    (hstatus : ∀ a b, envT.revertConditionStatus a = .ok b →
      envF.convertConditionStatus b = .ok a)
    (i j : Nat) (cs : List DeploymentCondition) (ks : List KubeDeploymentCondition)
    (h : revertDeploymentConditionsFrom envT i cs = .ok ks) :
    fromDeploymentConditionsFrom envF j ks = .ok cs := by
  induction cs generalizing i j ks with
  | nil =>
    simp only [revertDeploymentConditionsFrom, Except.ok.injEq] at h
    subst h
    rfl
  | cons c rest ih =>
    simp only [revertDeploymentConditionsFrom] at h
    cases hs : envT.revertConditionStatus c.Status with
    | error e => rw [hs] at h; injection h
    | ok status =>
      rw [hs] at h
      cases ht : revertDeploymentConditionType envT.conditionTypes c.Type_ with
      | error e => rw [ht] at h; injection h
      | ok conditionType =>
        rw [ht] at h
        cases hr : revertDeploymentConditionsFrom envT (i + 1) rest with
        | error e => rw [hr] at h; injection h
        | ok tail =>
          rw [hr] at h
          injection h with h
          subst h
          have h1 := hstatus _ _ hs
          have h2 := fromDeploymentConditionType_revert envT.conditionTypes _ _ ht
          rw [← hK] at h2
          simp only [fromDeploymentConditionsFrom, h1, h2, ih (i + 1) (j + 1) tail hr]

theorem fromConditions_of_revert (envT : ToKubeEnv) (envF : FromKubeEnv)
    (hK : envF.conditionTypes = envT.conditionTypes)
    (hstatus : ∀ a b, envT.revertConditionStatus a = .ok b →
      envF.convertConditionStatus b = .ok a)
    (cs : List DeploymentCondition) (ks : List KubeDeploymentCondition)
    (h : revertDeploymentConditions envT cs = .ok ks) :
    fromDeploymentConditionsV1Beta2 envF ks = .ok cs := by
  unfold revertDeploymentConditions at h
  by_cases h0 : cs.length = 0
  · rw [if_pos h0] at h
    injection h with h
    subst h
    rw [List.length_eq_zero.1 h0]
    rfl
  · rw [if_neg h0] at h
    have hlen : ks.length = cs.length :=
      (revertDeploymentConditionsFrom_ok envT 0 cs ks h).length_eq.symm
    unfold fromDeploymentConditionsV1Beta2
    rw [if_neg (by rw [hlen]; exact h0)]
    exact fromConditionsFrom_of_revert envT envF hK hstatus 0 0 cs ks h

theorem fromStatus_of_revert (envT : ToKubeEnv) (envF : FromKubeEnv)
    (hK : envF.conditionTypes = envT.conditionTypes)
    (hstatus : ∀ a b, envT.revertConditionStatus a = .ok b →
      envF.convertConditionStatus b = .ok a)
    (st : DeploymentStatus) (kst : KubeDeploymentStatus)
    (h : revertDeploymentStatus envT st = .ok kst) :
    fromDeploymentStatusV1Beta2 envF kst = .ok st := by
  simp only [revertDeploymentStatus] at h
  cases hc : revertDeploymentConditions envT st.Conditions with
  | error e => rw [hc] at h; injection h
  | ok ks =>
    rw [hc] at h
    injection h with h
    subst h
    simp only [fromDeploymentStatusV1Beta2,
      fromConditions_of_revert envT envF hK hstatus _ _ hc]

theorem selector_survives (envT : ToKubeEnv) (envF : FromKubeEnv) (name : String)
    (selector : Option RSSelector) (tmeta tm : Option PodTemplateMeta)
    (kubeSelector : Option LabelSelector) (templateLabels : GoMap)
    (hrev : revertSelectorAndTemplate envT.parse name selector tmeta = .ok (kubeSelector, tm))
    (hs : SelectorSurvives envT envF selector templateLabels) :
    ∃ s' ov, fromRSLabelSelector envF.unparse kubeSelector templateLabels = .ok (s', ov) ∧
      keptSelector s' = selector := by
  cases selector with
  | none =>
    simp only [revertSelectorAndTemplate, revertRSSelector, Except.ok.injEq,
      Prod.mk.injEq] at hrev
    obtain ⟨hks, _⟩ := hrev
    subst hks
    have hL : templateLabels = none := hs
    subst hL
    exact ⟨_, _, rfl, by simp [keptSelector]⟩
  | some s =>
    obtain ⟨shorthand, labels⟩ := s
    by_cases h0 : shorthand = ""
    · subst h0
      have hl : labels ≠ none := by simpa [SelectorSurvives] using hs
      simp only [revertSelectorAndTemplate, revertRSSelector, ne_eq, not_true_eq_false,
        if_false, Except.ok.injEq, Prod.mk.injEq] at hrev
      obtain ⟨hks, _⟩ := hrev
      subst hks
      cases hd : deepEqual labels templateLabels with
      | true =>
        refine ⟨some { Shorthand := "", Labels := labels }, none, ?_, ?_⟩
        · simp only [fromRSLabelSelector, List.length_nil, if_true, hd]
        · simp [keptSelector, hl]
      | false =>
        refine ⟨some { Shorthand := "", Labels := labels }, templateLabels, ?_, ?_⟩
        · simp only [fromRSLabelSelector, List.length_nil, if_true, hd, Bool.false_eq_true,
            if_false]
        · simp [keptSelector, hl]
    · have hs' : labels = none ∧ ∃ exprs, exprs ≠ [] ∧ envT.parse shorthand = .ok exprs ∧
          envF.unparse { MatchLabels := none, MatchExpressions := exprs } = .ok shorthand := by
        simpa [SelectorSurvives, h0] using hs
      obtain ⟨hl, exprs, hne, hparse, hun⟩ := hs'
      subst hl
      simp only [revertSelectorAndTemplate, revertRSSelector, ne_eq, h0, not_false_eq_true,
        if_true, hparse, Except.ok.injEq, Prod.mk.injEq] at hrev
      obtain ⟨hks, _⟩ := hrev
      subst hks
      have hlen : exprs.length ≠ 0 := fun h => hne (List.length_eq_zero.1 h)
      refine ⟨some { Shorthand := shorthand, Labels := none }, templateLabels, ?_, ?_⟩
      · simp only [fromRSLabelSelector, hlen, if_false, hun]
      · simp [keptSelector, h0]

theorem fromKubeDeploymentV1Beta2_ok (envF : FromKubeEnv) (k : KubeDeployment)
    (s' : Option RSSelector) (ov : GoMap) (m : Option PodTemplateMeta) (t : String)
    (st : DeploymentStatus)
    (hfrom : fromRSLabelSelector envF.unparse k.Spec.Selector k.Spec.Template.Labels =
      .ok (s', ov))
    (hct : envF.convertTemplate k.Spec.Template = .ok (m, t))
    (hst : fromDeploymentStatusV1Beta2 envF k.Status = .ok st) :
    fromKubeDeploymentV1Beta2 envF k =
      .ok { Deployment :=
            { Name := k.Name
              Namespace := k.Namespace
              Version := k.APIVersion
              Cluster := k.ClusterName
              Labels := k.Labels
              Annotations := k.Annotations
              Replicas := k.Spec.Replicas
              Selector := keptSelector s'
              TemplateMetadata := applyTemplateLabelsOverride ov m
              PodTemplate := t
              Recreate := (fromDeploymentStrategyV1Beta2 k.Spec.Strategy).1
              MaxUnavailable := (fromDeploymentStrategyV1Beta2 k.Spec.Strategy).2.1
              MaxSurge := (fromDeploymentStrategyV1Beta2 k.Spec.Strategy).2.2
              MinReadySeconds := k.Spec.MinReadySeconds
              RevisionHistoryLimit := k.Spec.RevisionHistoryLimit
              Paused := k.Spec.Paused
              ProgressDeadlineSeconds := k.Spec.ProgressDeadlineSeconds
              DeploymentStatus := st } } := by
  simp only [fromKubeDeploymentV1Beta2, hfrom, hct, hst, keptSelector]

/-- C26, as stated, fails: for the sample Deployment with an empty `Version`
the canonical conversion succeeds and declares `extensions/v1beta1`, and
`NewDeploymentFromKubeDeployment` refuses the canonical `*v1beta2.Deployment`
with the mis-matched-versions error. -/
theorem canonical_round_trip_fails_on_version :
    ∃ k, (Convert_Koki_Deployment_to_Kube_apps_v1beta2_Deployment sampleToKubeEnv
        sampleDeploymentNoVersion).1 = .ok k ∧
      NewDeploymentFromKubeDeployment (sampleEnv sampleUnparse) (.appsV1Beta2DeploymentPtr k) =
        .error (.errorf
          "mis-matched versions.  Deployment type: *v1beta2.Deployment, APIVersion: extensions/v1beta1") :=
  ⟨_, rfl, rfl⟩

/-- C26, amended: for every DeploymentWrapper whose `Version` is exactly
`"v1beta2"` and on which the canonical conversion succeeds, if the input-side
collaborators undo the output-side ones (same condition-type constants, the
condition-status table inverted, the pod template of the canonical object
converted without error) and the selector is one that survives (see
`SelectorSurvives`), then `NewDeploymentFromKubeDeployment` on the canonical
object succeeds with a manifest whose `Name`, `Namespace`, `Cluster`,
`Version`, `Labels`, `Annotations`, `Selector` and `DeploymentStatus` are those
of the input. -/
theorem canonical_round_trip (envT : ToKubeEnv) (envF : FromKubeEnv) (d : DeploymentWrapper)
    (k : KubeDeployment) (hver : d.Deployment.Version = "v1beta2")
    (hconv : (Convert_Koki_Deployment_to_Kube_apps_v1beta2_Deployment envT d).1 = .ok k)
    (hK : envF.conditionTypes = envT.conditionTypes)
    (hstatus : ∀ a b, envT.revertConditionStatus a = .ok b →
      envF.convertConditionStatus b = .ok a)
    (htemplate : ∃ m t, envF.convertTemplate k.Spec.Template = .ok (m, t))
    (hsel : SelectorSurvives envT envF d.Deployment.Selector k.Spec.Template.Labels) :
    ∃ d', NewDeploymentFromKubeDeployment envF (.appsV1Beta2DeploymentPtr k) = .ok d' ∧
      d'.Deployment.Name = d.Deployment.Name ∧
      d'.Deployment.Namespace = d.Deployment.Namespace ∧
      d'.Deployment.Cluster = d.Deployment.Cluster ∧
      d'.Deployment.Version = d.Deployment.Version ∧
      d'.Deployment.Labels = d.Deployment.Labels ∧
      d'.Deployment.Annotations = d.Deployment.Annotations ∧
      d'.Deployment.Selector = d.Deployment.Selector ∧
      d'.Deployment.DeploymentStatus = d.Deployment.DeploymentStatus := by
  simp only [Convert_Koki_Deployment_to_Kube_apps_v1beta2_Deployment] at hconv
  cases hrev : revertSelectorAndTemplate envT.parse d.Deployment.Name d.Deployment.Selector
      d.Deployment.TemplateMetadata with
  | error e => rw [hrev] at hconv; injection hconv
  | ok p =>
    obtain ⟨kubeSelector, tm⟩ := p
    rw [hrev] at hconv
    simp only at hconv
    cases hrt : envT.revertTemplate tm d.Deployment.PodTemplate with
    | error e => rw [hrt] at hconv; injection hconv
    | ok ot =>
      cases ot with
      | none => rw [hrt] at hconv; injection hconv
      | some kubeTemplate =>
        rw [hrt] at hconv
        simp only at hconv
        cases hst : revertDeploymentStatus envT d.Deployment.DeploymentStatus with
        | error e => rw [hst] at hconv; injection hconv
        | ok kst =>
          rw [hst] at hconv
          injection hconv with hconv
          have hName : k.Name = d.Deployment.Name := by rw [← hconv]
          have hNamespace : k.Namespace = d.Deployment.Namespace := by rw [← hconv]
          have hCluster : k.ClusterName = d.Deployment.Cluster := by rw [← hconv]
          have hLabels : k.Labels = d.Deployment.Labels := by rw [← hconv]
          have hAnnotations : k.Annotations = d.Deployment.Annotations := by rw [← hconv]
          have hSelector : k.Spec.Selector = kubeSelector := by rw [← hconv]
          have hStatus : k.Status = kst := by rw [← hconv]
          have hAPI : k.APIVersion = "v1beta2" := by
            rw [← hconv]
            simp only [hver]
            rfl
          obtain ⟨m, t, hct⟩ := htemplate
          obtain ⟨s', ov, hfrom, hkeep⟩ :=
            selector_survives envT envF d.Deployment.Name d.Deployment.Selector
              d.Deployment.TemplateMetadata tm kubeSelector k.Spec.Template.Labels hrev hsel
          rw [← hSelector] at hfrom
          have hback := fromStatus_of_revert envT envF hK hstatus _ _ hst
          rw [← hStatus] at hback
          have hnew := fromKubeDeploymentV1Beta2_ok envF k s' ov m t _ hfrom hct hback
          have hdisp : NewDeploymentFromKubeDeployment envF (.appsV1Beta2DeploymentPtr k) =
              fromKubeDeploymentV1Beta2 envF k := by
            simp only [NewDeploymentFromKubeDeployment, hAPI, ne_eq, not_true_eq_false,
              if_false]
          rw [hdisp]
          exact ⟨_, hnew, hName, hNamespace, hCluster, hAPI.trans hver.symm, hLabels,
            hAnnotations, hkeep, rfl⟩

/-- C26, amended, at the sample Deployment (version `"v1beta2"`, label selector
`{a: 1}`) and its canonical object. -/
theorem canonical_round_trip_witness :
    ∃ d', NewDeploymentFromKubeDeployment (sampleEnv sampleUnparse)
        (.appsV1Beta2DeploymentPtr sampleCanonical) = .ok d' ∧
      d'.Deployment.Name = sampleDeployment.Deployment.Name ∧
      d'.Deployment.Namespace = sampleDeployment.Deployment.Namespace ∧
      d'.Deployment.Cluster = sampleDeployment.Deployment.Cluster ∧
      d'.Deployment.Version = sampleDeployment.Deployment.Version ∧
      d'.Deployment.Labels = sampleDeployment.Deployment.Labels ∧
      d'.Deployment.Annotations = sampleDeployment.Deployment.Annotations ∧
      d'.Deployment.Selector = sampleDeployment.Deployment.Selector ∧
      d'.Deployment.DeploymentStatus = sampleDeployment.Deployment.DeploymentStatus :=
  canonical_round_trip sampleToKubeEnv (sampleEnv sampleUnparse) sampleDeployment
    sampleCanonical rfl rfl rfl
    (fun a b h => by
      simp only [sampleToKubeEnv, Except.ok.injEq] at h
      subst h
      rfl)
    ⟨_, _, rfl⟩
    (by simp [SelectorSurvives, sampleDeployment])

/-! ## Behaviour at the seams -/

theorem fromRSLabelSelector_ok_some (unparse : LabelSelector → Except Error String)
    (selector : Option LabelSelector) (templateLabels : GoMap) (s' : Option RSSelector)
    (ov : GoMap) (h : fromRSLabelSelector unparse selector templateLabels = .ok (s', ov)) :
    ∃ s, s' = some s ∧ (s.Labels = none ∨ s.Shorthand = "") := by
  cases selector with
  | none =>
    simp only [fromRSLabelSelector, Except.ok.injEq, Prod.mk.injEq] at h
    exact ⟨_, h.1.symm, Or.inr rfl⟩
  | some x =>
    by_cases hx : x.MatchExpressions.length = 0
    · cases hd : deepEqual x.MatchLabels templateLabels with
      | true =>
        simp only [fromRSLabelSelector, hx, if_true, hd, Except.ok.injEq, Prod.mk.injEq] at h
        exact ⟨_, h.1.symm, Or.inr rfl⟩
      | false =>
        simp only [fromRSLabelSelector, hx, if_true, hd, Bool.false_eq_true, if_false,
          Except.ok.injEq, Prod.mk.injEq] at h
        exact ⟨_, h.1.symm, Or.inr rfl⟩
    · cases hu : unparse x with
      | error e => simp [fromRSLabelSelector, hx, hu] at h
      | ok t =>
        simp only [fromRSLabelSelector, hx, if_false, hu, Except.ok.injEq, Prod.mk.injEq] at h
        exact ⟨_, h.1.symm, Or.inl rfl⟩

theorem fromKubeDeploymentV1Beta2_selector (env : FromKubeEnv) (k : KubeDeployment)
    (d : DeploymentWrapper) (h : fromKubeDeploymentV1Beta2 env k = .ok d) :
    ∃ s' ov, fromRSLabelSelector env.unparse k.Spec.Selector k.Spec.Template.Labels =
        .ok (s', ov) ∧ d.Deployment.Selector = keptSelector s' := by
  cases hfrom : fromRSLabelSelector env.unparse k.Spec.Selector k.Spec.Template.Labels with
  | error e => simp [fromKubeDeploymentV1Beta2, hfrom] at h
  | ok p =>
    obtain ⟨s', ov⟩ := p
    cases hct : env.convertTemplate k.Spec.Template with
    | error e => simp [fromKubeDeploymentV1Beta2, hfrom, hct] at h
    | ok q =>
      obtain ⟨m, t⟩ := q
      cases hst : fromDeploymentStatusV1Beta2 env k.Status with
      | error e => simp [fromKubeDeploymentV1Beta2, hfrom, hct, hst] at h
      | ok st =>
        rw [fromKubeDeploymentV1Beta2_ok env k s' ov m t st hfrom hct hst] at h
        injection h with h
        exact ⟨s', ov, rfl, by rw [← h]⟩

/-- C31: whenever `fromKubeDeploymentV1Beta2` succeeds, the reconciler returned
a selector, the Deployment's `Selector` is present exactly when that selector
has `Labels` set or a non-empty `Shorthand` (and is then that selector), a
present `Selector` has exactly one of its two forms populated, and a kube
Deployment with no selector and no template labels gives no `Selector`. -/
theorem fromKubeDeploymentV1Beta2_selector_guard (env : FromKubeEnv) (k : KubeDeployment)
    (d : DeploymentWrapper) (h : fromKubeDeploymentV1Beta2 env k = .ok d) :
    ∃ s ov, fromRSLabelSelector env.unparse k.Spec.Selector k.Spec.Template.Labels =
        .ok (some s, ov) ∧
      (d.Deployment.Selector ≠ none ↔ (s.Labels ≠ none ∨ s.Shorthand ≠ "")) ∧
      (d.Deployment.Selector ≠ none → d.Deployment.Selector = some s) ∧
      (∀ r, d.Deployment.Selector = some r → ExactlyOneForm r) ∧
      (k.Spec.Selector = none → k.Spec.Template.Labels = none →
        d.Deployment.Selector = none) := by
  obtain ⟨s', ov, hfrom, hsel⟩ := fromKubeDeploymentV1Beta2_selector env k d h
  obtain ⟨s, hs, hone⟩ := fromRSLabelSelector_ok_some _ _ _ _ _ hfrom
  subst hs
  have hkept : keptSelector (some s) =
      if s.Labels ≠ none ∨ s.Shorthand ≠ "" then some s else none := rfl
  rw [hkept] at hsel
  refine ⟨s, ov, hfrom, ?_, ?_, ?_, ?_⟩
  · by_cases hg : s.Labels ≠ none ∨ s.Shorthand ≠ ""
    · rw [if_pos hg] at hsel
      simp [hsel, hg]
    · rw [if_neg hg] at hsel
      simp [hsel, hg]
  · intro hne
    by_cases hg : s.Labels ≠ none ∨ s.Shorthand ≠ ""
    · rw [if_pos hg] at hsel
      exact hsel
    · rw [if_neg hg] at hsel
      exact absurd hsel hne
  · intro r hr
    by_cases hg : s.Labels ≠ none ∨ s.Shorthand ≠ ""
    · rw [if_pos hg, hr] at hsel
      injection hsel with hsel
      subst hsel
      cases hone with
      | inl hl =>
        cases hg with
        | inl hg => exact absurd hl hg
        | inr hg => exact Or.inr ⟨hg, hl⟩
      | inr hsh =>
        cases hg with
        | inl hg => exact Or.inl ⟨hg, hsh⟩
        | inr hg => exact absurd hsh hg
    · rw [if_neg hg, hr] at hsel
      injection hsel
  · intro hk hl
    rw [hk, hl] at hfrom
    simp only [fromRSLabelSelector, Except.ok.injEq, Prod.mk.injEq, Option.some.injEq] at hfrom
    obtain ⟨hs, _⟩ := hfrom
    subst hs
    rw [hsel]
    simp

/-- C31 at a kube Deployment with no selector and no template labels: the
conversion succeeds and the Deployment has no `Selector`. -/
theorem fromKubeDeploymentV1Beta2_selector_guard_witness :
    fromKubeDeploymentV1Beta2 (sampleEnv sampleUnparse) { APIVersion := "v1beta2" } =
        .ok { Deployment := { Version := "v1beta2", TemplateMetadata := some {} } } ∧
      ∃ s ov, fromRSLabelSelector sampleUnparse none none = .ok (some s, ov) ∧
        ((none : Option RSSelector) ≠ none ↔ (s.Labels ≠ none ∨ s.Shorthand ≠ "")) :=
  have h : fromKubeDeploymentV1Beta2 (sampleEnv sampleUnparse) { APIVersion := "v1beta2" } =
      .ok { Deployment := { Version := "v1beta2", TemplateMetadata := some {} } } := rfl
  ⟨h, by
    obtain ⟨s, ov, h1, h2, _⟩ :=
      fromKubeDeploymentV1Beta2_selector_guard (sampleEnv sampleUnparse) _ _ h
    exact ⟨s, ov, h1, h2⟩⟩

theorem Namespace_toKubeV1_of_ToKube (ns : Namespace) (k : KubeNamespace)
    (h : ns.ToKube = .ok k) : ns.toKubeV1 = .ok k := by
  unfold Namespace.ToKube at h
  by_cases h1 : toLower ns.Version = "v1"
  · rw [if_pos h1] at h
    exact h
  · rw [if_neg h1] at h
    by_cases h2 : toLower ns.Version = ""
    · rw [if_pos h2] at h
      exact h
    · rw [if_neg h2] at h
      injection h

theorem NewNamespace_of_toKubeV1 (ns : Namespace) (k : KubeNamespace)
    (h : ns.toKubeV1 = .ok k) (hapi : k.APIVersion = "v1") :
    ∃ r, NewNamespaceFromKubeNamespace (.coreV1NamespacePtr k) = .ok r := by
  obtain ⟨hphase, hall, hkeq⟩ := Namespace_toKubeV1_ok ns k h
  have hfin : fromKubeFinalizersV1 k.Spec.Finalizers =
      .ok (k.Spec.Finalizers.map (fun _ => FinalizerKubernetes)) := by
    apply fromKubeFinalizersV1_of_all
    intro f hf
    rw [hkeq] at hf
    simp only [List.mem_map] at hf
    obtain ⟨_, _, hf⟩ := hf
    exact hf.symm
  have hst : ∃ p, fromKubeNamespaceStatusV1 k.Status = .ok p := by
    rw [hkeq]
    cases hphase with
    | inl hp => exact ⟨NamespaceActive, by simp [fromKubeNamespaceStatusV1, hp]⟩
    | inr hp =>
      exact ⟨NamespaceTerminating, by
        simp [fromKubeNamespaceStatusV1, hp, NamespaceActive, NamespaceTerminating,
          kubeNamespaceActive, kubeNamespaceTerminating]⟩
  obtain ⟨p, hp⟩ := hst
  simp only [NewNamespaceFromKubeNamespace, hapi, ne_eq, not_true_eq_false, if_false,
    fromKubeNamespaceV1, fromKubeNamespaceSpecV1, hfin, hp]
  exact ⟨_, rfl⟩

/-- C32: for every Namespace on which `ToKube` succeeds,
`NewNamespaceFromKubeNamespace` accepts the `*v1.Namespace` that `ToKube`
returned exactly when `Version` is empty or is `"v1"`; for any other `Version`
`ToKube` copied it into `APIVersion` as it is, and the conversion back fails
with the mis-matched-versions error naming `*v1.Namespace` and that version. -/
theorem namespace_version_case (ns : Namespace) (k : KubeNamespace)
    (h : ns.ToKube = .ok k) :
    ((∃ r, NewNamespaceFromKubeNamespace (.coreV1NamespacePtr k) = .ok r) ↔
      (ns.Version = "" ∨ ns.Version = "v1")) ∧
    (ns.Version ≠ "" → ns.Version ≠ "v1" →
      k.APIVersion = ns.Version ∧
        NewNamespaceFromKubeNamespace (.coreV1NamespacePtr k) =
          .error (.errorf ("mis-matched versions.  Namespace type: " ++ "*v1.Namespace" ++
            ", APIVersion: " ++ ns.Version))) := by
  have hk := Namespace_toKubeV1_of_ToKube ns k h
  obtain ⟨_, _, hkeq⟩ := Namespace_toKubeV1_ok ns k hk
  have hapi : k.APIVersion = if ns.Version = "" then "v1" else ns.Version := by
    rw [hkeq]
    simp only [length_eq_zero_iff_empty]
  have hbad : ns.Version ≠ "" → ns.Version ≠ "v1" →
      k.APIVersion = ns.Version ∧
        NewNamespaceFromKubeNamespace (.coreV1NamespacePtr k) =
          .error (.errorf ("mis-matched versions.  Namespace type: " ++ "*v1.Namespace" ++
            ", APIVersion: " ++ ns.Version)) := by
    intro h0 h1
    have hv : k.APIVersion = ns.Version := by rw [hapi, if_neg h0]
    refine ⟨hv, ?_⟩
    have hne : k.APIVersion ≠ "v1" := by rw [hv]; exact h1
    simp only [NewNamespaceFromKubeNamespace, typeString]
    rw [if_pos hne, hv]
  refine ⟨⟨?_, ?_⟩, hbad⟩
  · rintro ⟨r, hr⟩
    by_cases h0 : ns.Version = ""
    · exact Or.inl h0
    · by_cases h1 : ns.Version = "v1"
      · exact Or.inr h1
      · rw [(hbad h0 h1).2] at hr
        injection hr
  · intro hv
    apply NewNamespace_of_toKubeV1 ns k hk
    rw [hapi]
    cases hv with
    | inl hv => rw [if_pos hv]
    | inr hv => rw [hv]; rfl

/-- C32 at a Namespace of version `"V1"`: `ToKube` succeeds and declares
`"V1"`, which the conversion back refuses. -/
theorem namespace_version_case_witness :
    Namespace.ToKube { Version := "V1" } =
        .ok { APIVersion := "V1", Kind := "Namespace", Status := { Phase := "Active" } } ∧
      NewNamespaceFromKubeNamespace (.coreV1NamespacePtr
          { APIVersion := "V1", Kind := "Namespace", Status := { Phase := "Active" } }) =
        .error (.errorf "mis-matched versions.  Namespace type: *v1.Namespace, APIVersion: V1") :=
  ⟨rfl, ((namespace_version_case { Version := "V1" }
      { APIVersion := "V1", Kind := "Namespace", Status := { Phase := "Active" } } rfl).2
        (by decide) (by decide)).2⟩

/-- C33: for every DeploymentWrapper on which
`Convert_Koki_Deployment_to_Kube_apps_v1beta2_Deployment` succeeds, the
canonical object has `Kind` `"Deployment"` and an `APIVersion` equal to the
manifest's `Version`, or to `"extensions/v1beta1"` when that is empty; so the
canonical `*v1beta2.Deployment` of a manifest with an empty `Version` is
refused by `NewDeploymentFromKubeDeployment` with the mis-matched-versions
error. -/
theorem Convert_kind_and_version (envT : ToKubeEnv) (d : DeploymentWrapper)
    (k : KubeDeployment)
    (h : (Convert_Koki_Deployment_to_Kube_apps_v1beta2_Deployment envT d).1 = .ok k) :
    k.Kind = "Deployment" ∧
      k.APIVersion =
        (if d.Deployment.Version = "" then "extensions/v1beta1" else d.Deployment.Version) ∧
      (d.Deployment.Version = "" →
        ∀ envF, NewDeploymentFromKubeDeployment envF (.appsV1Beta2DeploymentPtr k) =
          .error (.errorf ("mis-matched versions.  Deployment type: " ++
            "*v1beta2.Deployment" ++ ", APIVersion: " ++ "extensions/v1beta1"))) := by
  have hfields : k.Kind = "Deployment" ∧
      k.APIVersion =
        (if d.Deployment.Version = "" then "extensions/v1beta1"
          else d.Deployment.Version) := by
    simp only [Convert_Koki_Deployment_to_Kube_apps_v1beta2_Deployment] at h
    cases hrev : revertSelectorAndTemplate envT.parse d.Deployment.Name d.Deployment.Selector
        d.Deployment.TemplateMetadata with
    | error e => rw [hrev] at h; injection h
    | ok p =>
      obtain ⟨kubeSelector, tm⟩ := p
      rw [hrev] at h
      simp only at h
      cases hrt : envT.revertTemplate tm d.Deployment.PodTemplate with
      | error e => rw [hrt] at h; injection h
      | ok ot =>
        cases ot with
        | none => rw [hrt] at h; injection h
        | some kubeTemplate =>
          rw [hrt] at h
          simp only at h
          cases hst : revertDeploymentStatus envT d.Deployment.DeploymentStatus with
          | error e => rw [hst] at h; injection h
          | ok kst =>
            rw [hst] at h
            injection h with h
            rw [← h]
            simp only [length_eq_zero_iff_empty, and_self]
  refine ⟨hfields.1, hfields.2, ?_⟩
  intro hv envF
  have hapi : k.APIVersion = "extensions/v1beta1" := by rw [hfields.2, if_pos hv]
  have hne : k.APIVersion ≠ "v1beta2" := by rw [hapi]; decide
  simp only [NewDeploymentFromKubeDeployment, typeString]
  rw [if_pos hne, hapi]

/-- C33 at the sample Deployment with an empty `Version`. -/
theorem Convert_kind_and_version_witness :
    ∃ k, (Convert_Koki_Deployment_to_Kube_apps_v1beta2_Deployment sampleToKubeEnv
        sampleDeploymentNoVersion).1 = .ok k ∧
      k.Kind = "Deployment" ∧ k.APIVersion = "extensions/v1beta1" :=
  ⟨_, rfl,
    (Convert_kind_and_version sampleToKubeEnv sampleDeploymentNoVersion _ rfl).1,
    (Convert_kind_and_version sampleToKubeEnv sampleDeploymentNoVersion _ rfl).2.1⟩

end Mantle
